import Mathlib

/-!
# SarTool: provisioning records, the live SAR commands, notifications and main

A shallow embedding of `SarTool.cpp`, `Dmf_Wlan_Public.h` and `Wlan_Ihv_Config.h`.

* Machine integers are natural numbers; a `UINT8` field is a `Nat` below `256`, a `UINT16`
  field a `Nat` below `65536`, a `UINT32` field a `Nat` below `4294967296`.
* A struct is a Lean structure together with its object representation (`bytes`), the list of
  bytes `memcpy`, `ofstream::write` and the firmware calls see; each entry is the stored byte,
  a field value reduced to its width. The target is little-endian.
* `sizeof` is computed from the member list by the layout rule of the compiler under the
  `#pragma pack` value in force at the declaration.
* Calls that leave the program (files, the WLAN API, the C runtime) are explicit arguments.
-/

namespace SarTool

/-! ## Struct layout -/

/-- A struct member as the layout rule sees it: its size and its natural alignment. -/
structure Member where
  size : Nat
  align : Nat
deriving DecidableEq, Repr

/-- The smallest multiple of `a` that is at least `offset`. -/
def alignUp (offset a : Nat) : Nat := (offset + a - 1) / a * a

/-- Alignment of a member under `#pragma pack(pack)`: the smaller of the two. -/
def memberAlign (pack : Nat) (m : Member) : Nat := min m.align pack

/-- Offsets of the members, laid out in declaration order starting at `offset`. -/
def memberOffsets (pack : Nat) : Nat → List Member → List Nat
  | _, [] => []
  | offset, m :: ms =>
    alignUp offset (memberAlign pack m) ::
      memberOffsets pack (alignUp offset (memberAlign pack m) + m.size) ms

/-- Offset just past the last member. -/
def membersEnd (pack : Nat) : Nat → List Member → Nat
  | offset, [] => offset
  | offset, m :: ms => membersEnd pack (alignUp offset (memberAlign pack m) + m.size) ms

/-- Alignment of the struct: the largest member alignment. -/
def structAlign (pack : Nat) (ms : List Member) : Nat :=
  ms.foldl (fun a m => max a (memberAlign pack m)) 1

/-- Value of `sizeof` for a struct: the end of the members rounded up to the struct alignment. -/
def sizeofStruct (pack : Nat) (ms : List Member) : Nat :=
  alignUp (membersEnd pack 0 ms) (structAlign pack ms)

/-- Sum of the member widths, padding excluded. -/
def membersWidth (ms : List Member) : Nat := (ms.map Member.size).sum

def UINT8 : Member := ⟨1, 1⟩
def UINT16 : Member := ⟨2, 2⟩
def UINT32 : Member := ⟨4, 4⟩

/-- Member alignment limit when no `#pragma pack` is in force (the compiler default, `/Zp8`). -/
def defaultPack : Nat := 8

/-! ## Constants of the headers -/

def MAX_NUM_SAR_WIFI_POWER_TABLE : Nat := 12
def MAX_NUM_SAR_WIFI_POWER_VALUES_PER_TABLE : Nat := 5

def WifiSARHeader : String := "WifiSARHeader"
def WifiSARConfig : String := "WifiSARConfig"
def WifiRegionConfig : String := "WifiRegionConfig"
def WifiSARTable : String := "WifiSARTable"

def WDI_SET_SAR_STATE : Nat := 0x01
def WDI_GET_SAR_STATE : Nat := 0x02

def WDI_SARBACKOFF_DISABLED : Nat := 0x00
def WDI_SARBACKOFF_ENABLED : Nat := 0x01

def WDI_802_11_AC : Nat := 1
def WDI_802_11_AX : Nat := 2
def WDI_802_11_AD : Nat := 4

def WDI_DYNAMIC_GEO_VALUE_DISABLED : Nat := 0
def WDI_DYNAMIC_GEO_VALUE_ENABLED : Nat := 1
def WDI_DYNAMIC_GEO_TYPE_DYNAMIC_THEN_STATIC : Nat := 2

def MAX_PATH : Nat := 260

/-! ## Little-endian integers -/

/-- Object representation of a 16-bit value. -/
def le16 (v : Nat) : List Nat := [v % 256, v / 256 % 256]

/-- Object representation of a 32-bit value. -/
def le32 (v : Nat) : List Nat := [v % 256, v / 256 % 256, v / 65536 % 256, v / 16777216 % 256]

/-- The byte at index `i` of a buffer (`0` past its end; callers stay inside). -/
def byteAt (bs : List Nat) (i : Nat) : Nat := bs.getD i 0

/-- The 16-bit value stored at offset `i`. -/
def u16At (bs : List Nat) (i : Nat) : Nat := byteAt bs i + 256 * byteAt bs (i + 1)

/-- The 32-bit value stored at offset `i`. -/
def u32At (bs : List Nat) (i : Nat) : Nat :=
  byteAt bs i + 256 * byteAt bs (i + 1) + 65536 * byteAt bs (i + 2) + 16777216 * byteAt bs (i + 3)

/-! ## SAR_CONFIG_HEADER (declared under `#pragma pack(1)`) -/

structure SAR_CONFIG_HEADER where
  Size : Nat
  HeaderOffset1 : Nat
  HeaderOffset2 : Nat
  WLANTechnology : Nat
  ProductID : Nat
  Version : Nat
  Revision : Nat
  NumberSARTables : Nat
  SARTablesCompressed : Nat
  SARTimersFormat : Nat
  ReservedA : Nat
  ReservedB : Nat
  ReservedC : Nat
  ReservedD : Nat
  ReservedE : Nat
  ReservedF : Nat
deriving DecidableEq, Repr

namespace SAR_CONFIG_HEADER

def members : List Member := List.replicate 16 UINT8

def sizeof : Nat := sizeofStruct 1 members

/-- Every field fits its `UINT8`. -/
def Valid (h : SAR_CONFIG_HEADER) : Prop :=
  h.Size < 256 ∧ h.HeaderOffset1 < 256 ∧ h.HeaderOffset2 < 256 ∧ h.WLANTechnology < 256 ∧
  h.ProductID < 256 ∧ h.Version < 256 ∧ h.Revision < 256 ∧ h.NumberSARTables < 256 ∧
  h.SARTablesCompressed < 256 ∧ h.SARTimersFormat < 256 ∧ h.ReservedA < 256 ∧
  h.ReservedB < 256 ∧ h.ReservedC < 256 ∧ h.ReservedD < 256 ∧ h.ReservedE < 256 ∧
  h.ReservedF < 256

instance (h : SAR_CONFIG_HEADER) : Decidable h.Valid := by
  unfold Valid; infer_instance

/-- Result of `= { 0 }`. -/
def zero : SAR_CONFIG_HEADER := ⟨0, 0, 0, 0, 0, 0, 0, 0, 0, 0, 0, 0, 0, 0, 0, 0⟩

/-- Object representation. -/
def bytes (h : SAR_CONFIG_HEADER) : List Nat :=
  [h.Size % 256, h.HeaderOffset1 % 256, h.HeaderOffset2 % 256, h.WLANTechnology % 256,
   h.ProductID % 256, h.Version % 256, h.Revision % 256, h.NumberSARTables % 256,
   h.SARTablesCompressed % 256, h.SARTimersFormat % 256, h.ReservedA % 256, h.ReservedB % 256,
   h.ReservedC % 256, h.ReservedD % 256, h.ReservedE % 256, h.ReservedF % 256]

/-- The struct whose object representation is `bs` (what `memcpy` into the struct leaves). -/
def ofBytes (bs : List Nat) : SAR_CONFIG_HEADER :=
  { Size := byteAt bs 0, HeaderOffset1 := byteAt bs 1, HeaderOffset2 := byteAt bs 2,
    WLANTechnology := byteAt bs 3, ProductID := byteAt bs 4, Version := byteAt bs 5,
    Revision := byteAt bs 6, NumberSARTables := byteAt bs 7,
    SARTablesCompressed := byteAt bs 8, SARTimersFormat := byteAt bs 9,
    ReservedA := byteAt bs 10, ReservedB := byteAt bs 11, ReservedC := byteAt bs 12,
    ReservedD := byteAt bs 13, ReservedE := byteAt bs 14, ReservedF := byteAt bs 15 }

end SAR_CONFIG_HEADER

/-! ## SAR_CONFIG_VALUES (declared under `#pragma pack(1)`) -/

structure SAR_CONFIG_VALUES where
  Size : Nat
  SARSafetyTimer : Nat
  SARSafetyRequestResponseTimeout : Nat
  SARUnsolicitedUpdateTimer : Nat
  SARState : Nat
  SleepModeState : Nat
  SARPowerOnState : Nat
  SARPowerOnStateAfterFailure : Nat
  SARSafetyTableIndex : Nat
  SleepModeStateIndexTable : Nat
deriving DecidableEq, Repr

namespace SAR_CONFIG_VALUES

def members : List Member :=
  [UINT8, UINT32, UINT32, UINT32, UINT8, UINT8, UINT8, UINT8, UINT8, UINT8]

def sizeof : Nat := sizeofStruct 1 members

/-- Every field fits its declared width. -/
def Valid (v : SAR_CONFIG_VALUES) : Prop :=
  v.Size < 256 ∧ v.SARSafetyTimer < 4294967296 ∧
  v.SARSafetyRequestResponseTimeout < 4294967296 ∧ v.SARUnsolicitedUpdateTimer < 4294967296 ∧
  v.SARState < 256 ∧ v.SleepModeState < 256 ∧ v.SARPowerOnState < 256 ∧
  v.SARPowerOnStateAfterFailure < 256 ∧ v.SARSafetyTableIndex < 256 ∧
  v.SleepModeStateIndexTable < 256

instance (v : SAR_CONFIG_VALUES) : Decidable v.Valid := by
  unfold Valid; infer_instance

/-- Result of `= { 0 }`. -/
def zero : SAR_CONFIG_VALUES := ⟨0, 0, 0, 0, 0, 0, 0, 0, 0, 0⟩

/-- Object representation. -/
def bytes (v : SAR_CONFIG_VALUES) : List Nat :=
  [v.Size % 256] ++ le32 v.SARSafetyTimer ++ le32 v.SARSafetyRequestResponseTimeout ++
  le32 v.SARUnsolicitedUpdateTimer ++
  [v.SARState % 256, v.SleepModeState % 256, v.SARPowerOnState % 256,
   v.SARPowerOnStateAfterFailure % 256, v.SARSafetyTableIndex % 256,
   v.SleepModeStateIndexTable % 256]

/-- The struct whose object representation is `bs`. -/
def ofBytes (bs : List Nat) : SAR_CONFIG_VALUES :=
  { Size := byteAt bs 0, SARSafetyTimer := u32At bs 1,
    SARSafetyRequestResponseTimeout := u32At bs 5, SARUnsolicitedUpdateTimer := u32At bs 9,
    SARState := byteAt bs 13, SleepModeState := byteAt bs 14, SARPowerOnState := byteAt bs 15,
    SARPowerOnStateAfterFailure := byteAt bs 16, SARSafetyTableIndex := byteAt bs 17,
    SleepModeStateIndexTable := byteAt bs 18 }

end SAR_CONFIG_VALUES

/-! ## WDI_GEO_STATE_ALPHA (under `#pragma pack(1)`) and REGION_CONFIG_VALUES (after the
`#pragma pack(pop)`, so under the default packing) -/

namespace WDI_GEO_STATE_ALPHA

def members : List Member := [UINT16, UINT16]

def sizeof : Nat := sizeofStruct 1 members

/-- The struct as a member of an enclosing struct. -/
def asMember : Member := ⟨sizeof, structAlign 1 members⟩

end WDI_GEO_STATE_ALPHA

structure REGION_CONFIG_VALUES where
  AsciiChars : Nat
  Reserved : Nat
  GeoLocationValue : Nat
  DynamicGeoState : Nat
  DynamicGeoType : Nat
deriving DecidableEq, Repr

namespace REGION_CONFIG_VALUES

def members : List Member := [WDI_GEO_STATE_ALPHA.asMember, UINT32, UINT8, UINT8]

def sizeof : Nat := sizeofStruct defaultPack members

/-- Every field fits its declared width. -/
def Valid (r : REGION_CONFIG_VALUES) : Prop :=
  r.AsciiChars < 65536 ∧ r.Reserved < 65536 ∧ r.GeoLocationValue < 4294967296 ∧
  r.DynamicGeoState < 256 ∧ r.DynamicGeoType < 256

instance (r : REGION_CONFIG_VALUES) : Decidable r.Valid := by
  unfold Valid; infer_instance

/-- Result of `= {0}`. -/
def zero : REGION_CONFIG_VALUES := ⟨0, 0, 0, 0, 0⟩

/-- Bytes of the fields, in declaration order. -/
def fieldBytes (r : REGION_CONFIG_VALUES) : List Nat :=
  le16 r.AsciiChars ++ le16 r.Reserved ++ le32 r.GeoLocationValue ++
  [r.DynamicGeoState % 256, r.DynamicGeoType % 256]

/-- Object representation: the fields, then the trailing padding up to `sizeof`, whose bytes
(`padding i` for the `i`-th) belong to no field. -/
def bytes (r : REGION_CONFIG_VALUES) (padding : Nat → Nat) : List Nat :=
  r.fieldBytes ++ (List.range (sizeof - membersEnd defaultPack 0 members)).map padding

/-- The struct whose object representation is `bs`. -/
def ofBytes (bs : List Nat) : REGION_CONFIG_VALUES :=
  { AsciiChars := u16At bs 0, Reserved := u16At bs 2, GeoLocationValue := u32At bs 4,
    DynamicGeoState := byteAt bs 8, DynamicGeoType := byteAt bs 9 }

end REGION_CONFIG_VALUES

/-! ## SAR_POWER_TABLE -/

structure SAR_POWER_TABLE where
  PowerValues : Fin MAX_NUM_SAR_WIFI_POWER_TABLE →
    Fin MAX_NUM_SAR_WIFI_POWER_VALUES_PER_TABLE → Nat

namespace SAR_POWER_TABLE

def members : List Member :=
  [⟨MAX_NUM_SAR_WIFI_POWER_TABLE * MAX_NUM_SAR_WIFI_POWER_VALUES_PER_TABLE * UINT8.size,
    UINT8.align⟩]

def sizeof : Nat := sizeofStruct defaultPack members

/-- Every cell fits its `UINT8`. -/
def Valid (t : SAR_POWER_TABLE) : Prop := ∀ row col, t.PowerValues row col < 256

instance (t : SAR_POWER_TABLE) : Decidable t.Valid := by
  unfold Valid; infer_instance

/-- Result of `= {0}`. -/
def zero : SAR_POWER_TABLE := ⟨fun _ _ => 0⟩

/-- The cell at `(row, col)`, `0` outside the array. -/
def cell (t : SAR_POWER_TABLE) (row col : Nat) : Nat :=
  if h : row < MAX_NUM_SAR_WIFI_POWER_TABLE ∧ col < MAX_NUM_SAR_WIFI_POWER_VALUES_PER_TABLE then
    t.PowerValues ⟨row, h.1⟩ ⟨col, h.2⟩
  else 0

/-- Object representation: the two-dimensional array in row-major order. -/
def bytes (t : SAR_POWER_TABLE) : List Nat :=
  (List.range (MAX_NUM_SAR_WIFI_POWER_TABLE * MAX_NUM_SAR_WIFI_POWER_VALUES_PER_TABLE)).map
    fun i => t.cell (i / MAX_NUM_SAR_WIFI_POWER_VALUES_PER_TABLE)
      (i % MAX_NUM_SAR_WIFI_POWER_VALUES_PER_TABLE) % 256

/-- The struct whose object representation is `bs`. -/
def ofBytes (bs : List Nat) : SAR_POWER_TABLE :=
  ⟨fun row col => byteAt bs (row.val * MAX_NUM_SAR_WIFI_POWER_VALUES_PER_TABLE + col.val)⟩

end SAR_POWER_TABLE

/-! ## HRESULT values -/

def S_OK : Nat := 0
def E_UNEXPECTED : Nat := 0x8000FFFF
def E_OUTOFMEMORY : Nat := 0x8007000E
def E_INVALIDARG : Nat := 0x80070057
def ERROR_SUCCESS : Nat := 0

/-- The macro `HRESULT_FROM_WIN32(x)` of the SDK, on 32-bit patterns:
`(HRESULT)(x) <= 0 ? (HRESULT)(x) :
(HRESULT)((x & 0x0000FFFF) | (FACILITY_WIN32 << 16) | 0x80000000)`
with `FACILITY_WIN32 = 7`. A pattern is `<= 0` as a signed value when it is `0` or has bit 31
set; the low 16 bits and `0x80070000` share no bit, so the bitwise or is a sum. -/
def HRESULT_FROM_WIN32 (x : Nat) : Nat :=
  if x = 0 ∨ 2147483648 ≤ x then x else x % 65536 + 0x80070000

/-! ## The flat-file store -/

/-- The files the process sees: the content of each path that holds a file, and whether an
`ofstream` can open the path for writing. -/
structure FileSystem where
  files : String → Option (List Nat)
  canCreate : String → Bool

/-- The text the format `"%s\\%ws.bin"` produces for a folder and a variable name. -/
def fullPathOf (path name : String) : String := path ++ "\\" ++ name ++ ".bin"

/-- Effect of `sprintf_s(fullPath, sizeof(fullPath), "%s\\%ws.bin", path, name)` with
`char fullPath[MAX_PATH]`: the formatted name when it fits together with its terminator,
`none` when it does not (the runtime then ends the process). -/
def sprintfFullPath (path name : String) : Option String :=
  if (fullPathOf path name).length < MAX_PATH then some (fullPathOf path name) else none

/-- Effect of opening `fullPath` with `std::ofstream::out | std::ofstream::binary`, then
`output.write((const char *)&object, count)` and `output.close()`: the file is replaced by the
first `count` bytes of the object; nothing happens when the stream could not be opened. -/
def ofstreamWrite (fs : FileSystem) (fullPath : String) (object : List Nat) (count : Nat) :
    FileSystem :=
  if fs.canCreate fullPath then
    { fs with files := fun p => if p = fullPath then some (object.take count) else fs.files p }
  else fs

/-- Effect of filling the cleared `std::vector<char>` from `std::istreambuf_iterator<char>`
over an `ifstream` opened on `fullPath`: the whole file, or nothing when there is no file. -/
def ifstreamReadAll (fs : FileSystem) (fullPath : String) : List Nat :=
  (fs.files fullPath).getD []

/-- Effect of `memcpy(&record, buffer.data(), count)`: `count` bytes starting at the storage of
the vector. The first `buffer.size()` of them are its elements; whatever is read past
them is memory the vector does not hold, given by `beyond`. -/
def memcpyFromVector (buffer : List Nat) (beyond : Nat → Nat) (count : Nat) : List Nat :=
  (List.range count).map fun i => buffer.getD i (beyond i)

/-- Whether `memcpy(&record, buffer.data(), count)` reads past the elements of the vector. -/
def readsPastEnd (buffer : List Nat) (count : Nat) : Bool := decide (buffer.length < count)

/-! ## SetConfig -/

/-- The example `SAR_CONFIG_HEADER` that `SetConfig` populates. -/
def SetConfig.sarConfigHeader : SAR_CONFIG_HEADER :=
  { Size := (SAR_CONFIG_HEADER.sizeof + 2 * SAR_CONFIG_VALUES.sizeof) % 256
    HeaderOffset1 := SAR_CONFIG_HEADER.sizeof % 256
    HeaderOffset2 := (SAR_CONFIG_HEADER.sizeof + SAR_CONFIG_VALUES.sizeof) % 256
    WLANTechnology := WDI_802_11_AD
    ProductID := 0x4
    Version := 0x5
    Revision := 0x6
    NumberSARTables := 0x7
    SARTablesCompressed := 0x8
    SARTimersFormat := 0x9
    ReservedA := 0xa
    ReservedB := 0xb
    ReservedC := 0xc
    ReservedD := 0xd
    ReservedE := 0xe
    ReservedF := 0xf }

/-- The example `SAR_CONFIG_VALUES` that `SetConfig` populates. -/
def SetConfig.sarConfigValues : SAR_CONFIG_VALUES :=
  { Size := SAR_CONFIG_VALUES.sizeof % 256
    SARSafetyTimer := 0xabcdef01
    SARSafetyRequestResponseTimeout := 0xbbbbbbbb
    SARUnsolicitedUpdateTimer := 0xcccccccc
    SARState := 0x55
    SleepModeState := 0x44
    SARPowerOnState := 0x33
    SARPowerOnStateAfterFailure := 0x22
    SARSafetyTableIndex := 0x11
    SleepModeStateIndexTable := 0x05 }

/-- The example `REGION_CONFIG_VALUES` that `SetConfig` populates (`Reserved` stays `0`). -/
def SetConfig.regionConfigValues : REGION_CONFIG_VALUES :=
  { AsciiChars := 0x5048
    Reserved := 0
    GeoLocationValue := 0x11111111
    DynamicGeoState := WDI_DYNAMIC_GEO_VALUE_ENABLED
    DynamicGeoType := WDI_DYNAMIC_GEO_TYPE_DYNAMIC_THEN_STATIC }

/-- The example `SAR_POWER_TABLE` that `SetConfig` populates: the two nested loops store
`1 + col + (row*MAX_NUM_SAR_WIFI_POWER_VALUES_PER_TABLE)` into each `UINT8` cell. -/
def SetConfig.sarPowerTable : SAR_POWER_TABLE :=
  ⟨fun row col => (1 + col.val + row.val * MAX_NUM_SAR_WIFI_POWER_VALUES_PER_TABLE) % 256⟩

/-- What the file branch leaves behind: the files, and the `hr` returned, or no `hr` when
the process ended inside `sprintf_s`. -/
structure SetConfigOutcome where
  fs : FileSystem
  hr : Option Nat

/-- The `else` branch of `SetConfig` (the path is a folder), for the four records held in the
locals `sarConfigHeader`, `sarConfigValues`, `regionConfigValues` (with its padding bytes) and
`sarPowerTable`: each is written whole, `sizeof` bytes, to its own file. -/
def SetConfig.fileBranch (path : String) (sarConfigHeader : SAR_CONFIG_HEADER)
    (sarConfigValues : SAR_CONFIG_VALUES) (regionConfigValues : REGION_CONFIG_VALUES)
    (padding : Nat → Nat) (sarPowerTable : SAR_POWER_TABLE) (fs : FileSystem) :
    SetConfigOutcome :=
  match sprintfFullPath path WifiSARHeader with
  | none => ⟨fs, none⟩
  | some p1 =>
    let fs1 := ofstreamWrite fs p1 sarConfigHeader.bytes SAR_CONFIG_HEADER.sizeof
    match sprintfFullPath path WifiSARConfig with
    | none => ⟨fs1, none⟩
    | some p2 =>
      let fs2 := ofstreamWrite fs1 p2 sarConfigValues.bytes SAR_CONFIG_VALUES.sizeof
      match sprintfFullPath path WifiRegionConfig with
      | none => ⟨fs2, none⟩
      | some p3 =>
        let fs3 := ofstreamWrite fs2 p3 (regionConfigValues.bytes padding)
          REGION_CONFIG_VALUES.sizeof
        match sprintfFullPath path WifiSARTable with
        | none => ⟨fs3, none⟩
        | some p4 =>
          ⟨ofstreamWrite fs3 p4 sarPowerTable.bytes SAR_POWER_TABLE.sizeof, some S_OK⟩

/-- The function `SetConfig` on a folder path: the file branch applied to the example
records. -/
def SetConfig.files (path : String) (padding : Nat → Nat) (fs : FileSystem) : SetConfigOutcome :=
  SetConfig.fileBranch path SetConfig.sarConfigHeader SetConfig.sarConfigValues
    SetConfig.regionConfigValues padding SetConfig.sarPowerTable fs

/-! ## GetConfig -/

/-- The four records `GetConfig` holds when it starts printing, and the variables whose
`memcpy` read past the bytes obtained from the file. -/
structure ConfigRecords where
  sarConfigHeader : SAR_CONFIG_HEADER
  sarConfigValues : SAR_CONFIG_VALUES
  regionConfigValues : REGION_CONFIG_VALUES
  sarPowerTable : SAR_POWER_TABLE
  readPastEnd : List String

/-- The header read of the file branch: the record is copied only under
`buffer.size() >= sizeof(sarConfigHeader)`, and else keeps its `{ 0 }`. -/
def GetConfig.readHeader (buffer : List Nat) (beyond : Nat → Nat) : SAR_CONFIG_HEADER :=
  if SAR_CONFIG_HEADER.sizeof ≤ buffer.length then
    SAR_CONFIG_HEADER.ofBytes (memcpyFromVector buffer beyond SAR_CONFIG_HEADER.sizeof)
  else SAR_CONFIG_HEADER.zero

/-- The `SAR_CONFIG_VALUES` read of the file branch: an unguarded `memcpy`. -/
def GetConfig.readValues (buffer : List Nat) (beyond : Nat → Nat) : SAR_CONFIG_VALUES :=
  SAR_CONFIG_VALUES.ofBytes (memcpyFromVector buffer beyond SAR_CONFIG_VALUES.sizeof)

/-- The `REGION_CONFIG_VALUES` read of the file branch: an unguarded `memcpy`. -/
def GetConfig.readRegion (buffer : List Nat) (beyond : Nat → Nat) : REGION_CONFIG_VALUES :=
  REGION_CONFIG_VALUES.ofBytes (memcpyFromVector buffer beyond REGION_CONFIG_VALUES.sizeof)

/-- The `SAR_POWER_TABLE` read of the file branch: an unguarded `memcpy`. -/
def GetConfig.readTable (buffer : List Nat) (beyond : Nat → Nat) : SAR_POWER_TABLE :=
  SAR_POWER_TABLE.ofBytes (memcpyFromVector buffer beyond SAR_POWER_TABLE.sizeof)

/-- The `else` branch of `GetConfig` (the path is a folder), up to the point where printing
starts. `beyond k` is the memory that follows the elements of the vector at the `k`-th read.
The result is `none` when the process ended inside `sprintf_s`. -/
def GetConfig.fileBranch (path : String) (fs : FileSystem) (beyond : Nat → Nat → Nat) :
    Option ConfigRecords :=
  match sprintfFullPath path WifiSARHeader with
  | none => none
  | some p1 =>
    let buffer1 := ifstreamReadAll fs p1
    match sprintfFullPath path WifiSARConfig with
    | none => none
    | some p2 =>
      let buffer2 := ifstreamReadAll fs p2
      match sprintfFullPath path WifiRegionConfig with
      | none => none
      | some p3 =>
        let buffer3 := ifstreamReadAll fs p3
        match sprintfFullPath path WifiSARTable with
        | none => none
        | some p4 =>
          let buffer4 := ifstreamReadAll fs p4
          some
            { sarConfigHeader := GetConfig.readHeader buffer1 (beyond 0)
              sarConfigValues := GetConfig.readValues buffer2 (beyond 1)
              regionConfigValues := GetConfig.readRegion buffer3 (beyond 2)
              sarPowerTable := GetConfig.readTable buffer4 (beyond 3)
              readPastEnd :=
                (if readsPastEnd buffer2 SAR_CONFIG_VALUES.sizeof then [WifiSARConfig] else []) ++
                (if readsPastEnd buffer3 REGION_CONFIG_VALUES.sizeof then [WifiRegionConfig]
                  else []) ++
                (if readsPastEnd buffer4 SAR_POWER_TABLE.sizeof then [WifiSARTable] else []) }

/-! ## The live Wi-Fi command: WDI_SAR_STATE, WDI_SAR_CONFIG_SET, GetSetSARWiFi

The body of `GetSetSARWiFi` is the one compiled against an SDK that defines
`WlanDeviceServiceCommand` (`NTDDI_VERSION >= NTDDI_WIN10_RS4`). -/

namespace WDI_SAR_STATE

/-- Members `SarBackoffStatus` (an enum, stored as a 32-bit integer), `MIMOConfigType` and
`NumWdiSarConfigElements`. -/
def members : List Member := [UINT32, UINT32, UINT32]

def sizeof : Nat := sizeofStruct defaultPack members

end WDI_SAR_STATE

namespace WDI_SAR_CONFIG_SET

/-- Members `WDI_SARAntennaIndex` and `WDI_SARBackOffIndex`. -/
def members : List Member := [UINT32, UINT32]

def sizeof : Nat := sizeofStruct defaultPack members

end WDI_SAR_CONFIG_SET

/-- The C runtime functions the command line goes through. -/
structure CRuntime where
  /-- Value of `strtoul(s, nullptr, 16)`. -/
  strtoul16 : String → Nat
  /-- Value of `atoi(s)`. -/
  atoi : String → Int
  /-- Value `_snscanf_s(s, 5, "0x%x", &v)` stores in `v`, if it stores one. -/
  snscanf0x : String → Option Nat

/-- What the WLAN API and the allocator answer during one call of `GetSetSARWiFi`. -/
structure WlanEnv where
  /-- Return value of `WlanOpenHandle`. -/
  openResult : Nat
  /-- Handle `WlanOpenHandle` stores in `hClient` when it succeeds; when it fails `hClient`
  keeps its initial `NULL`. -/
  handle : Nat
  /-- Return value of `WlanEnumInterfaces`. -/
  enumResult : Nat
  /-- Pointer `malloc` returns (`0` is the null pointer). -/
  mallocResult : Nat
  /-- Return value of `WlanDeviceServiceCommand`. -/
  commandResult : Nat
  /-- Bytes the driver stores at the start of the output buffer. -/
  response : List Nat
  /-- Value stored in `dwBytesReturned`. -/
  bytesReturned : Nat
  /-- Return value of `WlanCloseHandle`. -/
  closeResult : Nat

/-- A call into the WLAN API, with the arguments that matter. -/
inductive WlanCall where
  | WlanOpenHandle (dwClientVersion : Nat)
  | WlanEnumInterfaces (hClient : Nat)
  | WlanDeviceServiceCommand (hClient dwOpCode dwInBufferSize : Nat)
      (pInBuffer : Option (List Nat)) (dwOutBufferSize : Nat)
  | WlanCloseHandle (hClient : Nat)
deriving DecidableEq, Repr

/-- A line `GetSetSARWiFi` prints, with the values it shows. -/
inductive Printed where
  | commandFailed (dwResult : Nat)
  | commandReturned (dwResult dwOutBuffer dwBytesReturned : Nat)
  | nullOutputBuffer
  | sarState (SarBackoffStatus MIMOConfigType NumWdiSarConfigElements : Nat)
  | sarConfig (WDI_SARAntennaIndex WDI_SARBackOffIndex : Nat)
  | sarResult (value : Nat)
deriving DecidableEq, Repr

/-- Outcome of one call of `GetSetSARWiFi`: the returned `hr`, the API calls made in order,
and the lines printed in order. -/
structure WiFiOutcome where
  hr : Nat
  /-- Last value of the local `dwResult`. -/
  dwResult : Nat
  calls : List WlanCall
  printed : List Printed
deriving DecidableEq, Repr

/-- Conversion of a signed integer to a 32-bit unsigned field. -/
def toUInt32 (x : Int) : Nat := (x % 4294967296).toNat

/-- The local `antennaPairs = argc / 2` (C division truncates toward zero). -/
def GetSetSARWiFi.antennaPairs (argc : Int) : Int := Int.tdiv argc 2

/-- The local `antennaIndex1`: parsed under `antennaPairs >= 1`, else its initial `0`. -/
def GetSetSARWiFi.antennaIndex1 (crt : CRuntime) (argc : Int) (argv : List String) : Nat :=
  if 1 ≤ GetSetSARWiFi.antennaPairs argc then crt.strtoul16 (argv.getD 0 "") else 0

/-- The local `sarBackoffIndex1`. -/
def GetSetSARWiFi.sarBackoffIndex1 (crt : CRuntime) (argc : Int) (argv : List String) : Int :=
  if 1 ≤ GetSetSARWiFi.antennaPairs argc then crt.atoi (argv.getD 1 "") else 0

/-- The local `antennaIndex2`: parsed under `antennaPairs == 2`, else its initial `0`. -/
def GetSetSARWiFi.antennaIndex2 (crt : CRuntime) (argc : Int) (argv : List String) : Nat :=
  if GetSetSARWiFi.antennaPairs argc = 2 then crt.strtoul16 (argv.getD 2 "") else 0

/-- The local `sarBackoffIndex2`. -/
def GetSetSARWiFi.sarBackoffIndex2 (crt : CRuntime) (argc : Int) (argv : List String) : Int :=
  if GetSetSARWiFi.antennaPairs argc = 2 then crt.atoi (argv.getD 3 "") else 0

/-- The `dwInBufferSize` of a SET request:
`sizeof(WDI_SAR_STATE) + 2*sizeof(WDI_SAR_CONFIG_SET)`. -/
def GetSetSARWiFi.setBufferSize : Nat := WDI_SAR_STATE.sizeof + 2 * WDI_SAR_CONFIG_SET.sizeof

/-- The input buffer of a SET request after the stores into it: the header at offset `0`, the
first `WDI_SAR_CONFIG_SET` at `pwdiSARState + 1`, the second right after the first. -/
def GetSetSARWiFi.setBuffer (crt : CRuntime) (wdiSARBackoffState mimoConfigType : Nat)
    (argc : Int) (argv : List String) : List Nat :=
  le32 wdiSARBackoffState ++ le32 mimoConfigType ++
  le32 (toUInt32 (GetSetSARWiFi.antennaPairs argc)) ++
  le32 (GetSetSARWiFi.antennaIndex1 crt argc argv) ++
  le32 (toUInt32 (GetSetSARWiFi.sarBackoffIndex1 crt argc argv)) ++
  le32 (GetSetSARWiFi.antennaIndex2 crt argc argv) ++
  le32 (toUInt32 (GetSetSARWiFi.sarBackoffIndex2 crt argc argv))

/-- The `NumWdiSarConfigElements` field stored in a request buffer. -/
def numWdiSarConfigElements (buffer : List Nat) : Nat := u32At buffer 8

/-- An output buffer of `size` zero bytes after the driver stored `response` at its start. -/
def outputBuffer (response : List Nat) (size : Nat) : List Nat :=
  (response ++ List.replicate size 0).take size

/-- The lines of the `for` loop over `NumWdiSarConfigElements` entries that follow the header
of `buffer`, starting with entry `i`. -/
def GetSetSARWiFi.printEntries (buffer : List Nat) : Nat → Nat → List Printed
  | _, 0 => []
  | i, n + 1 =>
    Printed.sarConfig (u32At buffer (WDI_SAR_STATE.sizeof + WDI_SAR_CONFIG_SET.sizeof * i))
        (u32At buffer (WDI_SAR_STATE.sizeof + WDI_SAR_CONFIG_SET.sizeof * i + 4)) ::
      GetSetSARWiFi.printEntries buffer (i + 1) n

/-- The `exit:` label: the handle is closed when `hClient` is not `NULL`; the value
`WlanCloseHandle` returns goes to `dwResult` and `hr` is returned as it stands. -/
def GetSetSARWiFi.exit (env : WlanEnv) (hClient dwResult hr : Nat) (calls : List WlanCall)
    (printed : List Printed) : WiFiOutcome :=
  if hClient ≠ 0 then
    ⟨hr, env.closeResult, calls ++ [WlanCall.WlanCloseHandle hClient], printed⟩
  else ⟨hr, dwResult, calls, printed⟩

/-- What follows a successful `WlanDeviceServiceCommand`. -/
def GetSetSARWiFi.afterCommand (env : WlanEnv) (dwOpCode hClient : Nat) (pOutBuffer : Nat)
    (dwOutBuffer : Nat) (out : List Nat) (calls : List WlanCall) : WiFiOutcome :=
  let line := Printed.commandReturned env.commandResult dwOutBuffer env.bytesReturned
  if dwOpCode = WDI_GET_SAR_STATE then
    if pOutBuffer ≠ 0 then
      GetSetSARWiFi.exit env hClient env.commandResult E_UNEXPECTED calls
        [line, Printed.nullOutputBuffer]
    else
      GetSetSARWiFi.exit env hClient env.commandResult S_OK calls
        ([line, Printed.sarState (u32At out 0) (u32At out 4) (u32At out 8)] ++
          GetSetSARWiFi.printEntries out 0 (u32At out 8))
  else if env.bytesReturned = 4 then
    GetSetSARWiFi.exit env hClient env.commandResult S_OK calls
      [line, Printed.sarResult (u32At out 0)]
  else
    GetSetSARWiFi.exit env hClient env.commandResult S_OK calls [line]

/-- The call of `WlanDeviceServiceCommand` and what follows it. `pOutBuffer` is the address of
the output buffer; `isLocal` tells whether that buffer is the local `dwOutBuffer`. -/
def GetSetSARWiFi.command (env : WlanEnv) (dwOpCode hClient dwInBufferSize : Nat)
    (pInBuffer : Option (List Nat)) (dwOutBufferSize pOutBuffer : Nat) (isLocal : Bool)
    (calls : List WlanCall) : WiFiOutcome :=
  let calls := calls ++
    [WlanCall.WlanDeviceServiceCommand hClient dwOpCode dwInBufferSize pInBuffer dwOutBufferSize]
  if env.commandResult ≠ ERROR_SUCCESS then
    GetSetSARWiFi.exit env hClient env.commandResult (HRESULT_FROM_WIN32 env.commandResult) calls
      [Printed.commandFailed env.commandResult]
  else
    let out := outputBuffer env.response dwOutBufferSize
    GetSetSARWiFi.afterCommand env dwOpCode hClient pOutBuffer
      (if isLocal then u32At out 0 else 0) out calls

/-- Address of the local `dwOutBuffer`, the initial value of `pOutBuffer`: not null. -/
def addressOfLocal : Nat := 1

/-- The function `GetSetSARWiFi`. -/
def GetSetSARWiFi (crt : CRuntime) (env : WlanEnv) (dwOpCode wdiSARBackoffState
    mimoConfigType : Nat) (argc : Int) (argv : List String) : WiFiOutcome :=
  let calls := [WlanCall.WlanOpenHandle 2]
  if env.openResult ≠ ERROR_SUCCESS then
    GetSetSARWiFi.exit env 0 env.openResult (HRESULT_FROM_WIN32 env.openResult) calls []
  else
    let hClient := env.handle
    let calls := calls ++ [WlanCall.WlanEnumInterfaces hClient]
    if env.enumResult ≠ ERROR_SUCCESS then
      GetSetSARWiFi.exit env hClient env.enumResult (HRESULT_FROM_WIN32 env.enumResult) calls []
    else if dwOpCode = WDI_SET_SAR_STATE then
      if env.mallocResult = 0 then
        GetSetSARWiFi.exit env hClient env.enumResult E_OUTOFMEMORY calls []
      else
        GetSetSARWiFi.command env dwOpCode hClient GetSetSARWiFi.setBufferSize
          (some (GetSetSARWiFi.setBuffer crt wdiSARBackoffState mimoConfigType argc argv))
          4 addressOfLocal true calls
    else
      if env.mallocResult = 0 then
        GetSetSARWiFi.exit env hClient env.enumResult E_OUTOFMEMORY calls []
      else
        GetSetSARWiFi.command env dwOpCode hClient 0 none
          (WDI_SAR_STATE.sizeof + 2 * WDI_SAR_CONFIG_SET.sizeof) env.mallocResult false calls

/-! ## main: the `setsar wifi` branch -/

/-- Whether `_stricmp(a, b)` is `0`: the two strings agree once every letter is lowered. -/
def stricmpEq (a b : String) : Bool := a.data.map Char.toLower == b.data.map Char.toLower

/-- The arguments `main` hands to `GetSetSARWiFi` for `setsar wifi`. -/
structure SetSarWiFiArgs where
  wdiSARBackoffState : Nat
  mimoConfigType : Nat
  argCount : Int
  argList : List String
deriving DecidableEq, Repr

instance : DecidableEq (Except Nat SetSarWiFiArgs) := fun a b =>
  match a, b with
  | Except.error x, Except.error y =>
    if h : x = y then isTrue (by rw [h]) else isFalse (fun e => h (by injection e))
  | Except.ok x, Except.ok y =>
    if h : x = y then isTrue (by rw [h]) else isFalse (fun e => h (by injection e))
  | Except.error _, Except.ok _ => isFalse (fun e => by injection e)
  | Except.ok _, Except.error _ => isFalse (fun e => by injection e)

/-- The `setsar` / `wifi` branch of `main`, reached with `argc >= 4`, `argv[1]` equal to
`setsar` and `argv[2]` equal to `wifi`: either the `hr` of a rejected command line, or the
arguments of the call `GetSetSARWiFi(WDI_SET_SAR_STATE, ...)`. -/
def main.setsarWiFi (crt : CRuntime) (argv : List String) : Except Nat SetSarWiFiArgs :=
  let argc : Int := argv.length
  if stricmpEq (argv.getD 3 "") "on" then
    if argc < 7 then Except.error E_INVALIDARG
    else
      Except.ok ⟨WDI_SARBACKOFF_ENABLED, (crt.snscanf0x (argv.getD 4 "")).getD 0,
        argc - 4 - 1, argv.drop 5⟩
  else if stricmpEq (argv.getD 3 "") "off" then
    Except.ok ⟨WDI_SARBACKOFF_DISABLED, 0, argc - 4, argv.drop 4⟩
  else Except.error E_INVALIDARG

/-! ## Example inputs -/

/-- An empty folder in which every file can be created. -/
def emptyFolder : FileSystem := ⟨fun _ => none, fun _ => true⟩

/-- A header whose sixteen bytes are all `0xFF`. -/
def boundaryHeader : SAR_CONFIG_HEADER :=
  ⟨0xFF, 0xFF, 0xFF, 0xFF, 0xFF, 0xFF, 0xFF, 0xFF, 0xFF, 0xFF, 0xFF, 0xFF, 0xFF, 0xFF, 0xFF, 0xFF⟩

/-- A values block with `0x00` and `0xFF` bytes, and `0` and `0xFFFFFFFF` timers. -/
def boundaryValues : SAR_CONFIG_VALUES :=
  ⟨0xFF, 0xFFFFFFFF, 0, 0xFFFFFFFF, 0x00, 0xFF, 0x00, 0xFF, 0x00, 0xFF⟩

/-- A region record with every field at its largest value. -/
def boundaryRegion : REGION_CONFIG_VALUES := ⟨0xFFFF, 0xFFFF, 0xFFFFFFFF, 0xFF, 0xFF⟩

/-- A power table whose cells alternate between `0x00` and `0xFF`. -/
def boundaryTable : SAR_POWER_TABLE :=
  ⟨fun row col => if (row.val + col.val) % 2 = 0 then 0 else 0xFF⟩

/-- A folder in which each of the four files holds the five bytes `1, 2, 3, 4, 5`. -/
def shortFiles : FileSystem := ⟨fun _ => some [1, 2, 3, 4, 5], fun _ => true⟩

/-- A folder in which each file holds the bytes `0, 1, ..., 99`. -/
def longFiles : FileSystem := ⟨fun _ => some (List.range 100), fun _ => true⟩

/-- A folder in which each file holds the bytes `0, 1, ..., 59` followed by forty `7`s. -/
def longFilesOther : FileSystem :=
  ⟨fun _ => some (List.range 60 ++ List.replicate 40 7), fun _ => true⟩

/-- Number of bytes in the file `SetConfig` leaves for a variable, if it leaves one. -/
def SetConfig.bytesWritten (path name : String) (padding : Nat → Nat) (fs : FileSystem) :
    Option Nat :=
  ((SetConfig.files path padding fs).fs.files (fullPathOf path name)).map List.length

/-- The call `hr = GetSetSARWiFi(WDI_SET_SAR_STATE, ...)` that ends the `setsar wifi` branch of
`main`, for a command line the branch accepts. -/
def main.setsarWiFiCall (crt : CRuntime) (env : WlanEnv) (argv : List String) :
    Except Nat WiFiOutcome :=
  match main.setsarWiFi crt argv with
  | Except.error hr => Except.error hr
  | Except.ok args =>
    Except.ok (GetSetSARWiFi crt env WDI_SET_SAR_STATE args.wdiSARBackoffState
      args.mimoConfigType args.argCount args.argList)

/-- The input buffers handed to `WlanDeviceServiceCommand`, with their declared sizes. -/
def sentRequests : List WlanCall → List (Nat × List Nat)
  | [] => []
  | WlanCall.WlanDeviceServiceCommand _ _ dwInBufferSize (some buffer) _ :: cs =>
    (dwInBufferSize, buffer) :: sentRequests cs
  | _ :: cs => sentRequests cs

/-- The C runtime on the strings of the examples: `strtoul("1", nullptr, 16)` is `1`,
`atoi("5")` is `5`, and `_snscanf_s("0x3", 5, "0x%x", &v)` stores `3`. -/
def exampleRuntime : CRuntime :=
  { strtoul16 := fun s => if s = "1" then 1 else if s = "2" then 2 else 0
    atoi := fun s => if s = "5" then 5 else if s = "7" then 7 else 0
    snscanf0x := fun s => if s = "0x3" then some 3 else none }

/-- A run in which every call succeeds: the handle is `77`, the buffer is allocated, the
driver answers 28 bytes holding a `WDI_SAR_STATE` with one `WDI_SAR_CONFIG_SET` `{1, 5}`. -/
def exampleEnv : WlanEnv :=
  { openResult := 0
    handle := 77
    enumResult := 0
    mallocResult := 4096
    commandResult := 0
    response := [1, 0, 0, 0, 0, 0, 0, 0, 1, 0, 0, 0, 1, 0, 0, 0, 5, 0, 0, 0, 0, 0, 0, 0, 0, 0, 0, 0]
    bytesReturned := 28
    closeResult := 0 }

/-- A run of a SET in which every call succeeds and the driver answers the four-byte status
`3` (`WDI_SAR_INVALID_ANTENNA_INDEX | WDI_SAR_INVALID_TABLE_INDEX`). -/
def exampleSetEnv : WlanEnv :=
  { exampleEnv with response := [3, 0, 0, 0], bytesReturned := 4 }

/-! ## WDI_SAR_RESULT -/

def WDI_SAR_SUCCESS : Nat := 0
def WDI_SAR_INVALID_ANTENNA_INDEX : Nat := 1
def WDI_SAR_INVALID_TABLE_INDEX : Nat := 2
def WDI_SAR_STATE_ERROR : Nat := 4
def WDI_SAR_MIMO_NOT_SET : Nat := 8

/-- Whether a status value has a flag set: the bitwise AND of the two is not zero. -/
def testsFlag (status flag : Nat) : Bool := status &&& flag != 0

/-- The status value that combines, by bitwise OR, the chosen ones of the four error flags. -/
def combineFlags (antenna table state mimo : Bool) : Nat :=
  (if antenna then WDI_SAR_INVALID_ANTENNA_INDEX else 0) |||
  (if table then WDI_SAR_INVALID_TABLE_INDEX else 0) |||
  (if state then WDI_SAR_STATE_ERROR else 0) |||
  (if mimo then WDI_SAR_MIMO_NOT_SET else 0)

/-! ## GUIDs -/

/-- A `GUID`: `Data1` (32 bits), `Data2` and `Data3` (16 bits each), `Data4` (8 bytes). -/
structure GUID where
  Data1 : Nat
  Data2 : Nat
  Data3 : Nat
  Data4 : List Nat
deriving DecidableEq, Repr

/-- Object representation of a `GUID`, 16 bytes. -/
def GUID.bytes (g : GUID) : List Nat :=
  le32 g.Data1 ++ le16 g.Data2 ++ le16 g.Data3 ++
    (List.range 8).map fun i => byteAt g.Data4 i % 256

def WDI_SAR_DEVICE_SERVICE : GUID :=
  ⟨0x504304b4, 0x1941, 0x4a95, [0xb8, 0x19, 0xa2, 0x10, 0x2b, 0x69, 0xe5, 0xcd]⟩

def WDI_SAR_UEFI_COMMON_PARAMS : GUID :=
  ⟨0x4290AA92, 0xCACE, 0x449D, [0x88, 0x7B, 0xAD, 0xC6, 0x1B, 0x49, 0xE0, 0x5D]⟩

def WDI_SAR_UEFI_IHV_PARAMS : GUID :=
  ⟨0x8949533b, 0x7eda, 0x4d90, [0xa8, 0x76, 0xbf, 0x16, 0x21, 0x5b, 0xc, 0x9c]⟩

/-! ## The firmware variable store -/

def E_POINTER : Nat := 0x80004003
def E_FAIL : Nat := 0x80004005
def E_NOT_SUFFICIENT_BUFFER : Nat := 0x8007007A

/-- The path that selects the firmware store instead of a folder. -/
def UEFI : String := "uefi"

/-- The macro `SUCCEEDED(hr)`: the `HRESULT` is not negative, that is, bit 31 is clear. -/
def SUCCEEDED (hr : Nat) : Bool := decide (hr < 2147483648)

/-- Answers of the token API during `SetProcessPrivilege`: for each call `none` when it
returns `TRUE`, and the value of `GetLastError()` when it returns `FALSE`. -/
structure TokenEnv where
  OpenProcessToken : Option Nat
  LookupPrivilegeValue : Option Nat
  AdjustTokenPrivileges : Option Nat

/-- The function `SetProcessPrivilege`. -/
def SetProcessPrivilege (env : TokenEnv) : Nat :=
  match env.OpenProcessToken with
  | some e => HRESULT_FROM_WIN32 e
  | none =>
    match env.LookupPrivilegeValue with
    | some e => HRESULT_FROM_WIN32 e
    | none =>
      match env.AdjustTokenPrivileges with
      | some e => HRESULT_FROM_WIN32 e
      | none => S_OK

/-- Answers of the system during the firmware branch of `SetConfig` or `GetConfig`. -/
structure FirmwareEnv where
  token : TokenEnv
  /-- The text `StringFromGUID2(guid, szGuid, ARRAYSIZE(szGuid))` stores in `szGuid`, or
  `none` when the call returns `0`. -/
  StringFromGUID2 : GUID → Option String
  /-- Whether `SetFirmwareEnvironmentVariable(name, guid, value, size)` returns `TRUE`. -/
  SetFirmwareEnvironmentVariable : String → String → List Nat → Bool
  /-- The bytes `GetFirmwareEnvironmentVariable(name, guid, buffer, size)` stores at the start
  of the buffer, their number being the value returned; `none` when nothing is stored and
  `0` is returned. -/
  GetFirmwareEnvironmentVariable : String → String → Nat → Option (List Nat)

/-- A call the firmware branch makes, with the arguments that matter. -/
inductive FirmwareCall where
  | SetProcessPrivilege
  | StringFromGUID2 (guid : GUID)
  | SetFirmwareEnvironmentVariable (name guid : String) (value : List Nat)
  | GetFirmwareEnvironmentVariable (name guid : String) (size : Nat)
deriving DecidableEq, Repr

/-- A diagnostic line of `SetConfig` or `GetConfig`. -/
inductive ConfigLog where
  | privilegeFailed
  | writeFailed (name : String)
  | readFailed (name : String)
  | lastError
deriving DecidableEq, Repr

/-- Outcome of the firmware branch of `SetConfig`: `hr`, the calls made and the diagnostics
printed, each in order. -/
structure UefiWriteOutcome where
  hr : Nat
  calls : List FirmwareCall
  log : List ConfigLog
deriving DecidableEq, Repr

/-- Diagnostics of one `SetFirmwareEnvironmentVariable` call that passes the first `size`
bytes of `object`. -/
def SetConfig.writeLog (fw : FirmwareEnv) (name guid : String) (object : List Nat) (size : Nat) :
    List ConfigLog :=
  if fw.SetFirmwareEnvironmentVariable name guid (object.take size) then []
  else [ConfigLog.writeFailed name]

/-- The firmware branch of `SetConfig` (`_stricmp(path, UEFI)` is `0`), for the four records
held in the locals. -/
def SetConfig.uefiBranch (fw : FirmwareEnv) (sarConfigHeader : SAR_CONFIG_HEADER)
    (sarConfigValues : SAR_CONFIG_VALUES) (regionConfigValues : REGION_CONFIG_VALUES)
    (padding : Nat → Nat) (sarPowerTable : SAR_POWER_TABLE) : UefiWriteOutcome :=
  let log0 :=
    if SUCCEEDED (SetProcessPrivilege fw.token) then [] else [ConfigLog.privilegeFailed]
  let calls0 := [FirmwareCall.SetProcessPrivilege,
    FirmwareCall.StringFromGUID2 WDI_SAR_UEFI_COMMON_PARAMS]
  match fw.StringFromGUID2 WDI_SAR_UEFI_COMMON_PARAMS with
  | none => ⟨E_NOT_SUFFICIENT_BUFFER, calls0, log0⟩
  | some szGuid =>
    let calls1 := calls0 ++
      [FirmwareCall.SetFirmwareEnvironmentVariable WifiSARHeader szGuid
          (sarConfigHeader.bytes.take SAR_CONFIG_HEADER.sizeof),
        FirmwareCall.SetFirmwareEnvironmentVariable WifiSARConfig szGuid
          (sarConfigValues.bytes.take SAR_CONFIG_VALUES.sizeof),
        FirmwareCall.StringFromGUID2 WDI_SAR_UEFI_IHV_PARAMS]
    let log1 := log0 ++
      SetConfig.writeLog fw WifiSARHeader szGuid sarConfigHeader.bytes SAR_CONFIG_HEADER.sizeof ++
      SetConfig.writeLog fw WifiSARConfig szGuid sarConfigValues.bytes SAR_CONFIG_VALUES.sizeof
    match fw.StringFromGUID2 WDI_SAR_UEFI_IHV_PARAMS with
    | none => ⟨E_NOT_SUFFICIENT_BUFFER, calls1, log1⟩
    | some szIhv =>
      ⟨S_OK,
        calls1 ++
          [FirmwareCall.SetFirmwareEnvironmentVariable WifiRegionConfig szIhv
              ((regionConfigValues.bytes padding).take REGION_CONFIG_VALUES.sizeof),
            FirmwareCall.SetFirmwareEnvironmentVariable WifiSARTable szIhv
              (sarPowerTable.bytes.take SAR_POWER_TABLE.sizeof)],
        log1 ++
          SetConfig.writeLog fw WifiRegionConfig szIhv (regionConfigValues.bytes padding)
            REGION_CONFIG_VALUES.sizeof ++
          SetConfig.writeLog fw WifiSARTable szIhv sarPowerTable.bytes SAR_POWER_TABLE.sizeof⟩

/-- The firmware branch of `SetConfig` applied to the example records. -/
def SetConfig.uefi (fw : FirmwareEnv) (padding : Nat → Nat) : UefiWriteOutcome :=
  SetConfig.uefiBranch fw SetConfig.sarConfigHeader SetConfig.sarConfigValues
    SetConfig.regionConfigValues padding SetConfig.sarPowerTable

/-- The `HRESULT` the function `SetConfig` returns for a path, or `none` when the process
ended inside `sprintf_s`. -/
def SetConfig.hr (fw : FirmwareEnv) (fs : FileSystem) (padding : Nat → Nat) (path : String) :
    Option Nat :=
  if stricmpEq path UEFI then some (SetConfig.uefi fw padding).hr
  else (SetConfig.files path padding fs).hr

/-! ## GetConfig: the report and the firmware branch -/

/-- The value of `sarPowerTable.PowerValues[row][col]/8.0`. The byte is widened to `double`
and divided by the power of two `8.0`; neither step rounds, so the `double` is the rational
number `v / 8`. -/
def GetConfig.cellValue (v : Nat) : ℚ := (v : ℚ) / 8

/-- The number of thousandths a `%.3f` conversion prints for `x`: `x * 1000` rounded to the
nearest integer. -/
def thousandths (x : ℚ) : Int := round (x * 1000)

/-- Three decimal digits of a number below 1000. -/
def threeDigits (n : Nat) : String :=
  String.mk [Nat.digitChar (n / 100 % 10), Nat.digitChar (n / 10 % 10), Nat.digitChar (n % 10)]

/-- A text padded with blanks on the left up to `width` characters. -/
def padLeft (width : Nat) (s : String) : String :=
  String.mk (List.replicate (width - s.length) ' ') ++ s

/-- The text of a non-negative number of thousandths under `%6.3f`. -/
def fixed3 (t : Nat) : String := padLeft 6 (Nat.repr (t / 1000) ++ "." ++ threeDigits (t % 1000))

/-- The text `wprintf(L"%6.3f", x)` prints for a non-negative `x`. -/
def printf_6_3f (x : ℚ) : String := fixed3 (thousandths x).toNat

/-- What `GetConfig` prints after the reads: the named fields in order, each with the number
of hexadecimal digits of its format, and the rows of the power table, each cell as text. -/
structure Report where
  fields : List (String × Nat × Nat)
  table : List (List String)
deriving DecidableEq, Repr

/-- The printing part of `GetConfig`. -/
def GetConfig.report (sarConfigHeader : SAR_CONFIG_HEADER) (sarConfigValues : SAR_CONFIG_VALUES)
    (regionConfigValues : REGION_CONFIG_VALUES) (sarPowerTable : SAR_POWER_TABLE) : Report :=
  { fields :=
      [("Size", 2, sarConfigHeader.Size),
       ("HeaderOffset1", 2, sarConfigHeader.HeaderOffset1),
       ("HeaderOffset2", 2, sarConfigHeader.HeaderOffset2),
       ("WLANTechnology", 2, sarConfigHeader.WLANTechnology),
       ("ProductID", 2, sarConfigHeader.ProductID),
       ("Version", 2, sarConfigHeader.Version),
       ("Revision", 2, sarConfigHeader.Revision),
       ("NumberSARTables", 2, sarConfigHeader.NumberSARTables),
       ("SARTablesCompressed", 2, sarConfigHeader.SARTablesCompressed),
       ("SARTimersFormat", 2, sarConfigHeader.SARTimersFormat),
       ("ReservedA", 2, sarConfigHeader.ReservedA),
       ("ReservedB", 2, sarConfigHeader.ReservedB),
       ("ReservedC", 2, sarConfigHeader.ReservedC),
       ("ReservedD", 2, sarConfigHeader.ReservedD),
       ("ReservedE", 2, sarConfigHeader.ReservedE),
       ("ReservedF", 2, sarConfigHeader.ReservedF),
       ("Size", 2, sarConfigValues.Size),
       ("SARSafetyTimer", 8, sarConfigValues.SARSafetyTimer),
       ("SARSafetyRequestResponseTimeout", 8, sarConfigValues.SARSafetyRequestResponseTimeout),
       ("SARUnsolicitedUpdateTimer", 8, sarConfigValues.SARUnsolicitedUpdateTimer),
       ("SARState", 2, sarConfigValues.SARState),
       ("SleepModeState", 2, sarConfigValues.SleepModeState),
       ("SARPowerOnState", 2, sarConfigValues.SARPowerOnState),
       ("SARPowerOnStateAfterFailure", 2, sarConfigValues.SARPowerOnStateAfterFailure),
       ("SARSafetyTableIndex", 2, sarConfigValues.SARSafetyTableIndex),
       ("SleepModeStateIndexTable", 2, sarConfigValues.SleepModeStateIndexTable),
       ("GeoCountryString.AsciiChars", 4, regionConfigValues.AsciiChars),
       ("GeoLocationValue", 8, regionConfigValues.GeoLocationValue),
       ("DynamicGeoState", 2, regionConfigValues.DynamicGeoState),
       ("DynamicGeoType", 2, regionConfigValues.DynamicGeoType)]
    table :=
      (List.range MAX_NUM_SAR_WIFI_POWER_TABLE).map fun row =>
        (List.range MAX_NUM_SAR_WIFI_POWER_VALUES_PER_TABLE).map fun col =>
          printf_6_3f (GetConfig.cellValue (sarPowerTable.cell row col)) }

/-- Outcome of the firmware branch of `GetConfig`: `hr`, the calls made and the diagnostics
printed, each in order, and the report, if the function got as far as printing it. -/
structure UefiReadOutcome where
  hr : Nat
  calls : List FirmwareCall
  log : List ConfigLog
  report : Option Report
deriving DecidableEq, Repr

/-- The bytes `GetFirmwareEnvironmentVariable(name, guid, &record, size)` stores. -/
def GetConfig.stored (fw : FirmwareEnv) (name guid : String) (size : Nat) : List Nat :=
  ((fw.GetFirmwareEnvironmentVariable name guid size).getD []).take size

/-- The record bytes after the call: the zero-initialised record with the stored bytes laid
over its start. -/
def GetConfig.firmwareBuffer (fw : FirmwareEnv) (name guid : String) (size : Nat) : List Nat :=
  outputBuffer (GetConfig.stored fw name guid size) size

/-- Whether the call returned `0`. -/
def GetConfig.readFailed (fw : FirmwareEnv) (name guid : String) (size : Nat) : Bool :=
  (GetConfig.stored fw name guid size).length == 0

/-- The firmware branch of `GetConfig` (`_stricmp(path, UEFI)` is `0`) followed by the
printing of the report. -/
def GetConfig.uefiBranch (fw : FirmwareEnv) : UefiReadOutcome :=
  let hr := SetProcessPrivilege fw.token
  if !SUCCEEDED hr then
    ⟨hr, [FirmwareCall.SetProcessPrivilege], [ConfigLog.privilegeFailed], none⟩
  else
    let calls0 := [FirmwareCall.SetProcessPrivilege,
      FirmwareCall.StringFromGUID2 WDI_SAR_UEFI_COMMON_PARAMS]
    match fw.StringFromGUID2 WDI_SAR_UEFI_COMMON_PARAMS with
    | none => ⟨E_NOT_SUFFICIENT_BUFFER, calls0, [], none⟩
    | some szGuid =>
      let calls1 := calls0 ++
        [FirmwareCall.GetFirmwareEnvironmentVariable WifiSARHeader szGuid
            SAR_CONFIG_HEADER.sizeof,
          FirmwareCall.GetFirmwareEnvironmentVariable WifiSARConfig szGuid
            SAR_CONFIG_VALUES.sizeof,
          FirmwareCall.StringFromGUID2 WDI_SAR_UEFI_IHV_PARAMS]
      let log1 :=
        (if GetConfig.readFailed fw WifiSARHeader szGuid SAR_CONFIG_HEADER.sizeof then
          [ConfigLog.lastError, ConfigLog.readFailed WifiSARHeader] else []) ++
        (if GetConfig.readFailed fw WifiSARConfig szGuid SAR_CONFIG_VALUES.sizeof then
          [ConfigLog.readFailed WifiSARConfig] else [])
      match fw.StringFromGUID2 WDI_SAR_UEFI_IHV_PARAMS with
      | none => ⟨E_NOT_SUFFICIENT_BUFFER, calls1, log1, none⟩
      | some szIhv =>
        ⟨hr,
          calls1 ++
            [FirmwareCall.GetFirmwareEnvironmentVariable WifiRegionConfig szIhv
                REGION_CONFIG_VALUES.sizeof,
              FirmwareCall.GetFirmwareEnvironmentVariable WifiSARTable szIhv
                SAR_POWER_TABLE.sizeof],
          log1 ++
            (if GetConfig.readFailed fw WifiRegionConfig szIhv REGION_CONFIG_VALUES.sizeof then
              [ConfigLog.readFailed WifiRegionConfig] else []) ++
            (if GetConfig.readFailed fw WifiSARTable szIhv SAR_POWER_TABLE.sizeof then
              [ConfigLog.readFailed WifiSARTable] else []),
          some (GetConfig.report
            (SAR_CONFIG_HEADER.ofBytes
              (GetConfig.firmwareBuffer fw WifiSARHeader szGuid SAR_CONFIG_HEADER.sizeof))
            (SAR_CONFIG_VALUES.ofBytes
              (GetConfig.firmwareBuffer fw WifiSARConfig szGuid SAR_CONFIG_VALUES.sizeof))
            (REGION_CONFIG_VALUES.ofBytes
              (GetConfig.firmwareBuffer fw WifiRegionConfig szIhv REGION_CONFIG_VALUES.sizeof))
            (SAR_POWER_TABLE.ofBytes
              (GetConfig.firmwareBuffer fw WifiSARTable szIhv SAR_POWER_TABLE.sizeof)))⟩

/-- The report the folder branch of `GetConfig` goes on to print, or `none` when the process
ended inside `sprintf_s`. -/
def GetConfig.fileReport (path : String) (fs : FileSystem) (beyond : Nat → Nat → Nat) :
    Option Report :=
  (GetConfig.fileBranch path fs beyond).map fun rec =>
    GetConfig.report rec.sarConfigHeader rec.sarConfigValues rec.regionConfigValues
      rec.sarPowerTable

/-- The `HRESULT` the function `GetConfig` returns for a path, or `none` when the process
ended inside `sprintf_s`: in the folder branch `hr` keeps its initial `S_OK`. -/
def GetConfig.hr (fw : FirmwareEnv) (fs : FileSystem) (beyond : Nat → Nat → Nat)
    (path : String) : Option Nat :=
  if stricmpEq path UEFI then some (GetConfig.uefiBranch fw).hr
  else (GetConfig.fileBranch path fs beyond).map fun _ => S_OK

/-! ## DeviceServiceNotificationCallback

The body is the one compiled against an SDK with `NTDDI_VERSION >= NTDDI_WIN10_RS5`. -/

/-- What the callback reads of `pdata`: the notification code, and of the
`WLAN_DEVICE_SERVICE_NOTIFICATION_DATA` behind `pdata->pData` the device-service identifier,
the declared size and the bytes of `DataBlob`. -/
structure Notification where
  NotificationCode : Nat
  DeviceService : GUID
  dwDataSize : Nat
  DataBlob : List Nat
deriving DecidableEq, Repr

/-- The fields of `SYSTEMTIME` the callback prints. -/
structure SYSTEMTIME where
  wHour : Nat
  wMinute : Nat
  wSecond : Nat
  wMilliseconds : Nat
deriving DecidableEq, Repr

/-- A piece of output of the callback, with the values it shows. -/
inductive NotificationLine where
  | sarRequest (time : SYSTEMTIME) (value : Nat)
  | guid (deviceService : GUID)
  | opcode (NotificationCode : Nat)
  | dataSize (dwDataSize : Nat)
  | byte (value : Nat)
  | newline
deriving DecidableEq, Repr

/-- Whether `memcmp(&deviceServiceGuid, &pNotData->DeviceService, sizeof(GUID))` is `0`. -/
def isSarService (pdata : Notification) : Bool :=
  decide (WDI_SAR_DEVICE_SERVICE.bytes = pdata.DeviceService.bytes)

/-- The function `DeviceServiceNotificationCallback`, run when the clock shows `time` and the
counter `s_nCallbacks` holds the given value: the new value of the counter and the output. -/
def DeviceServiceNotificationCallback (time : SYSTEMTIME) (s_nCallbacks : Int)
    (pdata : Notification) : Int × List NotificationLine :=
  if isSarService pdata then
    (s_nCallbacks + 1, [NotificationLine.sarRequest time (u16At pdata.DataBlob 0)])
  else
    (s_nCallbacks + 1,
      [NotificationLine.guid pdata.DeviceService,
        NotificationLine.opcode pdata.NotificationCode,
        NotificationLine.dataSize pdata.dwDataSize] ++
      (List.range pdata.dwDataSize).map
        (fun i => NotificationLine.byte (byteAt pdata.DataBlob i)) ++
      [NotificationLine.newline])

/-! ## The cellular path: GetSetSARLTE and LteTxStatusMonitor -/

/-- Answers of the modem API. An error is the code of the `winrt::hresult_error` raised. -/
structure ModemEnv where
  /-- Error raised while the modem, its configuration and the SAR manager are obtained. -/
  acquireError : Option Nat
  /-- Whether the SAR manager obtained is not null. -/
  sarManagerValid : Bool
  /-- Result of `IsBackoffEnabled()`. -/
  isBackoffEnabled : Except Nat Bool
  /-- Result of `Antennas()`: the pairs of antenna index and backoff index. -/
  antennas : Except Nat (List (Int × Int))
  /-- Error raised by `SetConfigurationAsync(antennas).get()`. -/
  setConfigurationError : List (Int × Int) → Option Nat
  /-- Error raised by one of the calls that set up, start and stop the monitoring. -/
  monitorError : Option Nat
  /-- Values of `IsTransmitting()` of the events received while monitoring. -/
  stateChanges : List Bool

/-- A line the cellular path prints. -/
inductive LtePrinted where
  | noSarManager
  | backoffEnabled
  | backoffDisabled
  | antenna (AntennaIndex SarBackoffIndex : Int)
  | invalidPairs
  | setting (AntennaIndex PowerTableIndex : String)
  | error (code : Nat)
  | transmissionStateChanged (isTransmitting : Bool)
deriving DecidableEq, Repr

/-- Outcome of `GetSetSARLTE` or `LteTxStatusMonitor`: `hr`, the configurations handed to
`SetConfigurationAsync`, those of them that were applied without error, and the output. -/
structure LteOutcome where
  hr : Nat
  requested : List (List (Int × Int))
  applied : List (List (Int × Int))
  printed : List LtePrinted
deriving DecidableEq, Repr

/-- The vector `antennas` the set mode builds from the arguments. -/
def GetSetSARLTE.antennas (crt : CRuntime) (antennaPairs : Int) (argv : List String) :
    List (Int × Int) :=
  (if 1 ≤ antennaPairs then [(crt.atoi (argv.getD 0 ""), crt.atoi (argv.getD 1 ""))] else []) ++
  (if antennaPairs = 2 then [(crt.atoi (argv.getD 2 ""), crt.atoi (argv.getD 3 ""))] else [])

/-- The lines `setting {AntennaIndex=%s, PowerTableIndex=%s}` of the set mode. -/
def GetSetSARLTE.settingLines (antennaPairs : Int) (argv : List String) : List LtePrinted :=
  (if 1 ≤ antennaPairs then [LtePrinted.setting (argv.getD 0 "") (argv.getD 1 "")] else []) ++
  (if antennaPairs = 2 then [LtePrinted.setting (argv.getD 2 "") (argv.getD 3 "")] else [])

/-- The function `GetSetSARLTE`. An error raised inside the `try` block is caught, printed,
and control falls through to `Exit:` with `hr` as it stands. -/
def GetSetSARLTE (crt : CRuntime) (env : ModemEnv) (fGet : Bool) (argc : Int)
    (argv : List String) : LteOutcome :=
  match env.acquireError with
  | some e => ⟨S_OK, [], [], [LtePrinted.error e]⟩
  | none =>
    if !env.sarManagerValid then ⟨E_POINTER, [], [], [LtePrinted.noSarManager]⟩
    else if fGet then
      match env.isBackoffEnabled with
      | Except.error e => ⟨S_OK, [], [], [LtePrinted.error e]⟩
      | Except.ok enabled =>
        let line := if enabled then LtePrinted.backoffEnabled else LtePrinted.backoffDisabled
        match env.antennas with
        | Except.error e => ⟨S_OK, [], [], [line, LtePrinted.error e]⟩
        | Except.ok pairs =>
          ⟨S_OK, [], [], line :: pairs.map fun p => LtePrinted.antenna p.1 p.2⟩
    else
      let antennaPairs := Int.tdiv argc 2
      if antennaPairs ≠ 1 ∧ antennaPairs ≠ 2 then
        ⟨E_INVALIDARG, [], [], [LtePrinted.invalidPairs]⟩
      else
        let antennas := GetSetSARLTE.antennas crt antennaPairs argv
        let lines := GetSetSARLTE.settingLines antennaPairs argv
        match env.setConfigurationError antennas with
        | some e => ⟨S_OK, [antennas], [], lines ++ [LtePrinted.error e]⟩
        | none => ⟨S_OK, [antennas], [antennas], lines⟩

/-- The function `LteTxStatusMonitor`. -/
def LteTxStatusMonitor (env : ModemEnv) : LteOutcome :=
  match env.acquireError with
  | some e => ⟨S_OK, [], [], [LtePrinted.error e]⟩
  | none =>
    if !env.sarManagerValid then ⟨E_POINTER, [], [], [LtePrinted.noSarManager]⟩
    else
      match env.monitorError with
      | some e => ⟨S_OK, [], [], [LtePrinted.error e]⟩
      | none => ⟨S_OK, [], [], env.stateChanges.map LtePrinted.transmissionStateChanged⟩

/-! ## UnsolicitedMonitor and main -/

def CMD_GETCONFIG : String := "getconfig"
def CMD_SETCONFIG : String := "setconfig"
def CMD_GETSAR : String := "getsar"
def CMD_SETSAR : String := "setsar"
def CMD_UNSOLMON : String := "unsolMon"

/-- Answers of the system on the `unsolMon wifi` path. -/
structure MonitorEnv where
  /-- Return value of `WlanOpenHandle`. -/
  openResult : Nat
  /-- Pointer `malloc` returns for the list of identifiers (`0` is the null pointer). -/
  mallocResult : Nat
  /-- Return value of `WlanRegisterDeviceServiceNotification`. -/
  registerServiceResult : Nat
  /-- Return value of `WlanRegisterNotification`. -/
  registerNotificationResult : Nat
  /-- Value of `s_nCallbacks` read by the `k`-th test of the wait loop, `k` counted from 0. -/
  s_nCallbacks : Nat → Int

/-- The function `UnsolicitedMonitor`. -/
def UnsolicitedMonitor (env : MonitorEnv) : Nat :=
  if env.mallocResult = 0 then 1
  else if env.registerServiceResult ≠ ERROR_SUCCESS then 1
  else if env.registerNotificationResult ≠ ERROR_SUCCESS then 1
  else 0

/-- The operations `main` dispatches to, each as the `HRESULT` it returns for its arguments,
and the answers of the system on the `unsolMon wifi` path. -/
structure Operations where
  /-- The `HRESULT` of `GetConfig(path)`, or `none` when the process ends inside it. -/
  GetConfig : String → Option Nat
  /-- The `HRESULT` of `SetConfig(path)`, or `none` when the process ends inside it. -/
  SetConfig : String → Option Nat
  GetSetSARLTE : Bool → Int → List String → Nat
  GetSetSARWiFi : Nat → Nat → Nat → Int → List String → Nat
  LteTxStatusMonitor : Nat
  monitor : MonitorEnv

/-- A call `main` makes, with its arguments. -/
inductive Invocation where
  | GetConfig (path : String)
  | SetConfig (path : String)
  | GetSetSARLTE (fGet : Bool) (argc : Int) (argv : List String)
  | GetSetSARWiFi (dwOpCode wdiSARBackoffState mimoConfigType : Nat) (argc : Int)
      (argv : List String)
  | LteTxStatusMonitor
  | WlanOpenHandle
  | UnsolicitedMonitor
  | Sleep (milliseconds : Nat)
  | WlanCloseHandle
deriving DecidableEq, Repr

/-- Outcome of `main`: the value returned, the last `hr`, whether `PrintUsage` was called,
and the calls made in order. -/
structure MainOutcome where
  nReturnVal : Nat
  hr : Nat
  usage : Bool
  invoked : List Invocation
deriving DecidableEq, Repr

/-- The `Exit:` label of `main`: `nReturnVal` becomes `0` when `hr == S_OK`. -/
def main.Exit (hr nReturnVal : Nat) (usage : Bool) (invoked : List Invocation) : MainOutcome :=
  ⟨if hr = S_OK then 0 else nReturnVal, hr, usage, invoked⟩

/-- A rejected command line: `PrintUsage`, `hr = E_INVALIDARG`, `goto Exit`. -/
def main.usage : MainOutcome := main.Exit E_INVALIDARG 1 true []

/-- The loop `while ((bWait) && (s_nCallbacks < 128)) Sleep(5000);`, in which `bWait` stays
`true`, from its `k`-th test on: the number of calls of `Sleep` made when it ends, or `none`
when it has not ended after `fuel` tests. -/
def main.waitLoop (s_nCallbacks : Nat → Int) : Nat → Nat → Option Nat
  | 0, _ => none
  | fuel + 1, k =>
    if s_nCallbacks k < 128 then main.waitLoop s_nCallbacks fuel (k + 1) else some k

/-- The `getconfig` branch of `main`. -/
def main.getconfig (ops : Operations) (argv : List String) : Option MainOutcome :=
  if (argv.length : Int) < 3 then some main.usage
  else
    (ops.GetConfig (argv.getD 2 "")).map fun hr =>
      main.Exit hr 1 false [Invocation.GetConfig (argv.getD 2 "")]

/-- The `setconfig` branch of `main`. -/
def main.setconfig (ops : Operations) (argv : List String) : Option MainOutcome :=
  if (argv.length : Int) < 3 then some main.usage
  else
    (ops.SetConfig (argv.getD 2 "")).map fun hr =>
      main.Exit hr 1 false [Invocation.SetConfig (argv.getD 2 "")]

/-- The `getsar` branch of `main`. -/
def main.getsar (ops : Operations) (argv : List String) : Option MainOutcome :=
  let argc : Int := argv.length
  if argc < 3 then some main.usage
  else if stricmpEq (argv.getD 2 "") "lte" then
    some (main.Exit (ops.GetSetSARLTE true (argc - 3) (argv.drop 3)) 1 false
      [Invocation.GetSetSARLTE true (argc - 3) (argv.drop 3)])
  else if stricmpEq (argv.getD 2 "") "wifi" then
    some (main.Exit
      (ops.GetSetSARWiFi WDI_GET_SAR_STATE WDI_SARBACKOFF_ENABLED 0 (argc - 4) (argv.drop 4))
      1 false
      [Invocation.GetSetSARWiFi WDI_GET_SAR_STATE WDI_SARBACKOFF_ENABLED 0 (argc - 4)
        (argv.drop 4)])
  else some main.usage

/-- The `setsar` branch of `main`. -/
def main.setsar (crt : CRuntime) (ops : Operations) (argv : List String) :
    Option MainOutcome :=
  let argc : Int := argv.length
  if argc < 4 then some main.usage
  else if stricmpEq (argv.getD 2 "") "lte" then
    some (main.Exit (ops.GetSetSARLTE false (argc - 3) (argv.drop 3)) 1 false
      [Invocation.GetSetSARLTE false (argc - 3) (argv.drop 3)])
  else if stricmpEq (argv.getD 2 "") "wifi" then
    match main.setsarWiFi crt argv with
    | Except.error hr => some (main.Exit hr 1 true [])
    | Except.ok args =>
      some (main.Exit
        (ops.GetSetSARWiFi WDI_SET_SAR_STATE args.wdiSARBackoffState args.mimoConfigType
          args.argCount args.argList)
        1 false
        [Invocation.GetSetSARWiFi WDI_SET_SAR_STATE args.wdiSARBackoffState
          args.mimoConfigType args.argCount args.argList])
  else some main.usage

/-- The `unsolMon` / `wifi` part of `main`, or `none` when the wait loop has not ended after
`fuel` tests. -/
def main.unsolMonWiFi (ops : Operations) (fuel : Nat) : Option MainOutcome :=
  if ops.monitor.openResult ≠ ERROR_SUCCESS then
    some (main.Exit (HRESULT_FROM_WIN32 ops.monitor.openResult) 1 false
      [Invocation.WlanOpenHandle])
  else if UnsolicitedMonitor ops.monitor = ERROR_SUCCESS then
    match main.waitLoop ops.monitor.s_nCallbacks fuel 0 with
    | none => none
    | some sleeps =>
      some (main.Exit S_OK (UnsolicitedMonitor ops.monitor) false
        ([Invocation.WlanOpenHandle, Invocation.UnsolicitedMonitor] ++
          List.replicate sleeps (Invocation.Sleep 5000) ++ [Invocation.WlanCloseHandle]))
  else
    some (main.Exit E_FAIL (UnsolicitedMonitor ops.monitor) false
      [Invocation.WlanOpenHandle, Invocation.UnsolicitedMonitor, Invocation.WlanCloseHandle])

/-- The `unsolMon` branch of `main`. -/
def main.unsolMon (ops : Operations) (fuel : Nat) (argv : List String) : Option MainOutcome :=
  if (argv.length : Int) < 3 then some main.usage
  else if stricmpEq (argv.getD 2 "") "lte" then
    some (main.Exit ops.LteTxStatusMonitor 1 false [Invocation.LteTxStatusMonitor])
  else if stricmpEq (argv.getD 2 "") "wifi" then main.unsolMonWiFi ops fuel
  else some main.usage

/-- The function `main`, or `none` when `main` does not return: the process ended inside
`GetConfig` or `SetConfig`, or the wait loop has not ended after `fuel` tests. -/
def main (crt : CRuntime) (ops : Operations) (fuel : Nat) (argv : List String) :
    Option MainOutcome :=
  if (argv.length : Int) < 2 then some main.usage
  else if stricmpEq (argv.getD 1 "") CMD_GETCONFIG then main.getconfig ops argv
  else if stricmpEq (argv.getD 1 "") CMD_SETCONFIG then main.setconfig ops argv
  else if stricmpEq (argv.getD 1 "") CMD_GETSAR then main.getsar ops argv
  else if stricmpEq (argv.getD 1 "") CMD_SETSAR then main.setsar crt ops argv
  else if stricmpEq (argv.getD 1 "") CMD_UNSOLMON then main.unsolMon ops fuel argv
  else some main.usage

/-- The operations of `main` as this development models them, for given answers of the
system. -/
def operationsOf (crt : CRuntime) (fw : FirmwareEnv) (fs : FileSystem) (padding : Nat → Nat)
    (beyond : Nat → Nat → Nat) (wlan : WlanEnv) (modem : ModemEnv) (monitor : MonitorEnv) :
    Operations :=
  { GetConfig := GetConfig.hr fw fs beyond
    SetConfig := SetConfig.hr fw fs padding
    GetSetSARLTE := fun fGet argc argv => (GetSetSARLTE crt modem fGet argc argv).hr
    GetSetSARWiFi := fun dwOpCode state mimo argc argv =>
      (GetSetSARWiFi crt wlan dwOpCode state mimo argc argv).hr
    LteTxStatusMonitor := (LteTxStatusMonitor modem).hr
    monitor := monitor }

/-! ## Example inputs for the firmware store, the cellular path and main -/

/-- The texts `StringFromGUID2` produces for the two scopes. -/
def exampleStringFromGUID2 (guid : GUID) : Option String :=
  if guid = WDI_SAR_UEFI_COMMON_PARAMS then some "\x7b4290AA92-CACE-449D-887B-ADC61B49E05D\x7d"
  else if guid = WDI_SAR_UEFI_IHV_PARAMS then some "\x7b8949533B-7EDA-4D90-A876-BF16215B0C9C\x7d"
  else none

/-- A system on which the privilege is acquired and every firmware call then fails; no
variable can be written and none read. -/
def failingFirmware : FirmwareEnv :=
  { token := ⟨none, none, none⟩
    StringFromGUID2 := exampleStringFromGUID2
    SetFirmwareEnvironmentVariable := fun _ _ _ => false
    GetFirmwareEnvironmentVariable := fun _ _ _ => none }

/-- A system on which `OpenProcessToken` fails with error 5 (access denied), while the
firmware calls themselves would succeed, every variable holding bytes `7`. -/
def unprivilegedFirmware : FirmwareEnv :=
  { token := ⟨some 5, none, none⟩
    StringFromGUID2 := exampleStringFromGUID2
    SetFirmwareEnvironmentVariable := fun _ _ _ => true
    GetFirmwareEnvironmentVariable := fun _ _ size => some (List.replicate size 7) }

/-- A folder that holds no file and in which no file can be created. -/
def readOnlyFolder : FileSystem := ⟨fun _ => none, fun _ => false⟩

/-- A modem API that raises the error `0x8007048F` (device not connected) at once. -/
def failingModem : ModemEnv :=
  { acquireError := some 0x8007048F
    sarManagerValid := true
    isBackoffEnabled := Except.ok true
    antennas := Except.ok []
    setConfigurationError := fun _ => none
    monitorError := none
    stateChanges := [] }

/-- A modem API that answers until `SetConfigurationAsync` raises `0x80070057`. -/
def rejectingModem : ModemEnv :=
  { failingModem with acquireError := none, setConfigurationError := fun _ => some 0x80070057 }

/-- A monitoring run in which registration succeeds and the counter, two notifications every
five seconds, reaches 128 at the 64th test of the loop. -/
def exampleMonitor : MonitorEnv :=
  { openResult := 0
    mallocResult := 4096
    registerServiceResult := 0
    registerNotificationResult := 0
    s_nCallbacks := fun k => 2 * k }

/-- The operations on a system where the firmware calls fail, the folder is read-only and
the modem API raises an error. -/
def failingOperations : Operations :=
  operationsOf exampleRuntime failingFirmware readOnlyFolder (fun _ => 0) (fun _ _ => 0)
    exampleSetEnv failingModem exampleMonitor

/-- A notification of the SAR device service whose payload is the two bytes `0x34 0x12`. -/
def sarNotification : Notification :=
  { NotificationCode := 1, DeviceService := WDI_SAR_DEVICE_SERVICE, dwDataSize := 2,
    DataBlob := [0x34, 0x12] }

/-- A notification whose identifier differs from the SAR device service in its last byte. -/
def otherNotification : Notification :=
  { NotificationCode := 7
    DeviceService := { WDI_SAR_DEVICE_SERVICE with
      Data4 := [0xb8, 0x19, 0xa2, 0x10, 0x2b, 0x69, 0xe5, 0xce] }
    dwDataSize := 3
    DataBlob := [0xAA, 0xBB, 0xCC] }

/-- The payload byte a piece of output shows, if it shows one. -/
def NotificationLine.byteValue : NotificationLine → Option Nat
  | NotificationLine.byte value => some value
  | _ => none

/-- The payload bytes shown in an output, in order. -/
def printedBytes (output : List NotificationLine) : List Nat :=
  output.filterMap NotificationLine.byteValue

/-! ## Reading a call trace -/

/-- Whether a call is `WlanCloseHandle`. -/
def WlanCall.isClose : WlanCall → Bool
  | WlanCall.WlanCloseHandle _ => true
  | _ => false

/-- Whether a call is `WlanDeviceServiceCommand`. -/
def WlanCall.isCommand : WlanCall → Bool
  | WlanCall.WlanDeviceServiceCommand _ _ _ _ _ => true
  | _ => false

/-- A modem API that answers every call without raising an error. -/
def exampleModem : ModemEnv := { failingModem with acquireError := none }

/-- A monitoring run in which registration succeeds and no notification ever arrives: the
counter reads 0 at every test of the loop. -/
def silentMonitor : MonitorEnv := { exampleMonitor with s_nCallbacks := fun _ => 0 }

/-- The operations of `failingOperations` on a system where no notification arrives. -/
def silentOperations : Operations := { failingOperations with monitor := silentMonitor }

/-- The operations on a system where the firmware-access privilege cannot be acquired. -/
def unprivilegedOperations : Operations :=
  operationsOf exampleRuntime unprivilegedFirmware readOnlyFolder (fun _ => 0) (fun _ _ => 0)
    exampleSetEnv failingModem exampleMonitor

/-! # Theorems -/

/-! ## Auxiliary facts -/

theorem sizeof_header_eq : SAR_CONFIG_HEADER.sizeof = 16 := by decide

theorem sizeof_values_eq : SAR_CONFIG_VALUES.sizeof = 19 := by decide

theorem sizeof_region_eq : REGION_CONFIG_VALUES.sizeof = 12 := by decide

theorem sizeof_table_eq : SAR_POWER_TABLE.sizeof = 60 := by decide

theorem memcpyFromVector_length (buffer : List Nat) (beyond : Nat → Nat) (count : Nat) :
    (memcpyFromVector buffer beyond count).length = count := by
  simp [memcpyFromVector]

theorem memcpyFromVector_of_le (buffer : List Nat) (beyond : Nat → Nat) (count : Nat)
    (h : count ≤ buffer.length) : memcpyFromVector buffer beyond count = buffer.take count := by
  apply List.ext_getElem
  · simp [memcpyFromVector, h]
  · intro i h1 h2
    simp [memcpyFromVector] at h1 ⊢
    have : i < buffer.length := by omega
    simp [List.getD_eq_getElem?_getD, List.getElem?_eq_getElem this]

theorem header_ofBytes_bytes (h : SAR_CONFIG_HEADER) (hh : h.Valid) :
    SAR_CONFIG_HEADER.ofBytes h.bytes = h := by
  obtain ⟨h0, h1, h2, h3, h4, h5, h6, h7, h8, h9, h10, h11, h12, h13, h14, h15⟩ := hh
  cases h
  simp only [SAR_CONFIG_HEADER.ofBytes, SAR_CONFIG_HEADER.bytes, byteAt] at *
  simp [Nat.mod_eq_of_lt, *]

theorem values_ofBytes_bytes (v : SAR_CONFIG_VALUES) (hv : v.Valid) :
    SAR_CONFIG_VALUES.ofBytes v.bytes = v := by
  obtain ⟨h0, h1, h2, h3, h4, h5, h6, h7, h8, h9⟩ := hv
  cases v
  simp only [SAR_CONFIG_VALUES.ofBytes, SAR_CONFIG_VALUES.bytes, byteAt, u32At, le32] at *
  simp [Nat.mod_eq_of_lt, *]
  refine ⟨?_, ?_, ?_⟩ <;> omega

theorem region_ofBytes_bytes (r : REGION_CONFIG_VALUES) (padding : Nat → Nat) (hr : r.Valid) :
    REGION_CONFIG_VALUES.ofBytes (r.bytes padding) = r := by
  obtain ⟨h0, h1, h2, h3, h4⟩ := hr
  cases r
  simp only [REGION_CONFIG_VALUES.ofBytes, REGION_CONFIG_VALUES.bytes,
    REGION_CONFIG_VALUES.fieldBytes, byteAt, u16At, u32At, le32, le16] at *
  simp [Nat.mod_eq_of_lt, *]
  refine ⟨?_, ?_, ?_⟩ <;> omega

theorem table_bytes_length (t : SAR_POWER_TABLE) : t.bytes.length = 60 := by
  simp [SAR_POWER_TABLE.bytes, MAX_NUM_SAR_WIFI_POWER_TABLE,
    MAX_NUM_SAR_WIFI_POWER_VALUES_PER_TABLE]

theorem table_ofBytes_bytes (t : SAR_POWER_TABLE) (ht : t.Valid) :
    SAR_POWER_TABLE.ofBytes t.bytes = t := by
  cases t with
  | mk f =>
    simp only [SAR_POWER_TABLE.ofBytes, SAR_POWER_TABLE.mk.injEq]
    funext row col
    have hcell : f row col % 256 = f row col := Nat.mod_eq_of_lt (ht row col)
    have hr := row.isLt
    have hc := col.isLt
    simp only [MAX_NUM_SAR_WIFI_POWER_TABLE, MAX_NUM_SAR_WIFI_POWER_VALUES_PER_TABLE] at hr hc
    have hlt : row.val * 5 + col.val < 60 := by omega
    have h1 : (row.val * 5 + col.val) / 5 = row.val := by omega
    have h2 : (row.val * 5 + col.val) % 5 = col.val := by omega
    simp [byteAt, SAR_POWER_TABLE.bytes, SAR_POWER_TABLE.cell, MAX_NUM_SAR_WIFI_POWER_TABLE,
      MAX_NUM_SAR_WIFI_POWER_VALUES_PER_TABLE, List.getD_eq_getElem?_getD, hlt, h1, h2, hcell]
theorem fullPathOf_length (path name : String) :
    (fullPathOf path name).length = path.length + name.length + 5 := by
  simp only [fullPathOf, String.length_append]
  have h1 : ("\\" : String).length = 1 := by decide
  have h2 : (".bin" : String).length = 4 := by decide
  omega

theorem fullPathOf_inj (path a b : String) (h : fullPathOf path a = fullPathOf path b) :
    a = b := by
  have h1 := congrArg String.data h
  simp only [fullPathOf, String.data_append, List.append_assoc, List.append_cancel_left_eq,
    List.append_cancel_right_eq] at h1
  exact String.ext h1

theorem sprintfFullPath_of_fits (path name : String)
    (h : path.length + name.length + 5 < MAX_PATH) :
    sprintfFullPath path name = some (fullPathOf path name) := by
  simp [sprintfFullPath, fullPathOf_length, h]

theorem ofstreamWrite_canCreate (fs : FileSystem) (p : String) (object : List Nat) (n : Nat) :
    (ofstreamWrite fs p object n).canCreate = fs.canCreate := by
  unfold ofstreamWrite
  split <;> rfl

theorem ofstreamWrite_files_same (fs : FileSystem) (p : String) (object : List Nat) (n : Nat)
    (hc : fs.canCreate p = true) :
    (ofstreamWrite fs p object n).files p = some (object.take n) := by
  simp [ofstreamWrite, hc]

theorem ofstreamWrite_files_other (fs : FileSystem) (p q : String) (object : List Nat)
    (n : Nat) (hne : q ≠ p) : (ofstreamWrite fs p object n).files q = fs.files q := by
  unfold ofstreamWrite
  split <;> simp [hne]

theorem ifstreamReadAll_write_same (fs : FileSystem) (p : String) (object : List Nat) (n : Nat)
    (hc : fs.canCreate p = true) :
    ifstreamReadAll (ofstreamWrite fs p object n) p = object.take n := by
  simp [ifstreamReadAll, ofstreamWrite, hc]

theorem ifstreamReadAll_write_other (fs : FileSystem) (p q : String) (object : List Nat)
    (n : Nat) (hne : q ≠ p) :
    ifstreamReadAll (ofstreamWrite fs p object n) q = ifstreamReadAll fs q := by
  unfold ifstreamReadAll ofstreamWrite
  split <;> simp [hne]

theorem names_fit (path : String) (h : path.length + 21 < MAX_PATH) :
    path.length + WifiSARHeader.length + 5 < MAX_PATH ∧
    path.length + WifiSARConfig.length + 5 < MAX_PATH ∧
    path.length + WifiRegionConfig.length + 5 < MAX_PATH ∧
    path.length + WifiSARTable.length + 5 < MAX_PATH := by
  have h1 : WifiSARHeader.length = 13 := by decide
  have h2 : WifiSARConfig.length = 13 := by decide
  have h3 : WifiRegionConfig.length = 16 := by decide
  have h4 : WifiSARTable.length = 12 := by decide
  omega

theorem fullPathOf_ne (path a b : String) (h : a ≠ b) : fullPathOf path a ≠ fullPathOf path b :=
  fun e => h (fullPathOf_inj path a b e)

/-- Reading back, the way the file branch of `GetConfig` does, what the file branch of
`SetConfig` wrote for four records whose fields fit their widths. -/
theorem getConfig_after_setConfig (path : String) (fs : FileSystem) (beyond : Nat → Nat → Nat)
    (padding : Nat → Nat) (h : SAR_CONFIG_HEADER) (v : SAR_CONFIG_VALUES)
    (r : REGION_CONFIG_VALUES) (t : SAR_POWER_TABLE) (hh : h.Valid) (hv : v.Valid)
    (hr : r.Valid) (ht : t.Valid)
    (hpath : path.length + 21 < MAX_PATH)
    (hc : ∀ name, name ∈ [WifiSARHeader, WifiSARConfig, WifiRegionConfig, WifiSARTable] →
      fs.canCreate (fullPathOf path name) = true) :
    GetConfig.fileBranch path (SetConfig.fileBranch path h v r padding t fs).fs beyond =
      some ⟨h, v, r, t, []⟩ := by
  obtain ⟨f1, f2, f3, f4⟩ := names_fit path hpath
  have c1 := hc WifiSARHeader (by simp)
  have c2 := hc WifiSARConfig (by simp)
  have c3 := hc WifiRegionConfig (by simp)
  have c4 := hc WifiSARTable (by simp)
  have n12 : fullPathOf path WifiSARHeader ≠ fullPathOf path WifiSARConfig :=
    fullPathOf_ne _ _ _ (by decide)
  have n13 : fullPathOf path WifiSARHeader ≠ fullPathOf path WifiRegionConfig :=
    fullPathOf_ne _ _ _ (by decide)
  have n14 : fullPathOf path WifiSARHeader ≠ fullPathOf path WifiSARTable :=
    fullPathOf_ne _ _ _ (by decide)
  have n23 : fullPathOf path WifiSARConfig ≠ fullPathOf path WifiRegionConfig :=
    fullPathOf_ne _ _ _ (by decide)
  have n24 : fullPathOf path WifiSARConfig ≠ fullPathOf path WifiSARTable :=
    fullPathOf_ne _ _ _ (by decide)
  have n34 : fullPathOf path WifiRegionConfig ≠ fullPathOf path WifiSARTable :=
    fullPathOf_ne _ _ _ (by decide)
  have lh : h.bytes.length = 16 := rfl
  have lv : v.bytes.length = 19 := rfl
  have lr : (r.bytes padding).length = 12 := rfl
  have lt := table_bytes_length t
  simp only [GetConfig.fileBranch, SetConfig.fileBranch, sprintfFullPath_of_fits, f1, f2, f3, f4]
  rw [ifstreamReadAll_write_other _ _ _ _ _ n14, ifstreamReadAll_write_other _ _ _ _ _ n13,
    ifstreamReadAll_write_other _ _ _ _ _ n12, ifstreamReadAll_write_same _ _ _ _ c1,
    ifstreamReadAll_write_other _ _ _ _ _ n24, ifstreamReadAll_write_other _ _ _ _ _ n23,
    ifstreamReadAll_write_same _ _ _ _ (by rw [ofstreamWrite_canCreate]; exact c2),
    ifstreamReadAll_write_other _ _ _ _ _ n34,
    ifstreamReadAll_write_same _ _ _ _ (by simp only [ofstreamWrite_canCreate]; exact c3),
    ifstreamReadAll_write_same _ _ _ _ (by simp only [ofstreamWrite_canCreate]; exact c4)]
  simp only [sizeof_header_eq, sizeof_values_eq, sizeof_region_eq, sizeof_table_eq]
  have th : h.bytes.take 16 = h.bytes := List.take_of_length_le (by omega)
  have tv : v.bytes.take 19 = v.bytes := List.take_of_length_le (by omega)
  have tr : (r.bytes padding).take 12 = r.bytes padding := List.take_of_length_le (by omega)
  have tt : t.bytes.take 60 = t.bytes := List.take_of_length_le (by omega)
  rw [th, tv, tr, tt]
  simp only [GetConfig.readHeader, GetConfig.readValues, GetConfig.readRegion,
    GetConfig.readTable, sizeof_header_eq, sizeof_values_eq, sizeof_region_eq, sizeof_table_eq,
    readsPastEnd]
  rw [memcpyFromVector_of_le _ _ _ (by omega : 16 ≤ h.bytes.length),
    memcpyFromVector_of_le _ _ _ (by omega : 19 ≤ v.bytes.length),
    memcpyFromVector_of_le _ _ _ (by omega : 12 ≤ (r.bytes padding).length),
    memcpyFromVector_of_le _ _ _ (by omega : 60 ≤ t.bytes.length), th, tv, tr, tt,
    header_ofBytes_bytes h hh, values_ofBytes_bytes v hv, region_ofBytes_bytes r padding hr,
    table_ofBytes_bytes t ht]
  simp [lh, lv, lr, lt]

/-! ## The flat-file store: round trip, sizes, short and long files -/

theorem canonical_header_valid : SetConfig.sarConfigHeader.Valid := by decide

theorem canonical_values_valid : SetConfig.sarConfigValues.Valid := by decide

theorem canonical_region_valid : SetConfig.regionConfigValues.Valid := by decide

theorem canonical_table_valid : SetConfig.sarPowerTable.Valid := by
  intro row col
  simp only [SetConfig.sarPowerTable]
  omega

theorem boundaryTable_valid : boundaryTable.Valid := by
  intro row col
  simp only [boundaryTable]
  split <;> omega

/-- C1: whatever four records (fields within their widths) the file branch of `SetConfig`
writes into a folder whose files can be created, the file branch of `GetConfig` reads back
records equal to them field for field, without reading past any file; in particular the
example records `SetConfig` builds (header `Size = 54`, `WLANTechnology = 4`, `ProductID = 4`,
`Version = 5`, `Revision = 6`, `NumberSARTables = 7`; values `SARSafetyTimer = 0xABCDEF01`,
`SARState = 0x55`) come back unchanged. -/
theorem flat_file_round_trip (path : String) (fs : FileSystem) (beyond : Nat → Nat → Nat)
    (padding : Nat → Nat) (h : SAR_CONFIG_HEADER) (v : SAR_CONFIG_VALUES)
    (r : REGION_CONFIG_VALUES) (t : SAR_POWER_TABLE) (hh : h.Valid) (hv : v.Valid)
    (hr : r.Valid) (ht : t.Valid) (hpath : path.length + 21 < MAX_PATH)
    (hc : ∀ name, name ∈ [WifiSARHeader, WifiSARConfig, WifiRegionConfig, WifiSARTable] →
      fs.canCreate (fullPathOf path name) = true) :
    GetConfig.fileBranch path (SetConfig.fileBranch path h v r padding t fs).fs beyond =
        some ⟨h, v, r, t, []⟩ ∧
    GetConfig.fileBranch path (SetConfig.files path padding fs).fs beyond =
        some ⟨SetConfig.sarConfigHeader, SetConfig.sarConfigValues, SetConfig.regionConfigValues,
          SetConfig.sarPowerTable, []⟩ ∧
    SetConfig.sarConfigHeader.Size = 54 ∧ SetConfig.sarConfigHeader.WLANTechnology = 4 ∧
    SetConfig.sarConfigHeader.ProductID = 4 ∧ SetConfig.sarConfigHeader.Version = 5 ∧
    SetConfig.sarConfigHeader.Revision = 6 ∧ SetConfig.sarConfigHeader.NumberSARTables = 7 ∧
    SetConfig.sarConfigValues.SARSafetyTimer = 0xABCDEF01 ∧
    SetConfig.sarConfigValues.SARState = 0x55 := by
  refine ⟨getConfig_after_setConfig path fs beyond padding h v r t hh hv hr ht hpath hc,
    getConfig_after_setConfig path fs beyond padding _ _ _ _ canonical_header_valid
      canonical_values_valid canonical_region_valid canonical_table_valid hpath hc,
    ?_, ?_, ?_, ?_, ?_, ?_, ?_, ?_⟩ <;> decide

/-- Witness for C1: the boundary records written into the empty folder `d` and read back. -/
theorem flat_file_round_trip_witness :
    GetConfig.fileBranch "d"
        (SetConfig.fileBranch "d" boundaryHeader boundaryValues boundaryRegion (fun _ => 0xCC)
          boundaryTable emptyFolder).fs (fun _ _ => 0xAA) =
      some ⟨boundaryHeader, boundaryValues, boundaryRegion, boundaryTable, []⟩ :=
  (flat_file_round_trip "d" emptyFolder (fun _ _ => 0xAA) (fun _ => 0xCC) boundaryHeader
    boundaryValues boundaryRegion boundaryTable (by decide) (by decide) (by decide)
    boundaryTable_valid (by decide) (fun _ _ => rfl)).1

/-- C2: for any field contents, `SAR_CONFIG_HEADER` is 16 bytes (16 one-byte fields),
`SAR_CONFIG_VALUES` is 19 bytes (`1 + 3*4 + 6*1`, every field directly after the one before)
and `SAR_POWER_TABLE` is 60 bytes (12 rows of 5 one-byte cells). -/
theorem record_sizes_fixed (h : SAR_CONFIG_HEADER) (v : SAR_CONFIG_VALUES)
    (t : SAR_POWER_TABLE) :
    (h.bytes.length = 16 ∧ SAR_CONFIG_HEADER.sizeof = 16 ∧
      SAR_CONFIG_HEADER.members.length = 16 ∧
      ∀ m, m ∈ SAR_CONFIG_HEADER.members → m.size = 1) ∧
    (v.bytes.length = 19 ∧ SAR_CONFIG_VALUES.sizeof = 19 ∧
      membersWidth SAR_CONFIG_VALUES.members = 1 + 3 * 4 + 6 * 1 ∧
      memberOffsets 1 0 SAR_CONFIG_VALUES.members = [0, 1, 5, 9, 13, 14, 15, 16, 17, 18]) ∧
    (t.bytes.length = 60 ∧ SAR_POWER_TABLE.sizeof = 60 ∧
      MAX_NUM_SAR_WIFI_POWER_TABLE * MAX_NUM_SAR_WIFI_POWER_VALUES_PER_TABLE * 1 = 60) := by
  refine ⟨⟨rfl, by decide, by decide, by decide⟩, ⟨rfl, by decide, by decide, by decide⟩,
    ⟨table_bytes_length t, by decide, by decide⟩⟩

/-- C3, as stated, fails: for the `WifiRegionConfig` variable `SetConfig` writes 12 bytes into
the empty folder `d`, not 8; the widths of the fields of `REGION_CONFIG_VALUES` sum to 10, not
8; and under the member alignment limits 1, 2, 4, 8 and 16 the compiler offers `sizeof` is
10, 10, 12, 12 and 12, never 8. -/
theorem region_config_not_eight_bytes :
    SetConfig.bytesWritten "d" WifiRegionConfig (fun _ => 0) emptyFolder = some 12 ∧
    SetConfig.bytesWritten "d" WifiRegionConfig (fun _ => 0) emptyFolder ≠ some 8 ∧
    membersWidth REGION_CONFIG_VALUES.members = 10 ∧
    [sizeofStruct 1 REGION_CONFIG_VALUES.members, sizeofStruct 2 REGION_CONFIG_VALUES.members,
      sizeofStruct 4 REGION_CONFIG_VALUES.members, sizeofStruct 8 REGION_CONFIG_VALUES.members,
      sizeofStruct 16 REGION_CONFIG_VALUES.members] = [10, 10, 12, 12, 12] := by
  decide

/-- C3, amended: `REGION_CONFIG_VALUES` is declared after the `#pragma pack(pop)`; its fields
lie at offsets 0 (the two 16-bit halves of `GeoCountryString`, at 0 and 2), 4, 8 and 9 with no
gap between them and are 10 bytes wide in all; `sizeof` is 12, the 10 field bytes followed
by 2 bytes of trailing padding, and 12 is the number of bytes `SetConfig` writes for the
`WifiRegionConfig` variable. -/
theorem region_config_size (path : String) (fs : FileSystem) (padding : Nat → Nat)
    (r : REGION_CONFIG_VALUES) (hpath : path.length + 21 < MAX_PATH)
    (hc : fs.canCreate (fullPathOf path WifiRegionConfig) = true) :
    SetConfig.bytesWritten path WifiRegionConfig padding fs = some 12 ∧
    REGION_CONFIG_VALUES.sizeof = 12 ∧
    memberOffsets defaultPack 0 REGION_CONFIG_VALUES.members = [0, 4, 8, 9] ∧
    memberOffsets 1 0 WDI_GEO_STATE_ALPHA.members = [0, 2] ∧
    membersWidth REGION_CONFIG_VALUES.members = 2 + 2 + 4 + 1 + 1 ∧
    membersEnd defaultPack 0 REGION_CONFIG_VALUES.members = 10 ∧
    r.fieldBytes.length = 10 ∧ (r.bytes padding).length = 12 ∧
    (r.bytes padding).take 10 = r.fieldBytes := by
  obtain ⟨f1, f2, f3, f4⟩ := names_fit path hpath
  have n34 : fullPathOf path WifiRegionConfig ≠ fullPathOf path WifiSARTable :=
    fullPathOf_ne _ _ _ (by decide)
  refine ⟨?_, by decide, by decide, by decide, by decide, by decide, rfl, rfl, rfl⟩
  simp only [SetConfig.bytesWritten, SetConfig.files, SetConfig.fileBranch,
    sprintfFullPath_of_fits, f1, f2, f3, f4]
  rw [ofstreamWrite_files_other _ _ _ _ _ n34,
    ofstreamWrite_files_same _ _ _ _ (by simp only [ofstreamWrite_canCreate]; exact hc)]
  rfl

/-- Witness for C3: the empty folder `d`. -/
theorem region_config_size_witness :
    SetConfig.bytesWritten "d" WifiRegionConfig (fun _ => 0xCC) emptyFolder = some 12 ∧
    REGION_CONFIG_VALUES.sizeof = 12 ∧
    membersWidth REGION_CONFIG_VALUES.members = 2 + 2 + 4 + 1 + 1 :=
  have h := region_config_size "d" emptyFolder (fun _ => 0xCC) boundaryRegion (by decide) rfl
  ⟨h.1, h.2.1, h.2.2.2.2.1⟩

/-- C4, the code at a failing input: in a folder whose four files hold five bytes each, with
`0xAA` in the memory behind the vector, the guarded header read leaves the header all-zero,
while the three unguarded reads fill `SAR_CONFIG_VALUES`, `REGION_CONFIG_VALUES` and
`SAR_POWER_TABLE` from the five bytes and from the memory behind them. -/
theorem getConfig_short_files :
    (GetConfig.fileBranch "d" shortFiles (fun _ _ => 0xAA)).map ConfigRecords.sarConfigHeader =
      some SAR_CONFIG_HEADER.zero ∧
    (GetConfig.fileBranch "d" shortFiles (fun _ _ => 0xAA)).map ConfigRecords.sarConfigValues =
      some ⟨1, 0x05040302, 0xAAAAAAAA, 0xAAAAAAAA, 0xAA, 0xAA, 0xAA, 0xAA, 0xAA, 0xAA⟩ ∧
    (GetConfig.fileBranch "d" shortFiles (fun _ _ => 0xAA)).map ConfigRecords.regionConfigValues =
      some ⟨0x0201, 0x0403, 0xAAAAAA05, 0xAA, 0xAA⟩ ∧
    (GetConfig.fileBranch "d" shortFiles (fun _ _ => 0xAA)).map
        (fun rec => rec.sarPowerTable.bytes) =
      some ([1, 2, 3, 4, 5] ++ List.replicate 55 0xAA) ∧
    (GetConfig.fileBranch "d" shortFiles (fun _ _ => 0xAA)).map ConfigRecords.readPastEnd =
      some [WifiSARConfig, WifiRegionConfig, WifiSARTable] := by
  decide

/-- The four reads of the file branch, for buffers at least as long as the records. -/
theorem reads_of_long_buffers (b1 b2 b3 b4 : List Nat) (m1 m2 m3 m4 : Nat → Nat)
    (h1 : SAR_CONFIG_HEADER.sizeof ≤ b1.length) (h2 : SAR_CONFIG_VALUES.sizeof ≤ b2.length)
    (h3 : REGION_CONFIG_VALUES.sizeof ≤ b3.length) (h4 : SAR_POWER_TABLE.sizeof ≤ b4.length) :
    GetConfig.readHeader b1 m1 = SAR_CONFIG_HEADER.ofBytes (b1.take SAR_CONFIG_HEADER.sizeof) ∧
    GetConfig.readValues b2 m2 = SAR_CONFIG_VALUES.ofBytes (b2.take SAR_CONFIG_VALUES.sizeof) ∧
    GetConfig.readRegion b3 m3 =
      REGION_CONFIG_VALUES.ofBytes (b3.take REGION_CONFIG_VALUES.sizeof) ∧
    GetConfig.readTable b4 m4 = SAR_POWER_TABLE.ofBytes (b4.take SAR_POWER_TABLE.sizeof) ∧
    readsPastEnd b2 SAR_CONFIG_VALUES.sizeof = false ∧
    readsPastEnd b3 REGION_CONFIG_VALUES.sizeof = false ∧
    readsPastEnd b4 SAR_POWER_TABLE.sizeof = false := by
  simp only [GetConfig.readHeader, GetConfig.readValues, GetConfig.readRegion,
    GetConfig.readTable, h1, if_true, memcpyFromVector_of_le _ _ _ h1,
    memcpyFromVector_of_le _ _ _ h2, memcpyFromVector_of_le _ _ _ h3,
    memcpyFromVector_of_le _ _ _ h4, readsPastEnd, true_and]
  simp only [decide_eq_false_iff_not, not_lt]
  exact ⟨h2, h3, h4⟩

/-- C5: when each of the four files holds at least as many bytes as its record, the file
branch of `GetConfig` populates each record from exactly the first `sizeof` bytes of its file,
whatever follows them in the file or in memory; so two folders whose files agree on those
first bytes yield identical records. -/
theorem overlong_input_ignored (path : String) (fs fs2 : FileSystem)
    (beyond beyond2 : Nat → Nat → Nat) (hpath : path.length + 21 < MAX_PATH)
    (h1 : SAR_CONFIG_HEADER.sizeof ≤ (ifstreamReadAll fs (fullPathOf path WifiSARHeader)).length)
    (h2 : SAR_CONFIG_VALUES.sizeof ≤ (ifstreamReadAll fs (fullPathOf path WifiSARConfig)).length)
    (h3 : REGION_CONFIG_VALUES.sizeof ≤
      (ifstreamReadAll fs (fullPathOf path WifiRegionConfig)).length)
    (h4 : SAR_POWER_TABLE.sizeof ≤ (ifstreamReadAll fs (fullPathOf path WifiSARTable)).length)
    (g1 : SAR_CONFIG_HEADER.sizeof ≤
      (ifstreamReadAll fs2 (fullPathOf path WifiSARHeader)).length)
    (g2 : SAR_CONFIG_VALUES.sizeof ≤
      (ifstreamReadAll fs2 (fullPathOf path WifiSARConfig)).length)
    (g3 : REGION_CONFIG_VALUES.sizeof ≤
      (ifstreamReadAll fs2 (fullPathOf path WifiRegionConfig)).length)
    (g4 : SAR_POWER_TABLE.sizeof ≤ (ifstreamReadAll fs2 (fullPathOf path WifiSARTable)).length)
    (e1 : (ifstreamReadAll fs (fullPathOf path WifiSARHeader)).take SAR_CONFIG_HEADER.sizeof =
      (ifstreamReadAll fs2 (fullPathOf path WifiSARHeader)).take SAR_CONFIG_HEADER.sizeof)
    (e2 : (ifstreamReadAll fs (fullPathOf path WifiSARConfig)).take SAR_CONFIG_VALUES.sizeof =
      (ifstreamReadAll fs2 (fullPathOf path WifiSARConfig)).take SAR_CONFIG_VALUES.sizeof)
    (e3 : (ifstreamReadAll fs (fullPathOf path WifiRegionConfig)).take
        REGION_CONFIG_VALUES.sizeof =
      (ifstreamReadAll fs2 (fullPathOf path WifiRegionConfig)).take REGION_CONFIG_VALUES.sizeof)
    (e4 : (ifstreamReadAll fs (fullPathOf path WifiSARTable)).take SAR_POWER_TABLE.sizeof =
      (ifstreamReadAll fs2 (fullPathOf path WifiSARTable)).take SAR_POWER_TABLE.sizeof) :
    GetConfig.fileBranch path fs beyond =
      some ⟨SAR_CONFIG_HEADER.ofBytes
          ((ifstreamReadAll fs (fullPathOf path WifiSARHeader)).take SAR_CONFIG_HEADER.sizeof),
        SAR_CONFIG_VALUES.ofBytes
          ((ifstreamReadAll fs (fullPathOf path WifiSARConfig)).take SAR_CONFIG_VALUES.sizeof),
        REGION_CONFIG_VALUES.ofBytes
          ((ifstreamReadAll fs (fullPathOf path WifiRegionConfig)).take
            REGION_CONFIG_VALUES.sizeof),
        SAR_POWER_TABLE.ofBytes
          ((ifstreamReadAll fs (fullPathOf path WifiSARTable)).take SAR_POWER_TABLE.sizeof),
        []⟩ ∧
    GetConfig.fileBranch path fs2 beyond2 = GetConfig.fileBranch path fs beyond := by
  obtain ⟨f1, f2, f3, f4⟩ := names_fit path hpath
  obtain ⟨a1, a2, a3, a4, a5, a6, a7⟩ := reads_of_long_buffers _ _ _ _ (beyond 0) (beyond 1)
    (beyond 2) (beyond 3) h1 h2 h3 h4
  obtain ⟨c1, c2, c3, c4, c5, c6, c7⟩ := reads_of_long_buffers _ _ _ _ (beyond2 0) (beyond2 1)
    (beyond2 2) (beyond2 3) g1 g2 g3 g4
  simp only [GetConfig.fileBranch, sprintfFullPath_of_fits, f1, f2, f3, f4, a1, a2, a3, a4, a5,
    a6, a7, c1, c2, c3, c4, c5, c6, c7, e1, e2, e3, e4]
  simp

/-- Witness for C5: two folders whose files differ only after their first 60 bytes. -/
theorem overlong_input_ignored_witness :
    GetConfig.fileBranch "d" longFilesOther (fun _ _ => 0x55) =
      GetConfig.fileBranch "d" longFiles (fun _ _ => 0xAA) :=
  (overlong_input_ignored "d" longFiles longFilesOther (fun _ _ => 0xAA) (fun _ _ => 0x55)
    (by decide) (by decide) (by decide) (by decide) (by decide) (by decide) (by decide)
    (by decide) (by decide) (by decide) (by decide) (by decide) (by decide)).2

/-! ## The live Wi-Fi command -/

theorem HRESULT_FROM_WIN32_ne_S_OK (x : Nat) (hx : x ≠ ERROR_SUCCESS) :
    HRESULT_FROM_WIN32 x ≠ S_OK := by
  unfold HRESULT_FROM_WIN32 S_OK
  unfold ERROR_SUCCESS at hx
  split <;> omega

theorem exit_hr (env : WlanEnv) (hClient dwResult hr : Nat) (calls : List WlanCall)
    (printed : List Printed) :
    (GetSetSARWiFi.exit env hClient dwResult hr calls printed).hr = hr := by
  unfold GetSetSARWiFi.exit
  split <;> rfl

theorem exit_printed (env : WlanEnv) (hClient dwResult hr : Nat) (calls : List WlanCall)
    (printed : List Printed) :
    (GetSetSARWiFi.exit env hClient dwResult hr calls printed).printed = printed := by
  unfold GetSetSARWiFi.exit
  split <;> rfl

theorem sentRequests_append_close (calls : List WlanCall) (h : Nat) :
    sentRequests (calls ++ [WlanCall.WlanCloseHandle h]) = sentRequests calls := by
  induction calls with
  | nil => rfl
  | cons c cs ih =>
    cases c with
    | WlanDeviceServiceCommand a b n buf d =>
      cases buf with
      | none => simpa [sentRequests] using ih
      | some b => simp [sentRequests, ih]
    | _ => simpa [sentRequests] using ih

theorem exit_sentRequests (env : WlanEnv) (hClient dwResult hr : Nat) (calls : List WlanCall)
    (printed : List Printed) :
    sentRequests (GetSetSARWiFi.exit env hClient dwResult hr calls printed).calls =
      sentRequests calls := by
  unfold GetSetSARWiFi.exit
  split
  · exact sentRequests_append_close calls hClient
  · rfl

theorem setBufferSize_eq : GetSetSARWiFi.setBufferSize = 28 := by decide

theorem toUInt32_lt (x : Int) : toUInt32 x < 4294967296 := by
  unfold toUInt32
  omega

theorem setBuffer_length (crt : CRuntime) (s m : Nat) (argc : Int) (argv : List String) :
    (GetSetSARWiFi.setBuffer crt s m argc argv).length = 28 := rfl

theorem setBuffer_num (crt : CRuntime) (s m : Nat) (argc : Int) (argv : List String) :
    numWdiSarConfigElements (GetSetSARWiFi.setBuffer crt s m argc argv) =
      toUInt32 (GetSetSARWiFi.antennaPairs argc) := by
  have h := toUInt32_lt (GetSetSARWiFi.antennaPairs argc)
  simp only [numWdiSarConfigElements, GetSetSARWiFi.setBuffer, u32At, byteAt, le32]
  simp
  omega

/-- The requests a SET invocation hands to `WlanDeviceServiceCommand`: one, once the handle is
open, the interfaces are enumerated and the buffer is allocated, and none otherwise. -/
theorem set_sentRequests (crt : CRuntime) (env : WlanEnv) (s m : Nat) (argc : Int)
    (argv : List String) :
    sentRequests (GetSetSARWiFi crt env WDI_SET_SAR_STATE s m argc argv).calls =
      if env.openResult = ERROR_SUCCESS ∧ env.enumResult = ERROR_SUCCESS ∧ env.mallocResult ≠ 0
      then [(GetSetSARWiFi.setBufferSize, GetSetSARWiFi.setBuffer crt s m argc argv)]
      else [] := by
  unfold GetSetSARWiFi
  by_cases ho : env.openResult = ERROR_SUCCESS
  · by_cases he : env.enumResult = ERROR_SUCCESS
    · by_cases hm : env.mallocResult = 0
      · simp [ho, he, hm, exit_sentRequests, sentRequests]
      · simp only [ho, he, hm, ne_eq, not_true_eq_false, if_false, if_true, not_false_eq_true,
          and_self, GetSetSARWiFi.command, GetSetSARWiFi.afterCommand]
        split
        · simp [exit_sentRequests, sentRequests]
        · have hne : WDI_SET_SAR_STATE ≠ WDI_GET_SAR_STATE := by decide
          simp only [hne, if_false]
          split <;> simp [exit_sentRequests, sentRequests]
    · simp [ho, he, exit_sentRequests, sentRequests]
  · simp [ho, exit_sentRequests, sentRequests]

/-- The outcome of a SET invocation in which the open, the enumeration, the allocation and
the command succeed. -/
theorem set_success_outcome (crt : CRuntime) (env : WlanEnv) (s m : Nat) (argc : Int)
    (argv : List String) (ho : env.openResult = ERROR_SUCCESS)
    (he : env.enumResult = ERROR_SUCCESS) (hm : env.mallocResult ≠ 0)
    (hcmd : env.commandResult = ERROR_SUCCESS) :
    GetSetSARWiFi crt env WDI_SET_SAR_STATE s m argc argv =
      GetSetSARWiFi.exit env env.handle env.commandResult S_OK
        [WlanCall.WlanOpenHandle 2, WlanCall.WlanEnumInterfaces env.handle,
          WlanCall.WlanDeviceServiceCommand env.handle WDI_SET_SAR_STATE
            GetSetSARWiFi.setBufferSize (some (GetSetSARWiFi.setBuffer crt s m argc argv)) 4]
        (Printed.commandReturned env.commandResult (u32At (outputBuffer env.response 4) 0)
            env.bytesReturned ::
          if env.bytesReturned = 4 then [Printed.sarResult (u32At (outputBuffer env.response 4) 0)]
          else []) := by
  have hne : WDI_SET_SAR_STATE ≠ WDI_GET_SAR_STATE := by decide
  unfold GetSetSARWiFi
  simp only [ho, he, hm, hcmd, ne_eq, not_true_eq_false, if_false, if_true,
    GetSetSARWiFi.command, GetSetSARWiFi.afterCommand, hne]
  split <;> simp

/-- The outcome of a GET invocation in which the open, the enumeration, the allocation and
the command succeed. -/
theorem get_success_outcome (crt : CRuntime) (env : WlanEnv) (s m : Nat) (argc : Int)
    (argv : List String) (ho : env.openResult = ERROR_SUCCESS)
    (he : env.enumResult = ERROR_SUCCESS) (hm : env.mallocResult ≠ 0)
    (hcmd : env.commandResult = ERROR_SUCCESS) :
    GetSetSARWiFi crt env WDI_GET_SAR_STATE s m argc argv =
      GetSetSARWiFi.exit env env.handle env.commandResult E_UNEXPECTED
        [WlanCall.WlanOpenHandle 2, WlanCall.WlanEnumInterfaces env.handle,
          WlanCall.WlanDeviceServiceCommand env.handle WDI_GET_SAR_STATE 0 none 28]
        [Printed.commandReturned env.commandResult 0 env.bytesReturned,
          Printed.nullOutputBuffer] := by
  have hne : WDI_GET_SAR_STATE ≠ WDI_SET_SAR_STATE := by decide
  have hsz : WDI_SAR_STATE.sizeof + 2 * WDI_SAR_CONFIG_SET.sizeof = 28 := by decide
  unfold GetSetSARWiFi
  simp only [ho, he, hm, hcmd, ne_eq, not_true_eq_false, if_false, if_true,
    GetSetSARWiFi.command, GetSetSARWiFi.afterCommand, hne, hsz]
  simp

/-- The `HRESULT` `GetSetSARWiFi` returns, read off the answers of the calls it makes. -/
theorem getSetSARWiFi_hr (crt : CRuntime) (env : WlanEnv) (dwOpCode s m : Nat) (argc : Int)
    (argv : List String) :
    (GetSetSARWiFi crt env dwOpCode s m argc argv).hr =
      if env.openResult ≠ ERROR_SUCCESS then HRESULT_FROM_WIN32 env.openResult
      else if env.enumResult ≠ ERROR_SUCCESS then HRESULT_FROM_WIN32 env.enumResult
      else if env.mallocResult = 0 then E_OUTOFMEMORY
      else if env.commandResult ≠ ERROR_SUCCESS then HRESULT_FROM_WIN32 env.commandResult
      else if dwOpCode = WDI_GET_SAR_STATE then E_UNEXPECTED
      else S_OK := by
  unfold GetSetSARWiFi
  simp only [GetSetSARWiFi.command, GetSetSARWiFi.afterCommand]
  by_cases ho : env.openResult = ERROR_SUCCESS
  · by_cases he : env.enumResult = ERROR_SUCCESS
    · by_cases hm : env.mallocResult = 0
      · by_cases hs : dwOpCode = WDI_SET_SAR_STATE <;> simp [ho, he, hm, hs, exit_hr]
      · by_cases hcmd : env.commandResult = ERROR_SUCCESS
        · by_cases hs : dwOpCode = WDI_SET_SAR_STATE
          · have hg : WDI_SET_SAR_STATE ≠ WDI_GET_SAR_STATE := by decide
            subst hs
            by_cases hb : env.bytesReturned = 4 <;> simp [ho, he, hm, hcmd, hg, hb, exit_hr]
          · by_cases hg : dwOpCode = WDI_GET_SAR_STATE
            · have hne : WDI_GET_SAR_STATE ≠ WDI_SET_SAR_STATE := by decide
              subst hg
              simp [ho, he, hm, hcmd, hne, exit_hr]
            · by_cases hb : env.bytesReturned = 4 <;>
                simp [ho, he, hm, hcmd, hs, hg, hb, exit_hr]
        · by_cases hs : dwOpCode = WDI_SET_SAR_STATE <;> simp [ho, he, hm, hcmd, hs, exit_hr]
    · simp [ho, he, exit_hr]
  · simp [ho, exit_hr]

/-- Every request a SET invocation sends is the 28-byte buffer built from the arguments. -/
theorem set_sentRequests_mem (crt : CRuntime) (env : WlanEnv) (s m : Nat) (argc : Int)
    (argv : List String) (req : Nat × List Nat)
    (hreq : req ∈ sentRequests (GetSetSARWiFi crt env WDI_SET_SAR_STATE s m argc argv).calls) :
    req = (28, GetSetSARWiFi.setBuffer crt s m argc argv) := by
  rw [set_sentRequests] at hreq
  split at hreq
  · simp only [List.mem_singleton] at hreq
    rw [hreq, setBufferSize_eq]
  · simp at hreq

/-- C6, as stated, fails: the SET request built for one antenna pair (`1 5`) declares one
element and is handed over with length 28, not `12 + 8 * 1 = 20`; the one built for no pair
declares no element and is handed over with length 28, not 12. -/
theorem set_request_length_one_pair :
    sentRequests (GetSetSARWiFi exampleRuntime exampleSetEnv WDI_SET_SAR_STATE
        WDI_SARBACKOFF_ENABLED 0 2 ["1", "5"]).calls =
      [(28, [1, 0, 0, 0, 0, 0, 0, 0, 1, 0, 0, 0, 1, 0, 0, 0, 5, 0, 0, 0, 0, 0, 0, 0, 0, 0, 0, 0])] ∧
    numWdiSarConfigElements
      [1, 0, 0, 0, 0, 0, 0, 0, 1, 0, 0, 0, 1, 0, 0, 0, 5, 0, 0, 0, 0, 0, 0, 0, 0, 0, 0, 0] = 1 ∧
    28 ≠ WDI_SAR_STATE.sizeof + 8 * 1 ∧
    (sentRequests (GetSetSARWiFi exampleRuntime exampleSetEnv WDI_SET_SAR_STATE
        WDI_SARBACKOFF_DISABLED 0 0 []).calls).map Prod.fst = [28] ∧
    28 ≠ WDI_SAR_STATE.sizeof + 8 * 0 := by
  decide

/-- C6, amended: every SET request `GetSetSARWiFi` hands to the device-service command has
the fixed length `headerSize + 8 * 2 = 28` with `headerSize = 12`, and the buffer holds that
many bytes, whatever `NumWdiSarConfigElements` it declares (the number of argument pairs);
the length equals `headerSize + 8 * NumWdiSarConfigElements` exactly when two elements are
declared. -/
theorem set_request_length (crt : CRuntime) (env : WlanEnv) (s m : Nat) (argc : Int)
    (argv : List String) (req : Nat × List Nat)
    (hreq : req ∈ sentRequests (GetSetSARWiFi crt env WDI_SET_SAR_STATE s m argc argv).calls) :
    WDI_SAR_STATE.sizeof = 12 ∧ WDI_SAR_CONFIG_SET.sizeof = 8 ∧
    req.1 = WDI_SAR_STATE.sizeof + 8 * 2 ∧ req.1 = 28 ∧ req.2.length = 28 ∧
    numWdiSarConfigElements req.2 = toUInt32 (GetSetSARWiFi.antennaPairs argc) ∧
    (req.1 = WDI_SAR_STATE.sizeof + 8 * numWdiSarConfigElements req.2 ↔
      numWdiSarConfigElements req.2 = 2) := by
  have h12 : WDI_SAR_STATE.sizeof = 12 := by decide
  have h8 : WDI_SAR_CONFIG_SET.sizeof = 8 := by decide
  have hnum := setBuffer_num crt s m argc argv
  rw [set_sentRequests_mem crt env s m argc argv req hreq]
  refine ⟨h12, h8, by rw [h12], rfl, rfl, hnum, ?_⟩
  simp only [h12]
  omega

/-- Witness for C6: the request built for the arguments `1 5`. -/
theorem set_request_length_witness :
    (28, [1, 0, 0, 0, 0, 0, 0, 0, 1, 0, 0, 0, 1, 0, 0, 0, 5, 0, 0, 0, 0, 0, 0, 0, 0, 0, 0, 0]) ∈
      sentRequests (GetSetSARWiFi exampleRuntime exampleSetEnv WDI_SET_SAR_STATE
        WDI_SARBACKOFF_ENABLED 0 2 ["1", "5"]).calls ∧
    (28 : Nat) = WDI_SAR_STATE.sizeof + 8 * 2 :=
  ⟨by decide,
    (set_request_length exampleRuntime exampleSetEnv WDI_SARBACKOFF_ENABLED 0 2 ["1", "5"]
      (28, [1, 0, 0, 0, 0, 0, 0, 0, 1, 0, 0, 0, 1, 0, 0, 0, 5, 0, 0, 0, 0, 0, 0, 0, 0, 0, 0, 0])
      (by decide)).2.2.1⟩

/-- C7, the code at a failing input: a GET in which the open, the enumeration, the allocation
and the command all succeed, and the driver answers a header declaring one element followed by
the entry `{1, 5}`, returns `E_UNEXPECTED` after printing the null-output-buffer line, and
prints neither the header nor the entry. -/
theorem get_success_returns_E_UNEXPECTED :
    GetSetSARWiFi exampleRuntime exampleEnv WDI_GET_SAR_STATE WDI_SARBACKOFF_ENABLED 0 (-1) [] =
      { hr := E_UNEXPECTED
        dwResult := 0
        calls := [WlanCall.WlanOpenHandle 2, WlanCall.WlanEnumInterfaces 77,
          WlanCall.WlanDeviceServiceCommand 77 WDI_GET_SAR_STATE 0 none 28,
          WlanCall.WlanCloseHandle 77]
        printed := [Printed.commandReturned 0 0 28, Printed.nullOutputBuffer] } ∧
    E_UNEXPECTED ≠ S_OK := by
  decide

/-- C8, as stated, fails: for the command line `SarTool.exe setsar wifi off`, which `main`
accepts, the request sent declares `NumWdiSarConfigElements = 0`. -/
theorem setsar_wifi_off_declares_no_element :
    main.setsarWiFi exampleRuntime ["SarTool.exe", "setsar", "wifi", "off"] =
      Except.ok ⟨WDI_SARBACKOFF_DISABLED, 0, 0, []⟩ ∧
    (sentRequests (GetSetSARWiFi exampleRuntime exampleSetEnv WDI_SET_SAR_STATE
        WDI_SARBACKOFF_DISABLED 0 0 []).calls).map
      (fun req => numWdiSarConfigElements req.2) = [0] := by
  decide

/-- C8, amended: for a command line `main` accepts with at most five antenna/backoff
arguments, every SET request sent declares `NumWdiSarConfigElements` equal to half their
number, rounded down: at most 2, and 1 or 2 exactly when at least two such arguments are
given, which `main` demands for `on` only; with `off` and fewer than two it is 0. -/
theorem set_request_element_count (crt : CRuntime) (env : WlanEnv) (argv : List String)
    (args : SetSarWiFiArgs) (hargc : 4 ≤ argv.length)
    (hargs : main.setsarWiFi crt argv = Except.ok args) (hfew : args.argCount ≤ 5)
    (req : Nat × List Nat)
    (hreq : req ∈ sentRequests (GetSetSARWiFi crt env WDI_SET_SAR_STATE
      args.wdiSARBackoffState args.mimoConfigType args.argCount args.argList).calls) :
    0 ≤ args.argCount ∧
    (numWdiSarConfigElements req.2 : Int) = args.argCount / 2 ∧
    numWdiSarConfigElements req.2 ≤ 2 ∧
    ((numWdiSarConfigElements req.2 = 1 ∨ numWdiSarConfigElements req.2 = 2) ↔
      2 ≤ args.argCount) ∧
    (args.wdiSARBackoffState = WDI_SARBACKOFF_ENABLED →
      numWdiSarConfigElements req.2 = 1 ∨ numWdiSarConfigElements req.2 = 2) ∧
    (args.wdiSARBackoffState = WDI_SARBACKOFF_DISABLED → args.argCount ≤ 1 →
      numWdiSarConfigElements req.2 = 0) := by
  have hnum : numWdiSarConfigElements req.2 =
      toUInt32 (GetSetSARWiFi.antennaPairs args.argCount) := by
    rw [set_sentRequests_mem crt env _ _ _ _ req hreq]
    exact setBuffer_num crt _ _ _ _
  have hcount : 0 ≤ args.argCount ∧
      (args.wdiSARBackoffState = WDI_SARBACKOFF_ENABLED → 2 ≤ args.argCount) := by
    unfold main.setsarWiFi at hargs
    simp only at hargs
    split at hargs
    · split at hargs
      · simp at hargs
      · rename_i h7
        simp only [Except.ok.injEq] at hargs
        subst hargs
        simp only
        omega
    · split at hargs
      · simp only [Except.ok.injEq] at hargs
        subst hargs
        simp only [WDI_SARBACKOFF_DISABLED, WDI_SARBACKOFF_ENABLED]
        omega
      · simp at hargs
  obtain ⟨h0, hon⟩ := hcount
  have hpairs : GetSetSARWiFi.antennaPairs args.argCount = args.argCount / 2 := by
    unfold GetSetSARWiFi.antennaPairs
    exact Int.tdiv_eq_ediv h0 (by omega)
  rw [hpairs] at hnum
  have hval : (numWdiSarConfigElements req.2 : Int) = args.argCount / 2 := by
    rw [hnum]
    unfold toUInt32
    omega
  refine ⟨h0, hval, by omega, by omega, fun h => ?_, fun _ h1 => by omega⟩
  have := hon h
  omega

/-- Witness for C8: the command line `SarTool.exe setsar wifi on 0x3 1 5`. -/
theorem set_request_element_count_witness :
    numWdiSarConfigElements
      [1, 0, 0, 0, 3, 0, 0, 0, 1, 0, 0, 0, 1, 0, 0, 0, 5, 0, 0, 0, 0, 0, 0, 0, 0, 0, 0, 0] = 1 ∨
    numWdiSarConfigElements
      [1, 0, 0, 0, 3, 0, 0, 0, 1, 0, 0, 0, 1, 0, 0, 0, 5, 0, 0, 0, 0, 0, 0, 0, 0, 0, 0, 0] = 2 :=
  (set_request_element_count exampleRuntime exampleSetEnv
    ["SarTool.exe", "setsar", "wifi", "on", "0x3", "1", "5"]
    ⟨WDI_SARBACKOFF_ENABLED, 3, 2, ["1", "5"]⟩ (by decide) (by decide) (by decide)
    (28, [1, 0, 0, 0, 3, 0, 0, 0, 1, 0, 0, 0, 1, 0, 0, 0, 5, 0, 0, 0, 0, 0, 0, 0, 0, 0, 0, 0])
    (by decide)).2.2.2.2.1 rfl

/-- C9, as stated, fails: a SET in which every call succeeds except `WlanCloseHandle`, which
returns 6, returns `S_OK`. -/
theorem close_failure_returns_S_OK :
    GetSetSARWiFi exampleRuntime { exampleSetEnv with closeResult := 6 } WDI_SET_SAR_STATE
        WDI_SARBACKOFF_ENABLED 0 2 ["1", "5"] =
      { hr := S_OK
        dwResult := 6
        calls := [WlanCall.WlanOpenHandle 2, WlanCall.WlanEnumInterfaces 77,
          WlanCall.WlanDeviceServiceCommand 77 WDI_SET_SAR_STATE 28
            (some [1, 0, 0, 0, 0, 0, 0, 0, 1, 0, 0, 0, 1, 0, 0, 0, 5, 0, 0, 0, 0, 0, 0, 0, 0, 0, 0,
              0])
            4,
          WlanCall.WlanCloseHandle 77]
        printed := [Printed.commandReturned 0 3 4, Printed.sarResult 3] } ∧
    (6 : Nat) ≠ ERROR_SUCCESS := by
  decide

/-- C9, amended: in `GetSetSARWiFi` a failure of `WlanOpenHandle`, of `WlanEnumInterfaces` or
of `WlanDeviceServiceCommand` makes the invocation return `HRESULT_FROM_WIN32` of the result of
the failing call, which differs from `S_OK`; the result of `WlanCloseHandle` is stored in
`dwResult` and has no influence on the `HRESULT` returned. -/
theorem transport_failure_hresult (crt : CRuntime) (env : WlanEnv) (dwOpCode s m : Nat)
    (argc : Int) (argv : List String) :
    (env.openResult ≠ ERROR_SUCCESS →
      (GetSetSARWiFi crt env dwOpCode s m argc argv).hr = HRESULT_FROM_WIN32 env.openResult ∧
      (GetSetSARWiFi crt env dwOpCode s m argc argv).hr ≠ S_OK) ∧
    (env.openResult = ERROR_SUCCESS → env.enumResult ≠ ERROR_SUCCESS →
      (GetSetSARWiFi crt env dwOpCode s m argc argv).hr = HRESULT_FROM_WIN32 env.enumResult ∧
      (GetSetSARWiFi crt env dwOpCode s m argc argv).hr ≠ S_OK) ∧
    (env.openResult = ERROR_SUCCESS → env.enumResult = ERROR_SUCCESS → env.mallocResult ≠ 0 →
      env.commandResult ≠ ERROR_SUCCESS →
      (GetSetSARWiFi crt env dwOpCode s m argc argv).hr =
        HRESULT_FROM_WIN32 env.commandResult ∧
      (GetSetSARWiFi crt env dwOpCode s m argc argv).hr ≠ S_OK) ∧
    (∀ closeResult,
      (GetSetSARWiFi crt { env with closeResult := closeResult } dwOpCode s m argc argv).hr =
        (GetSetSARWiFi crt env dwOpCode s m argc argv).hr) := by
  refine ⟨fun ho => ?_, fun ho he => ?_, fun ho he hm hcmd => ?_, fun c => ?_⟩
  · have h : (GetSetSARWiFi crt env dwOpCode s m argc argv).hr =
        HRESULT_FROM_WIN32 env.openResult := by
      simp [GetSetSARWiFi, ho, exit_hr]
    exact ⟨h, h ▸ HRESULT_FROM_WIN32_ne_S_OK _ ho⟩
  · have h : (GetSetSARWiFi crt env dwOpCode s m argc argv).hr =
        HRESULT_FROM_WIN32 env.enumResult := by
      simp [GetSetSARWiFi, ho, he, exit_hr]
    exact ⟨h, h ▸ HRESULT_FROM_WIN32_ne_S_OK _ he⟩
  · have h : (GetSetSARWiFi crt env dwOpCode s m argc argv).hr =
        HRESULT_FROM_WIN32 env.commandResult := by
      unfold GetSetSARWiFi
      simp only [ho, he, hm, ne_eq, not_true_eq_false, if_false, GetSetSARWiFi.command, hcmd,
        not_false_eq_true, if_true]
      split <;> simp [exit_hr]
    exact ⟨h, h ▸ HRESULT_FROM_WIN32_ne_S_OK _ hcmd⟩
  · rw [getSetSARWiFi_hr, getSetSARWiFi_hr]

/-- Witness for C9: `WlanOpenHandle` returning 5 (access denied). -/
theorem transport_failure_hresult_witness :
    (GetSetSARWiFi exampleRuntime { exampleSetEnv with openResult := 5 } WDI_SET_SAR_STATE
        WDI_SARBACKOFF_ENABLED 0 2 ["1", "5"]).hr = HRESULT_FROM_WIN32 5 ∧
    (GetSetSARWiFi exampleRuntime { exampleSetEnv with openResult := 5 } WDI_SET_SAR_STATE
        WDI_SARBACKOFF_ENABLED 0 2 ["1", "5"]).hr ≠ S_OK :=
  (transport_failure_hresult exampleRuntime { exampleSetEnv with openResult := 5 }
    WDI_SET_SAR_STATE WDI_SARBACKOFF_ENABLED 0 2 ["1", "5"]).1 (by decide)

/-- C10: a SET invocation in which the open, the enumeration, the allocation of the request
and the command succeed returns `S_OK` whatever bytes the driver left in the four-byte output
buffer and whatever byte count it reported; the value is only printed, and only when the
count is 4. -/
theorem set_status_is_data (crt : CRuntime) (env : WlanEnv) (s m : Nat) (argc : Int)
    (argv : List String) (response : List Nat) (bytesReturned : Nat)
    (ho : env.openResult = ERROR_SUCCESS) (he : env.enumResult = ERROR_SUCCESS)
    (hm : env.mallocResult ≠ 0) (hcmd : env.commandResult = ERROR_SUCCESS) :
    (GetSetSARWiFi crt { env with response := response, bytesReturned := bytesReturned }
      WDI_SET_SAR_STATE s m argc argv).hr = S_OK ∧
    (GetSetSARWiFi crt { env with response := response, bytesReturned := bytesReturned }
      WDI_SET_SAR_STATE s m argc argv).printed =
      Printed.commandReturned ERROR_SUCCESS (u32At (outputBuffer response 4) 0) bytesReturned ::
        if bytesReturned = 4 then [Printed.sarResult (u32At (outputBuffer response 4) 0)]
        else [] := by
  have h := set_success_outcome crt
    { env with response := response, bytesReturned := bytesReturned } s m argc argv ho he hm hcmd
  rw [h, exit_hr, exit_printed]
  simp only [hcmd, and_self]

/-- Witness for C10: the driver answers with all four error flags set, `1 | 2 | 4 | 8`. -/
theorem set_status_is_data_witness :
    (GetSetSARWiFi exampleRuntime
      { exampleSetEnv with response := [15, 0, 0, 0], bytesReturned := 4 }
      WDI_SET_SAR_STATE WDI_SARBACKOFF_ENABLED 0 2 ["1", "5"]).hr = S_OK :=
  (set_status_is_data exampleRuntime exampleSetEnv WDI_SARBACKOFF_ENABLED 0 2 ["1", "5"]
    [15, 0, 0, 0] 4 rfl rfl (by decide) rfl).1


/-! ## Status flags and the example records -/

/-- C11: with `WDI_SAR_RESULT` values 0, 1, 2, 4, 8 the status 3 tests true under bitwise AND
for `INVALID_ANTENNA_INDEX` and for `INVALID_TABLE_INDEX` and differs from `SUCCESS`; the four
error flags are pairwise bit-disjoint, and the bitwise OR of any selection of them tests true
for exactly the selected flags and equals `SUCCESS` only for the empty selection. -/
theorem status_flag_semantics (antenna table state mimo : Bool) :
    (WDI_SAR_SUCCESS = 0 ∧ WDI_SAR_INVALID_ANTENNA_INDEX = 1 ∧ WDI_SAR_INVALID_TABLE_INDEX = 2 ∧
      WDI_SAR_STATE_ERROR = 4 ∧ WDI_SAR_MIMO_NOT_SET = 8) ∧
    (combineFlags true true false false = 3 ∧
      testsFlag 3 WDI_SAR_INVALID_ANTENNA_INDEX = true ∧
      testsFlag 3 WDI_SAR_INVALID_TABLE_INDEX = true ∧
      testsFlag 3 WDI_SAR_STATE_ERROR = false ∧ testsFlag 3 WDI_SAR_MIMO_NOT_SET = false ∧
      3 ≠ WDI_SAR_SUCCESS) ∧
    (WDI_SAR_INVALID_ANTENNA_INDEX &&& WDI_SAR_INVALID_TABLE_INDEX = 0 ∧
      WDI_SAR_INVALID_ANTENNA_INDEX &&& WDI_SAR_STATE_ERROR = 0 ∧
      WDI_SAR_INVALID_ANTENNA_INDEX &&& WDI_SAR_MIMO_NOT_SET = 0 ∧
      WDI_SAR_INVALID_TABLE_INDEX &&& WDI_SAR_STATE_ERROR = 0 ∧
      WDI_SAR_INVALID_TABLE_INDEX &&& WDI_SAR_MIMO_NOT_SET = 0 ∧
      WDI_SAR_STATE_ERROR &&& WDI_SAR_MIMO_NOT_SET = 0) ∧
    (testsFlag (combineFlags antenna table state mimo) WDI_SAR_INVALID_ANTENNA_INDEX = antenna ∧
      testsFlag (combineFlags antenna table state mimo) WDI_SAR_INVALID_TABLE_INDEX = table ∧
      testsFlag (combineFlags antenna table state mimo) WDI_SAR_STATE_ERROR = state ∧
      testsFlag (combineFlags antenna table state mimo) WDI_SAR_MIMO_NOT_SET = mimo) ∧
    (combineFlags antenna table state mimo = WDI_SAR_SUCCESS ↔
      antenna = false ∧ table = false ∧ state = false ∧ mimo = false) := by
  cases antenna <;> cases table <;> cases state <;> cases mimo <;> decide

/-- C17: the header `SetConfig` builds has `Size = 16 + 2*19 = 54`, `HeaderOffset1 = 16`,
`HeaderOffset2 = 16 + 19 = 35`, `WLANTechnology = 4` (AD), `ProductID = 4`, `Version = 5`,
`Revision = 6`, `NumberSARTables = 7`; so the first offset is the header length, the second
is the first plus the width of a values block, the second plus that width is `Size`, and the
values stored, none of them reduced by the store into a byte, fit their one-byte fields. -/
theorem canonical_header :
    SetConfig.sarConfigHeader.Size = 54 ∧ SetConfig.sarConfigHeader.Size = 16 + 2 * 19 ∧
    SetConfig.sarConfigHeader.HeaderOffset1 = 16 ∧
    SetConfig.sarConfigHeader.HeaderOffset2 = 35 ∧
    SetConfig.sarConfigHeader.WLANTechnology = 4 ∧ WDI_802_11_AD = 4 ∧
    SetConfig.sarConfigHeader.ProductID = 4 ∧ SetConfig.sarConfigHeader.Version = 5 ∧
    SetConfig.sarConfigHeader.Revision = 6 ∧ SetConfig.sarConfigHeader.NumberSARTables = 7 ∧
    SetConfig.sarConfigHeader.HeaderOffset1 = SAR_CONFIG_HEADER.sizeof ∧
    SetConfig.sarConfigHeader.HeaderOffset2 =
      SetConfig.sarConfigHeader.HeaderOffset1 + SAR_CONFIG_VALUES.sizeof ∧
    SetConfig.sarConfigHeader.HeaderOffset2 + SAR_CONFIG_VALUES.sizeof =
      SetConfig.sarConfigHeader.Size ∧
    SAR_CONFIG_HEADER.sizeof + 2 * SAR_CONFIG_VALUES.sizeof < 256 ∧
    SetConfig.sarConfigHeader.Valid ∧
    SetConfig.sarConfigHeader.bytes.take 8 = [54, 16, 35, 4, 4, 5, 6, 7] := by
  decide

/-- C18: the values block `SetConfig` builds has `Size` equal to the struct width 19,
`SARSafetyTimer = 0xABCDEF01` and `SARState = 0x55`; in its 19 bytes the three timers lie
little-endian at offsets 1, 5 and 9 (bytes 1 to 4 are `01 EF CD AB`) and `SARState` at
offset 13. -/
theorem canonical_values_block :
    SetConfig.sarConfigValues.Size = 19 ∧
    SetConfig.sarConfigValues.Size = SAR_CONFIG_VALUES.sizeof ∧
    SetConfig.sarConfigValues.SARSafetyTimer = 0xABCDEF01 ∧
    SetConfig.sarConfigValues.SARState = 0x55 ∧
    SetConfig.sarConfigValues.bytes.length = 19 ∧
    memberOffsets 1 0 SAR_CONFIG_VALUES.members = [0, 1, 5, 9, 13, 14, 15, 16, 17, 18] ∧
    SetConfig.sarConfigValues.bytes =
      [19, 0x01, 0xEF, 0xCD, 0xAB, 0xBB, 0xBB, 0xBB, 0xBB, 0xCC, 0xCC, 0xCC, 0xCC, 0x55, 0x44,
        0x33, 0x22, 0x11, 0x05] ∧
    (SetConfig.sarConfigValues.bytes.drop 1).take 4 =
      le32 SetConfig.sarConfigValues.SARSafetyTimer ∧
    (SetConfig.sarConfigValues.bytes.drop 5).take 4 =
      le32 SetConfig.sarConfigValues.SARSafetyRequestResponseTimeout ∧
    (SetConfig.sarConfigValues.bytes.drop 9).take 4 =
      le32 SetConfig.sarConfigValues.SARUnsolicitedUpdateTimer ∧
    u32At SetConfig.sarConfigValues.bytes 1 = 0xABCDEF01 ∧
    byteAt SetConfig.sarConfigValues.bytes 13 = 0x55 := by
  decide

/-! ## The power table in the report -/

theorem thousandths_cellValue (v : Nat) :
    thousandths (GetConfig.cellValue v) = 125 * (v : Int) := by
  unfold thousandths GetConfig.cellValue
  have h : (v : ℚ) / 8 * 1000 = ((125 * (v : ℤ) : ℤ) : ℚ) := by
    push_cast
    ring
  rw [h, round_intCast]

set_option maxRecDepth 1000000 in
theorem fixed3_width : ∀ v, v < 256 → (fixed3 (125 * v)).length = 6 := by
  decide

/-- C19: `GetConfig` prints a power-table cell with raw byte `v` as `v / 8` with three
fractional digits, and nothing is rounded: 1000 times the value printed is the integer
`125 * v`, so the text is the integer part `v / 8`, a point and the three digits of
`125 * (v mod 8)`, six characters wide; raw byte 24 is printed as `3.000`. -/
theorem power_table_fixed_point (v : Nat) (hv : v < 256) (t : SAR_POWER_TABLE)
    (h : SAR_CONFIG_HEADER) (c : SAR_CONFIG_VALUES) (r : REGION_CONFIG_VALUES) :
    GetConfig.cellValue v * 1000 = ((125 * v : Nat) : ℚ) ∧
    thousandths (GetConfig.cellValue v) = 125 * (v : Int) ∧
    printf_6_3f (GetConfig.cellValue v) =
      padLeft 6 (Nat.repr (v / 8) ++ "." ++ threeDigits (125 * (v % 8))) ∧
    (printf_6_3f (GetConfig.cellValue v)).length = 6 ∧
    printf_6_3f (GetConfig.cellValue 24) = " 3.000" ∧
    (GetConfig.report h c r t).table =
      (List.range 12).map fun row => (List.range 5).map fun col =>
        printf_6_3f (GetConfig.cellValue (t.cell row col)) := by
  have hth := thousandths_cellValue v
  have h24 := thousandths_cellValue 24
  have e1 : (125 * (v : Int)).toNat = 125 * v := by omega
  refine ⟨?_, hth, ?_, ?_, ?_, rfl⟩
  · unfold GetConfig.cellValue
    push_cast
    ring
  · unfold printf_6_3f fixed3
    rw [hth]
    have e2 : 125 * v / 1000 = v / 8 := by omega
    have e3 : 125 * v % 1000 = 125 * (v % 8) := by omega
    rw [e1, e2, e3]
  · unfold printf_6_3f
    rw [hth, e1]
    exact fixed3_width v hv
  · unfold printf_6_3f
    rw [h24]
    decide

/-- Witness for C19: the largest byte, 255, is printed as `31.875`. -/
theorem power_table_fixed_point_witness :
    printf_6_3f (GetConfig.cellValue 255) =
      padLeft 6 (Nat.repr (255 / 8) ++ "." ++ threeDigits (125 * (255 % 8))) ∧
    padLeft 6 (Nat.repr (255 / 8) ++ "." ++ threeDigits (125 * (255 % 8))) = "31.875" :=
  ⟨(power_table_fixed_point 255 (by decide) boundaryTable boundaryHeader boundaryValues
    boundaryRegion).2.2.1, by decide⟩

/-! ## Provisioning through the firmware store -/

theorem succeeded_HRESULT_FROM_WIN32 (e : Nat) (h : SUCCEEDED (HRESULT_FROM_WIN32 e) = true) :
    HRESULT_FROM_WIN32 e = S_OK := by
  unfold SUCCEEDED at h
  unfold HRESULT_FROM_WIN32 S_OK at *
  simp only [decide_eq_true_eq] at h
  split at h <;> split <;> omega

theorem succeeded_SetProcessPrivilege (env : TokenEnv)
    (h : SUCCEEDED (SetProcessPrivilege env) = true) : SetProcessPrivilege env = S_OK := by
  rcases env with ⟨a, b, c⟩
  cases a with
  | some e => exact succeeded_HRESULT_FROM_WIN32 e h
  | none =>
    cases b with
    | some e => exact succeeded_HRESULT_FROM_WIN32 e h
    | none =>
      cases c with
      | some e => exact succeeded_HRESULT_FROM_WIN32 e h
      | none => rfl

/-- The firmware branch of `SetConfig` once both identifiers are formatted: the status and
the calls, whatever the privilege and the writes gave. -/
theorem setConfig_uefi_outcome (fw : FirmwareEnv) (h : SAR_CONFIG_HEADER)
    (v : SAR_CONFIG_VALUES) (r : REGION_CONFIG_VALUES) (padding : Nat → Nat)
    (t : SAR_POWER_TABLE) (szGuid szIhv : String)
    (hc : fw.StringFromGUID2 WDI_SAR_UEFI_COMMON_PARAMS = some szGuid)
    (hi : fw.StringFromGUID2 WDI_SAR_UEFI_IHV_PARAMS = some szIhv) :
    (SetConfig.uefiBranch fw h v r padding t).hr = S_OK ∧
    (SetConfig.uefiBranch fw h v r padding t).calls =
      [FirmwareCall.SetProcessPrivilege,
        FirmwareCall.StringFromGUID2 WDI_SAR_UEFI_COMMON_PARAMS,
        FirmwareCall.SetFirmwareEnvironmentVariable WifiSARHeader szGuid
          (h.bytes.take SAR_CONFIG_HEADER.sizeof),
        FirmwareCall.SetFirmwareEnvironmentVariable WifiSARConfig szGuid
          (v.bytes.take SAR_CONFIG_VALUES.sizeof),
        FirmwareCall.StringFromGUID2 WDI_SAR_UEFI_IHV_PARAMS,
        FirmwareCall.SetFirmwareEnvironmentVariable WifiRegionConfig szIhv
          ((r.bytes padding).take REGION_CONFIG_VALUES.sizeof),
        FirmwareCall.SetFirmwareEnvironmentVariable WifiSARTable szIhv
          (t.bytes.take SAR_POWER_TABLE.sizeof)] := by
  simp [SetConfig.uefiBranch, hc, hi]

/-- The firmware branch of `GetConfig` once the privilege is acquired and both identifiers
are formatted: the status, the calls and the report, whatever the reads gave. -/
theorem getConfig_uefi_outcome (fw : FirmwareEnv) (szGuid szIhv : String)
    (hp : SUCCEEDED (SetProcessPrivilege fw.token) = true)
    (hc : fw.StringFromGUID2 WDI_SAR_UEFI_COMMON_PARAMS = some szGuid)
    (hi : fw.StringFromGUID2 WDI_SAR_UEFI_IHV_PARAMS = some szIhv) :
    (GetConfig.uefiBranch fw).hr = S_OK ∧
    (GetConfig.uefiBranch fw).calls =
      [FirmwareCall.SetProcessPrivilege,
        FirmwareCall.StringFromGUID2 WDI_SAR_UEFI_COMMON_PARAMS,
        FirmwareCall.GetFirmwareEnvironmentVariable WifiSARHeader szGuid
          SAR_CONFIG_HEADER.sizeof,
        FirmwareCall.GetFirmwareEnvironmentVariable WifiSARConfig szGuid
          SAR_CONFIG_VALUES.sizeof,
        FirmwareCall.StringFromGUID2 WDI_SAR_UEFI_IHV_PARAMS,
        FirmwareCall.GetFirmwareEnvironmentVariable WifiRegionConfig szIhv
          REGION_CONFIG_VALUES.sizeof,
        FirmwareCall.GetFirmwareEnvironmentVariable WifiSARTable szIhv
          SAR_POWER_TABLE.sizeof] ∧
    (GetConfig.uefiBranch fw).report =
      some (GetConfig.report
        (SAR_CONFIG_HEADER.ofBytes
          (GetConfig.firmwareBuffer fw WifiSARHeader szGuid SAR_CONFIG_HEADER.sizeof))
        (SAR_CONFIG_VALUES.ofBytes
          (GetConfig.firmwareBuffer fw WifiSARConfig szGuid SAR_CONFIG_VALUES.sizeof))
        (REGION_CONFIG_VALUES.ofBytes
          (GetConfig.firmwareBuffer fw WifiRegionConfig szIhv REGION_CONFIG_VALUES.sizeof))
        (SAR_POWER_TABLE.ofBytes
          (GetConfig.firmwareBuffer fw WifiSARTable szIhv SAR_POWER_TABLE.sizeof))) := by
  have hs := succeeded_SetProcessPrivilege fw.token hp
  have h0 : SUCCEEDED S_OK = true := by decide
  simp [GetConfig.uefiBranch, hc, hi, hs, h0]

/-- The firmware branch of `GetConfig` when the privilege is not acquired. -/
theorem getConfig_uefi_unprivileged (fw : FirmwareEnv)
    (hp : SUCCEEDED (SetProcessPrivilege fw.token) = false) :
    GetConfig.uefiBranch fw =
      ⟨SetProcessPrivilege fw.token, [FirmwareCall.SetProcessPrivilege],
        [ConfigLog.privilegeFailed], none⟩ := by
  simp [GetConfig.uefiBranch, hp]

/-- C12: in firmware mode, once the two scope identifiers are formatted, `SetConfig` makes the
four writes in the order `WifiSARHeader`, `WifiSARConfig` (common scope), `WifiRegionConfig`,
`WifiSARTable` (vendor scope) whatever any write returns; and `GetConfig`, once the privilege
is acquired, makes the four reads in that order whatever any read returns and goes on to
print the report. -/
theorem best_effort_provisioning (fw : FirmwareEnv) (h : SAR_CONFIG_HEADER)
    (v : SAR_CONFIG_VALUES) (r : REGION_CONFIG_VALUES) (padding : Nat → Nat)
    (t : SAR_POWER_TABLE) (szGuid szIhv : String)
    (hc : fw.StringFromGUID2 WDI_SAR_UEFI_COMMON_PARAMS = some szGuid)
    (hi : fw.StringFromGUID2 WDI_SAR_UEFI_IHV_PARAMS = some szIhv) :
    (SetConfig.uefiBranch fw h v r padding t).calls =
      [FirmwareCall.SetProcessPrivilege,
        FirmwareCall.StringFromGUID2 WDI_SAR_UEFI_COMMON_PARAMS,
        FirmwareCall.SetFirmwareEnvironmentVariable WifiSARHeader szGuid
          (h.bytes.take SAR_CONFIG_HEADER.sizeof),
        FirmwareCall.SetFirmwareEnvironmentVariable WifiSARConfig szGuid
          (v.bytes.take SAR_CONFIG_VALUES.sizeof),
        FirmwareCall.StringFromGUID2 WDI_SAR_UEFI_IHV_PARAMS,
        FirmwareCall.SetFirmwareEnvironmentVariable WifiRegionConfig szIhv
          ((r.bytes padding).take REGION_CONFIG_VALUES.sizeof),
        FirmwareCall.SetFirmwareEnvironmentVariable WifiSARTable szIhv
          (t.bytes.take SAR_POWER_TABLE.sizeof)] ∧
    (SUCCEEDED (SetProcessPrivilege fw.token) = true →
      (GetConfig.uefiBranch fw).calls =
        [FirmwareCall.SetProcessPrivilege,
          FirmwareCall.StringFromGUID2 WDI_SAR_UEFI_COMMON_PARAMS,
          FirmwareCall.GetFirmwareEnvironmentVariable WifiSARHeader szGuid
            SAR_CONFIG_HEADER.sizeof,
          FirmwareCall.GetFirmwareEnvironmentVariable WifiSARConfig szGuid
            SAR_CONFIG_VALUES.sizeof,
          FirmwareCall.StringFromGUID2 WDI_SAR_UEFI_IHV_PARAMS,
          FirmwareCall.GetFirmwareEnvironmentVariable WifiRegionConfig szIhv
            REGION_CONFIG_VALUES.sizeof,
          FirmwareCall.GetFirmwareEnvironmentVariable WifiSARTable szIhv
            SAR_POWER_TABLE.sizeof] ∧
      (GetConfig.uefiBranch fw).report.isSome = true) :=
  ⟨(setConfig_uefi_outcome fw h v r padding t szGuid szIhv hc hi).2, fun hp =>
    ⟨(getConfig_uefi_outcome fw szGuid szIhv hp hc hi).2.1, by
      rw [(getConfig_uefi_outcome fw szGuid szIhv hp hc hi).2.2]
      rfl⟩⟩

/-- Witness for C12: a system on which every firmware call fails; all four reads are made and
logged as failed, and the report is printed. -/
theorem best_effort_provisioning_witness :
    (GetConfig.uefiBranch failingFirmware).calls =
      [FirmwareCall.SetProcessPrivilege,
        FirmwareCall.StringFromGUID2 WDI_SAR_UEFI_COMMON_PARAMS,
        FirmwareCall.GetFirmwareEnvironmentVariable WifiSARHeader
          "\x7b4290AA92-CACE-449D-887B-ADC61B49E05D\x7d" SAR_CONFIG_HEADER.sizeof,
        FirmwareCall.GetFirmwareEnvironmentVariable WifiSARConfig
          "\x7b4290AA92-CACE-449D-887B-ADC61B49E05D\x7d" SAR_CONFIG_VALUES.sizeof,
        FirmwareCall.StringFromGUID2 WDI_SAR_UEFI_IHV_PARAMS,
        FirmwareCall.GetFirmwareEnvironmentVariable WifiRegionConfig
          "\x7b8949533B-7EDA-4D90-A876-BF16215B0C9C\x7d" REGION_CONFIG_VALUES.sizeof,
        FirmwareCall.GetFirmwareEnvironmentVariable WifiSARTable
          "\x7b8949533B-7EDA-4D90-A876-BF16215B0C9C\x7d" SAR_POWER_TABLE.sizeof] ∧
    (GetConfig.uefiBranch failingFirmware).report.isSome = true :=
  (best_effort_provisioning failingFirmware boundaryHeader boundaryValues boundaryRegion
    (fun _ => 0) boundaryTable "\x7b4290AA92-CACE-449D-887B-ADC61B49E05D\x7d"
    "\x7b8949533B-7EDA-4D90-A876-BF16215B0C9C\x7d" (by decide) (by decide)).2 (by decide)

/-! ## main -/

theorem stricmpEq_excl (a b c : String) (hab : stricmpEq a b = true)
    (hbc : stricmpEq b c = false) : stricmpEq a c = false := by
  unfold stricmpEq at *
  have h : a.data.map Char.toLower = b.data.map Char.toLower := by simpa using hab
  rw [h]
  exact hbc

theorem unsolicitedMonitor_values (env : MonitorEnv) :
    UnsolicitedMonitor env = 0 ∨ UnsolicitedMonitor env = 1 := by
  unfold UnsolicitedMonitor
  split_ifs <;> simp

theorem exit_code (hr n : Nat) (usage : Bool) (invoked : List Invocation)
    (hn : n = 1 ∨ hr = S_OK) :
    ((main.Exit hr n usage invoked).nReturnVal = 0 ↔ (main.Exit hr n usage invoked).hr = S_OK) ∧
    ((main.Exit hr n usage invoked).hr ≠ S_OK → (main.Exit hr n usage invoked).nReturnVal = 1) := by
  unfold main.Exit
  by_cases h : hr = S_OK
  · simp [h]
  · rcases hn with hn | hn
    · simp [h, hn]
    · exact absurd hn h

theorem shape_exit (hr n : Nat) (usage : Bool) (invoked : List Invocation)
    (hn : n = 1 ∨ hr = S_OK) (out : MainOutcome)
    (h : some (main.Exit hr n usage invoked) = some out) :
    ∃ hr n usage invoked, out = main.Exit hr n usage invoked ∧ (n = 1 ∨ hr = S_OK) :=
  ⟨hr, n, usage, invoked, (Option.some.inj h).symm, hn⟩

theorem shape_map (o : Option Nat) (invoked : List Invocation) (out : MainOutcome)
    (h : (o.map fun hr => main.Exit hr 1 false invoked) = some out) :
    ∃ hr n usage invoked, out = main.Exit hr n usage invoked ∧ (n = 1 ∨ hr = S_OK) := by
  cases o with
  | none => simp at h
  | some hr => exact shape_exit hr 1 false invoked (Or.inl rfl) out h

theorem shape_getconfig (ops : Operations) (argv : List String) (out : MainOutcome)
    (h : main.getconfig ops argv = some out) :
    ∃ hr n usage invoked, out = main.Exit hr n usage invoked ∧ (n = 1 ∨ hr = S_OK) := by
  unfold main.getconfig at h
  split at h
  · exact shape_exit _ _ _ _ (Or.inl rfl) out h
  · exact shape_map _ _ out h

theorem shape_setconfig (ops : Operations) (argv : List String) (out : MainOutcome)
    (h : main.setconfig ops argv = some out) :
    ∃ hr n usage invoked, out = main.Exit hr n usage invoked ∧ (n = 1 ∨ hr = S_OK) := by
  unfold main.setconfig at h
  split at h
  · exact shape_exit _ _ _ _ (Or.inl rfl) out h
  · exact shape_map _ _ out h

theorem shape_getsar (ops : Operations) (argv : List String) (out : MainOutcome)
    (h : main.getsar ops argv = some out) :
    ∃ hr n usage invoked, out = main.Exit hr n usage invoked ∧ (n = 1 ∨ hr = S_OK) := by
  unfold main.getsar at h
  simp only at h
  split at h
  · exact shape_exit _ _ _ _ (Or.inl rfl) out h
  · split at h
    · exact shape_exit _ _ _ _ (Or.inl rfl) out h
    · split at h
      · exact shape_exit _ _ _ _ (Or.inl rfl) out h
      · exact shape_exit _ _ _ _ (Or.inl rfl) out h

theorem shape_setsar (crt : CRuntime) (ops : Operations) (argv : List String)
    (out : MainOutcome) (h : main.setsar crt ops argv = some out) :
    ∃ hr n usage invoked, out = main.Exit hr n usage invoked ∧ (n = 1 ∨ hr = S_OK) := by
  unfold main.setsar at h
  simp only at h
  split at h
  · exact shape_exit _ _ _ _ (Or.inl rfl) out h
  · split at h
    · exact shape_exit _ _ _ _ (Or.inl rfl) out h
    · split at h
      · split at h
        · exact shape_exit _ _ _ _ (Or.inl rfl) out h
        · exact shape_exit _ _ _ _ (Or.inl rfl) out h
      · exact shape_exit _ _ _ _ (Or.inl rfl) out h

theorem shape_unsolMonWiFi (ops : Operations) (fuel : Nat) (out : MainOutcome)
    (h : main.unsolMonWiFi ops fuel = some out) :
    ∃ hr n usage invoked, out = main.Exit hr n usage invoked ∧ (n = 1 ∨ hr = S_OK) := by
  unfold main.unsolMonWiFi at h
  split at h
  · exact shape_exit _ _ _ _ (Or.inl rfl) out h
  · split at h
    · split at h
      · simp at h
      · exact shape_exit _ _ _ _ (Or.inr rfl) out h
    · rename_i hne
      rcases unsolicitedMonitor_values ops.monitor with h0 | h1
      · exact absurd h0 hne
      · exact shape_exit _ _ _ _ (Or.inl h1) out h

theorem shape_unsolMon (ops : Operations) (fuel : Nat) (argv : List String)
    (out : MainOutcome) (h : main.unsolMon ops fuel argv = some out) :
    ∃ hr n usage invoked, out = main.Exit hr n usage invoked ∧ (n = 1 ∨ hr = S_OK) := by
  unfold main.unsolMon at h
  split at h
  · exact shape_exit _ _ _ _ (Or.inl rfl) out h
  · split at h
    · exact shape_exit _ _ _ _ (Or.inl rfl) out h
    · split at h
      · exact shape_unsolMonWiFi ops fuel out h
      · exact shape_exit _ _ _ _ (Or.inl rfl) out h

/-- Every outcome of `main` comes out of the `Exit:` label with `nReturnVal` still `1`, unless
`hr` is `S_OK`. -/
theorem main_outcome_shape (crt : CRuntime) (ops : Operations) (fuel : Nat)
    (argv : List String) (out : MainOutcome) (h : main crt ops fuel argv = some out) :
    ∃ hr n usage invoked, out = main.Exit hr n usage invoked ∧ (n = 1 ∨ hr = S_OK) := by
  unfold main at h
  split at h
  · exact shape_exit _ _ _ _ (Or.inl rfl) out h
  · split at h
    · exact shape_getconfig ops argv out h
    · split at h
      · exact shape_setconfig ops argv out h
      · split at h
        · exact shape_getsar ops argv out h
        · split at h
          · exact shape_setsar crt ops argv out h
          · split at h
            · exact shape_unsolMon ops fuel argv out h
            · exact shape_exit _ _ _ _ (Or.inl rfl) out h

theorem waitLoop_none (s : Nat → Int) (fuel k : Nat) :
    main.waitLoop s fuel k = none ↔ ∀ j, j < fuel → s (k + j) < 128 := by
  induction fuel generalizing k with
  | zero => simp [main.waitLoop]
  | succ n ih =>
    unfold main.waitLoop
    by_cases hk : s k < 128
    · simp only [hk, if_true, ih]
      constructor
      · intro h j hj
        cases j with
        | zero => simpa using hk
        | succ i =>
          have := h i (by omega)
          rwa [show k + (i + 1) = k + 1 + i by omega]
      · intro h j hj
        have := h (j + 1) (by omega)
        rwa [show k + (j + 1) = k + 1 + j by omega] at this
    · simp only [hk, if_false]
      constructor
      · intro h
        simp at h
      · intro h
        exact absurd (by simpa using h 0 (by omega)) hk

theorem main_of_getconfig (crt : CRuntime) (ops : Operations) (fuel : Nat)
    (argv : List String) (h2 : ¬ (argv.length : Int) < 2)
    (hc : stricmpEq (argv.getD 1 "") CMD_GETCONFIG = true) :
    main crt ops fuel argv = main.getconfig ops argv := by
  simp only [main, h2, hc, if_true, if_false, Bool.false_eq_true]

theorem main_of_setconfig (crt : CRuntime) (ops : Operations) (fuel : Nat)
    (argv : List String) (h2 : ¬ (argv.length : Int) < 2)
    (hc : stricmpEq (argv.getD 1 "") CMD_SETCONFIG = true) :
    main crt ops fuel argv = main.setconfig ops argv := by
  have e1 := stricmpEq_excl _ _ CMD_GETCONFIG hc (by decide)
  simp only [main, h2, hc, e1, if_true, if_false, Bool.false_eq_true]

theorem main_of_getsar (crt : CRuntime) (ops : Operations) (fuel : Nat)
    (argv : List String) (h2 : ¬ (argv.length : Int) < 2)
    (hc : stricmpEq (argv.getD 1 "") CMD_GETSAR = true) :
    main crt ops fuel argv = main.getsar ops argv := by
  have e1 := stricmpEq_excl _ _ CMD_GETCONFIG hc (by decide)
  have e2 := stricmpEq_excl _ _ CMD_SETCONFIG hc (by decide)
  simp only [main, h2, hc, e1, e2, if_true, if_false, Bool.false_eq_true]

theorem main_of_setsar (crt : CRuntime) (ops : Operations) (fuel : Nat)
    (argv : List String) (h2 : ¬ (argv.length : Int) < 2)
    (hc : stricmpEq (argv.getD 1 "") CMD_SETSAR = true) :
    main crt ops fuel argv = main.setsar crt ops argv := by
  have e1 := stricmpEq_excl _ _ CMD_GETCONFIG hc (by decide)
  have e2 := stricmpEq_excl _ _ CMD_SETCONFIG hc (by decide)
  have e3 := stricmpEq_excl _ _ CMD_GETSAR hc (by decide)
  simp only [main, h2, hc, e1, e2, e3, if_true, if_false, Bool.false_eq_true]

theorem main_of_unsolMon (crt : CRuntime) (ops : Operations) (fuel : Nat)
    (argv : List String) (h2 : ¬ (argv.length : Int) < 2)
    (hc : stricmpEq (argv.getD 1 "") CMD_UNSOLMON = true) :
    main crt ops fuel argv = main.unsolMon ops fuel argv := by
  have e1 := stricmpEq_excl _ _ CMD_GETCONFIG hc (by decide)
  have e2 := stricmpEq_excl _ _ CMD_SETCONFIG hc (by decide)
  have e3 := stricmpEq_excl _ _ CMD_GETSAR hc (by decide)
  have e4 := stricmpEq_excl _ _ CMD_SETSAR hc (by decide)
  simp only [main, h2, hc, e1, e2, e3, e4, if_true, if_false, Bool.false_eq_true]

theorem main_short (crt : CRuntime) (ops : Operations) (fuel : Nat) (argv : List String)
    (h2 : (argv.length : Int) < 2) : main crt ops fuel argv = some main.usage := by
  simp only [main, h2, if_true, if_false, Bool.false_eq_true]

/-- When `main` does not return, either the process ended inside `GetConfig` or `SetConfig`,
or the command is `unsolMon wifi` and the counter stayed below 128 at every test. -/
theorem main_none (crt : CRuntime) (ops : Operations) (fuel : Nat) (argv : List String)
    (h : main crt ops fuel argv = none) :
    ops.GetConfig (argv.getD 2 "") = none ∨ ops.SetConfig (argv.getD 2 "") = none ∨
    (stricmpEq (argv.getD 1 "") CMD_UNSOLMON = true ∧ stricmpEq (argv.getD 2 "") "wifi" = true ∧
      ∀ k, k < fuel → ops.monitor.s_nCallbacks k < 128) := by
  unfold main at h
  split at h
  · simp at h
  · split at h
    · unfold main.getconfig at h
      split at h
      · simp at h
      · exact Or.inl (by simpa using h)
    · split at h
      · unfold main.setconfig at h
        split at h
        · simp at h
        · exact Or.inr (Or.inl (by simpa using h))
      · split at h
        · unfold main.getsar at h
          simp only at h
          split at h
          · simp at h
          · split at h
            · simp at h
            · split at h <;> simp at h
        · split at h
          · unfold main.setsar at h
            simp only at h
            split at h
            · simp at h
            · split at h
              · simp at h
              · split at h
                · split at h <;> simp at h
                · simp at h
          · split at h
            · rename_i hc
              unfold main.unsolMon at h
              split at h
              · simp at h
              · split at h
                · simp at h
                · split at h
                  · rename_i hw
                    unfold main.unsolMonWiFi at h
                    split at h
                    · simp at h
                    · split at h
                      · split at h
                        · rename_i hl
                          refine Or.inr (Or.inr ⟨hc, hw, fun k hk => ?_⟩)
                          have := (waitLoop_none _ fuel 0).1 hl k hk
                          simpa using this
                        · simp at h
                      · simp at h
                  · simp at h
            · simp at h

theorem usage_eq : main.usage = ⟨1, E_INVALIDARG, true, []⟩ := by decide

theorem main_missing_third (crt : CRuntime) (ops : Operations) (fuel : Nat)
    (argv : List String) (h3 : (argv.length : Int) < 3)
    (hc : stricmpEq (argv.getD 1 "") CMD_GETCONFIG = true ∨
      stricmpEq (argv.getD 1 "") CMD_SETCONFIG = true ∨
      stricmpEq (argv.getD 1 "") CMD_GETSAR = true ∨
      stricmpEq (argv.getD 1 "") CMD_UNSOLMON = true) :
    main crt ops fuel argv = some main.usage := by
  by_cases h2 : (argv.length : Int) < 2
  · exact main_short crt ops fuel argv h2
  · rcases hc with hc | hc | hc | hc
    · rw [main_of_getconfig crt ops fuel argv h2 hc]
      simp only [main.getconfig, h3, if_true]
    · rw [main_of_setconfig crt ops fuel argv h2 hc]
      simp only [main.setconfig, h3, if_true]
    · rw [main_of_getsar crt ops fuel argv h2 hc]
      simp only [main.getsar, h3, if_true]
    · rw [main_of_unsolMon crt ops fuel argv h2 hc]
      simp only [main.unsolMon, h3, if_true]

theorem main_setsar_short (crt : CRuntime) (ops : Operations) (fuel : Nat)
    (argv : List String) (h4 : (argv.length : Int) < 4)
    (hc : stricmpEq (argv.getD 1 "") CMD_SETSAR = true) :
    main crt ops fuel argv = some main.usage := by
  by_cases h2 : (argv.length : Int) < 2
  · exact main_short crt ops fuel argv h2
  · rw [main_of_setsar crt ops fuel argv h2 hc]
    simp only [main.setsar, h4, if_true]

theorem main_setsar_on_short (crt : CRuntime) (ops : Operations) (fuel : Nat)
    (argv : List String) (h7 : (argv.length : Int) < 7)
    (hc : stricmpEq (argv.getD 1 "") CMD_SETSAR = true)
    (hw : stricmpEq (argv.getD 2 "") "wifi" = true)
    (hon : stricmpEq (argv.getD 3 "") "on" = true) :
    main crt ops fuel argv = some main.usage := by
  by_cases h4 : (argv.length : Int) < 4
  · exact main_setsar_short crt ops fuel argv h4 hc
  · have h2 : ¬ (argv.length : Int) < 2 := by omega
    have hl := stricmpEq_excl _ _ "lte" hw (by decide)
    have hs : main.setsarWiFi crt argv = Except.error E_INVALIDARG := by
      simp only [main.setsarWiFi, hon, h7, if_true]
    rw [main_of_setsar crt ops fuel argv h2 hc]
    simp only [main.setsar, h4, hl, hw, hs, if_true, if_false, Bool.false_eq_true]
    rfl

theorem main_bad_selector (crt : CRuntime) (ops : Operations) (fuel : Nat)
    (argv : List String)
    (hc : stricmpEq (argv.getD 1 "") CMD_GETSAR = true ∨
      stricmpEq (argv.getD 1 "") CMD_SETSAR = true ∨
      stricmpEq (argv.getD 1 "") CMD_UNSOLMON = true)
    (hl : stricmpEq (argv.getD 2 "") "lte" = false)
    (hw : stricmpEq (argv.getD 2 "") "wifi" = false) :
    main crt ops fuel argv = some main.usage := by
  by_cases h2 : (argv.length : Int) < 2
  · exact main_short crt ops fuel argv h2
  · rcases hc with hc | hc | hc
    · rw [main_of_getsar crt ops fuel argv h2 hc]
      simp only [main.getsar, hl, hw, if_false, Bool.false_eq_true, ite_self]
    · rw [main_of_setsar crt ops fuel argv h2 hc]
      simp only [main.setsar, hl, hw, if_false, Bool.false_eq_true, ite_self]
    · rw [main_of_unsolMon crt ops fuel argv h2 hc]
      simp only [main.unsolMon, hl, hw, if_false, Bool.false_eq_true, ite_self]

theorem main_unrecognised (crt : CRuntime) (ops : Operations) (fuel : Nat)
    (argv : List String)
    (h1 : stricmpEq (argv.getD 1 "") CMD_GETCONFIG = false)
    (h2 : stricmpEq (argv.getD 1 "") CMD_SETCONFIG = false)
    (h3 : stricmpEq (argv.getD 1 "") CMD_GETSAR = false)
    (h4 : stricmpEq (argv.getD 1 "") CMD_SETSAR = false)
    (h5 : stricmpEq (argv.getD 1 "") CMD_UNSOLMON = false) :
    main crt ops fuel argv = some main.usage := by
  simp only [main, h1, h2, h3, h4, h5, if_false, Bool.false_eq_true, ite_self]

/-! ## Status of the provisioning operations and of the cellular path -/

theorem main_setconfig_call (crt : CRuntime) (ops : Operations) (fuel : Nat)
    (exe path : String) :
    main crt ops fuel [exe, CMD_SETCONFIG, path] =
      (ops.SetConfig path).map fun hr => main.Exit hr 1 false [Invocation.SetConfig path] := by
  rw [main_of_setconfig crt ops fuel [exe, CMD_SETCONFIG, path] (by simp)
    (show stricmpEq CMD_SETCONFIG CMD_SETCONFIG = true by decide)]
  simp [main.setconfig]

theorem main_getconfig_call (crt : CRuntime) (ops : Operations) (fuel : Nat)
    (exe path : String) :
    main crt ops fuel [exe, CMD_GETCONFIG, path] =
      (ops.GetConfig path).map fun hr => main.Exit hr 1 false [Invocation.GetConfig path] := by
  rw [main_of_getconfig crt ops fuel [exe, CMD_GETCONFIG, path] (by simp)
    (show stricmpEq CMD_GETCONFIG CMD_GETCONFIG = true by decide)]
  simp [main.getconfig]

theorem setConfig_files_hr (path : String) (padding : Nat → Nat) (fs : FileSystem)
    (hpath : path.length + 21 < MAX_PATH) : (SetConfig.files path padding fs).hr = some S_OK := by
  obtain ⟨f1, f2, f3, f4⟩ := names_fit path hpath
  simp only [SetConfig.files, SetConfig.fileBranch, sprintfFullPath_of_fits, f1, f2, f3, f4]

theorem getConfig_fileBranch_isSome (path : String) (fs : FileSystem)
    (beyond : Nat → Nat → Nat) (hpath : path.length + 21 < MAX_PATH) :
    (GetConfig.fileBranch path fs beyond).isSome = true := by
  obtain ⟨f1, f2, f3, f4⟩ := names_fit path hpath
  simp only [GetConfig.fileBranch, sprintfFullPath_of_fits, f1, f2, f3, f4, Option.isSome_some]

/-- C13, the code at failing inputs: with every firmware write failing `SetConfig` logs four
failures and returns `S_OK`, and `SarTool.exe setconfig uefi` exits with 0; with every firmware read
failing `GetConfig` logs the failures and returns `S_OK`, and `SarTool.exe getconfig uefi`
exits with 0; in a folder where no file can be created `SetConfig` writes nothing and
returns `S_OK`, and `SarTool.exe setconfig d` exits with 0. -/
theorem failed_provisioning_returns_S_OK :
    (SetConfig.uefi failingFirmware (fun _ => 0)).hr = S_OK ∧
    (SetConfig.uefi failingFirmware (fun _ => 0)).log =
      [ConfigLog.writeFailed WifiSARHeader, ConfigLog.writeFailed WifiSARConfig,
        ConfigLog.writeFailed WifiRegionConfig, ConfigLog.writeFailed WifiSARTable] ∧
    main exampleRuntime failingOperations 0 ["SarTool.exe", "setconfig", "uefi"] =
      some ⟨0, S_OK, false, [Invocation.SetConfig "uefi"]⟩ ∧
    (GetConfig.uefiBranch failingFirmware).hr = S_OK ∧
    (GetConfig.uefiBranch failingFirmware).log =
      [ConfigLog.lastError, ConfigLog.readFailed WifiSARHeader,
        ConfigLog.readFailed WifiSARConfig, ConfigLog.readFailed WifiRegionConfig,
        ConfigLog.readFailed WifiSARTable] ∧
    main exampleRuntime failingOperations 0 ["SarTool.exe", "getconfig", "uefi"] =
      some ⟨0, S_OK, false, [Invocation.GetConfig "uefi"]⟩ ∧
    (SetConfig.files "d" (fun _ => 0) readOnlyFolder).hr = some S_OK ∧
    (SetConfig.files "d" (fun _ => 0) readOnlyFolder).fs.files (fullPathOf "d" WifiSARHeader) =
      none ∧
    main exampleRuntime failingOperations 0 ["SarTool.exe", "setconfig", "d"] =
      some ⟨0, S_OK, false, [Invocation.SetConfig "d"]⟩ := by
  decide

/-- The status of a provisioning operation as the code stands does not reflect the four
named-variable operations. In firmware mode, once the scope identifiers are formatted (and,
for `GetConfig`, the privilege is acquired), `SetConfig` and `GetConfig` return `S_OK`
whatever the four firmware calls return; in folder mode they return `S_OK` whether or not
the files can be written or read; and when the function returns `S_OK` the process exit
code is 0. -/
theorem provisioning_status (crt : CRuntime) (ops : Operations) (fuel : Nat)
    (exe path : String) (fw : FirmwareEnv) (fs : FileSystem) (padding : Nat → Nat)
    (beyond : Nat → Nat → Nat) (szGuid szIhv : String)
    (hc : fw.StringFromGUID2 WDI_SAR_UEFI_COMMON_PARAMS = some szGuid)
    (hi : fw.StringFromGUID2 WDI_SAR_UEFI_IHV_PARAMS = some szIhv) :
    (SetConfig.uefi fw padding).hr = S_OK ∧
    (SUCCEEDED (SetProcessPrivilege fw.token) = true → (GetConfig.uefiBranch fw).hr = S_OK) ∧
    (path.length + 21 < MAX_PATH →
      (SetConfig.files path padding fs).hr = some S_OK ∧
      (GetConfig.fileBranch path fs beyond).isSome = true) ∧
    (stricmpEq path UEFI = false → path.length + 21 < MAX_PATH →
      SetConfig.hr fw fs padding path = some S_OK ∧
      GetConfig.hr fw fs beyond path = some S_OK) ∧
    (stricmpEq path UEFI = true → SetConfig.hr fw fs padding path = some S_OK) ∧
    (ops.SetConfig path = some S_OK →
      main crt ops fuel [exe, CMD_SETCONFIG, path] =
        some ⟨0, S_OK, false, [Invocation.SetConfig path]⟩) ∧
    (ops.GetConfig path = some S_OK →
      main crt ops fuel [exe, CMD_GETCONFIG, path] =
        some ⟨0, S_OK, false, [Invocation.GetConfig path]⟩) := by
  have hset := (setConfig_uefi_outcome fw SetConfig.sarConfigHeader SetConfig.sarConfigValues
    SetConfig.regionConfigValues padding SetConfig.sarPowerTable szGuid szIhv hc hi).1
  refine ⟨hset, fun hp => (getConfig_uefi_outcome fw szGuid szIhv hp hc hi).1,
    fun hpath => ⟨setConfig_files_hr path padding fs hpath,
      getConfig_fileBranch_isSome path fs beyond hpath⟩,
    fun hu hpath => ?_, fun hu => ?_, fun h => ?_, fun h => ?_⟩
  · have h1 := setConfig_files_hr path padding fs hpath
    have h2 := getConfig_fileBranch_isSome path fs beyond hpath
    refine ⟨by simp only [SetConfig.hr, hu, if_false, Bool.false_eq_true, h1], ?_⟩
    cases hg : GetConfig.fileBranch path fs beyond with
    | none => rw [hg] at h2; simp at h2
    | some rec =>
      simp only [GetConfig.hr, hu, if_false, Bool.false_eq_true, hg]
      rfl
  · simp only [SetConfig.hr, hu, if_true]
    exact congrArg some hset
  · rw [main_setconfig_call, h]
    rfl
  · rw [main_getconfig_call, h]
    rfl

/-- The status of `SetConfig` on the system on which every firmware call fails. -/
theorem provisioning_status_witness :
    (SetConfig.uefi failingFirmware (fun _ => 0)).hr = S_OK ∧
    main exampleRuntime failingOperations 0 ["SarTool.exe", CMD_SETCONFIG, "uefi"] =
      some ⟨0, S_OK, false, [Invocation.SetConfig "uefi"]⟩ :=
  have h := provisioning_status exampleRuntime failingOperations 0 "SarTool.exe" "uefi"
    failingFirmware readOnlyFolder (fun _ => 0) (fun _ _ => 0)
    "\x7b4290AA92-CACE-449D-887B-ADC61B49E05D\x7d" "\x7b8949533B-7EDA-4D90-A876-BF16215B0C9C\x7d"
    (by decide) (by decide)
  ⟨h.1, h.2.2.2.2.2.1 (by decide)⟩

/-- C14, as stated, fails: when `OpenProcessToken` fails with error 5, `GetConfig` in
firmware mode returns `0x80070005` after the privilege diagnostic, calls
`GetFirmwareEnvironmentVariable` not once and prints no report. -/
theorem getConfig_unprivileged_reads_nothing :
    SUCCEEDED (SetProcessPrivilege unprivilegedFirmware.token) = false ∧
    GetConfig.uefiBranch unprivilegedFirmware =
      ⟨0x80070005, [FirmwareCall.SetProcessPrivilege], [ConfigLog.privilegeFailed], none⟩ := by
  decide

/-- C14, amended: when `SetProcessPrivilege` returns a failure `HRESULT`, `SetConfig` in
firmware mode logs it and still makes all four writes (once the scope identifiers are
formatted), while `GetConfig` logs it and returns that `HRESULT` at once, making no read and
printing no report. -/
theorem privilege_failure (fw : FirmwareEnv) (h : SAR_CONFIG_HEADER) (v : SAR_CONFIG_VALUES)
    (r : REGION_CONFIG_VALUES) (padding : Nat → Nat) (t : SAR_POWER_TABLE)
    (szGuid szIhv : String) (hp : SUCCEEDED (SetProcessPrivilege fw.token) = false)
    (hc : fw.StringFromGUID2 WDI_SAR_UEFI_COMMON_PARAMS = some szGuid)
    (hi : fw.StringFromGUID2 WDI_SAR_UEFI_IHV_PARAMS = some szIhv) :
    (SetConfig.uefiBranch fw h v r padding t).calls =
      [FirmwareCall.SetProcessPrivilege,
        FirmwareCall.StringFromGUID2 WDI_SAR_UEFI_COMMON_PARAMS,
        FirmwareCall.SetFirmwareEnvironmentVariable WifiSARHeader szGuid
          (h.bytes.take SAR_CONFIG_HEADER.sizeof),
        FirmwareCall.SetFirmwareEnvironmentVariable WifiSARConfig szGuid
          (v.bytes.take SAR_CONFIG_VALUES.sizeof),
        FirmwareCall.StringFromGUID2 WDI_SAR_UEFI_IHV_PARAMS,
        FirmwareCall.SetFirmwareEnvironmentVariable WifiRegionConfig szIhv
          ((r.bytes padding).take REGION_CONFIG_VALUES.sizeof),
        FirmwareCall.SetFirmwareEnvironmentVariable WifiSARTable szIhv
          (t.bytes.take SAR_POWER_TABLE.sizeof)] ∧
    (SetConfig.uefiBranch fw h v r padding t).log.head? = some ConfigLog.privilegeFailed ∧
    GetConfig.uefiBranch fw =
      ⟨SetProcessPrivilege fw.token, [FirmwareCall.SetProcessPrivilege],
        [ConfigLog.privilegeFailed], none⟩ ∧
    SetProcessPrivilege fw.token ≠ S_OK := by
  refine ⟨(setConfig_uefi_outcome fw h v r padding t szGuid szIhv hc hi).2, ?_,
    getConfig_uefi_unprivileged fw hp, fun h0 => ?_⟩
  · simp [SetConfig.uefiBranch, hc, hi, hp]
  · rw [h0] at hp
    exact absurd hp (by decide)

/-- Witness for C14: `OpenProcessToken` failing with error 5. -/
theorem privilege_failure_witness :
    GetConfig.uefiBranch unprivilegedFirmware =
      ⟨SetProcessPrivilege unprivilegedFirmware.token, [FirmwareCall.SetProcessPrivilege],
        [ConfigLog.privilegeFailed], none⟩ :=
  (privilege_failure unprivilegedFirmware boundaryHeader boundaryValues boundaryRegion
    (fun _ => 0) boundaryTable "\x7b4290AA92-CACE-449D-887B-ADC61B49E05D\x7d"
    "\x7b8949533B-7EDA-4D90-A876-BF16215B0C9C\x7d" (by decide) (by decide) (by decide)).2.2.1

/-- C15, the code at failing inputs: when the modem API raises `0x8007048F` at once,
`GetSetSARLTE` in get mode and `LteTxStatusMonitor` print the error and return `S_OK`, and
`SarTool.exe getsar lte` and `SarTool.exe unsolMon lte` exit with 0; when
`SetConfigurationAsync` raises `0x80070057`, `GetSetSARLTE` in set mode applies nothing,
prints the error and returns `S_OK`. -/
theorem modem_error_returns_S_OK :
    GetSetSARLTE exampleRuntime failingModem true 0 [] =
      ⟨S_OK, [], [], [LtePrinted.error 0x8007048F]⟩ ∧
    LteTxStatusMonitor failingModem = ⟨S_OK, [], [], [LtePrinted.error 0x8007048F]⟩ ∧
    GetSetSARLTE exampleRuntime rejectingModem false 2 ["7", "5"] =
      ⟨S_OK, [[(7, 5)]], [], [LtePrinted.setting "7" "5", LtePrinted.error 0x80070057]⟩ ∧
    main exampleRuntime failingOperations 0 ["SarTool.exe", "getsar", "lte"] =
      some ⟨0, S_OK, false, [Invocation.GetSetSARLTE true 0 []]⟩ ∧
    main exampleRuntime failingOperations 0 ["SarTool.exe", "unsolMon", "lte"] =
      some ⟨0, S_OK, false, [Invocation.LteTxStatusMonitor]⟩ := by
  decide

/-! ## Notifications -/

theorem range_map_byteAt (blob : List Nat) :
    (List.range blob.length).map (byteAt blob) = blob := by
  apply List.ext_getElem
  · simp
  · intro i h1 h2
    simp [byteAt, List.getD_eq_getElem?_getD, List.getElem?_eq_getElem h2]

theorem printedBytes_generic (g : GUID) (code n : Nat) (blob : List Nat) :
    printedBytes ([NotificationLine.guid g, NotificationLine.opcode code,
        NotificationLine.dataSize n] ++
      (List.range n).map (fun i => NotificationLine.byte (byteAt blob i)) ++
      [NotificationLine.newline]) = (List.range n).map (byteAt blob) := by
  simp only [printedBytes, List.filterMap_append, List.filterMap_map]
  have h : NotificationLine.byteValue ∘ (fun i => NotificationLine.byte (byteAt blob i)) =
      some ∘ byteAt blob := rfl
  rw [h, List.filterMap_eq_map]
  simp [NotificationLine.byteValue]

/-- C20: the callback treats a notification as a SAR status request exactly when the 16
bytes of its device-service identifier are those of `WDI_SAR_DEVICE_SERVICE`; it then prints
one line, with the time and the 16-bit little-endian value of the first two payload bytes;
otherwise it prints the identifier, the notification code, `dwDataSize` and `dwDataSize`
payload bytes in order (the whole payload when `dwDataSize` is its length); either way the
counter of notifications grows by one. -/
theorem notification_classification (time : SYSTEMTIME) (s_nCallbacks : Int)
    (pdata : Notification) :
    (isSarService pdata = true ↔
      pdata.DeviceService.bytes =
        [0xb4, 0x04, 0x43, 0x50, 0x41, 0x19, 0x95, 0x4a, 0xb8, 0x19, 0xa2, 0x10, 0x2b, 0x69,
          0xe5, 0xcd]) ∧
    (isSarService pdata = true →
      DeviceServiceNotificationCallback time s_nCallbacks pdata =
        (s_nCallbacks + 1,
          [NotificationLine.sarRequest time
            (byteAt pdata.DataBlob 0 + 256 * byteAt pdata.DataBlob 1)])) ∧
    (isSarService pdata = false →
      DeviceServiceNotificationCallback time s_nCallbacks pdata =
        (s_nCallbacks + 1,
          [NotificationLine.guid pdata.DeviceService,
            NotificationLine.opcode pdata.NotificationCode,
            NotificationLine.dataSize pdata.dwDataSize] ++
          (List.range pdata.dwDataSize).map
            (fun i => NotificationLine.byte (byteAt pdata.DataBlob i)) ++
          [NotificationLine.newline]) ∧
      (printedBytes (DeviceServiceNotificationCallback time s_nCallbacks pdata).2).length =
        pdata.dwDataSize ∧
      (pdata.dwDataSize = pdata.DataBlob.length →
        printedBytes (DeviceServiceNotificationCallback time s_nCallbacks pdata).2 =
          pdata.DataBlob)) ∧
    (DeviceServiceNotificationCallback time s_nCallbacks pdata).1 = s_nCallbacks + 1 := by
  have hbytes : WDI_SAR_DEVICE_SERVICE.bytes =
      [0xb4, 0x04, 0x43, 0x50, 0x41, 0x19, 0x95, 0x4a, 0xb8, 0x19, 0xa2, 0x10, 0x2b, 0x69,
        0xe5, 0xcd] := by decide
  refine ⟨?_, fun h => ?_, fun h => ?_, ?_⟩
  · unfold isSarService
    rw [decide_eq_true_iff, hbytes]
    exact eq_comm
  · simp only [DeviceServiceNotificationCallback, h, if_true, u16At]
  · have hcall : DeviceServiceNotificationCallback time s_nCallbacks pdata =
        (s_nCallbacks + 1,
          [NotificationLine.guid pdata.DeviceService,
            NotificationLine.opcode pdata.NotificationCode,
            NotificationLine.dataSize pdata.dwDataSize] ++
          (List.range pdata.dwDataSize).map
            (fun i => NotificationLine.byte (byteAt pdata.DataBlob i)) ++
          [NotificationLine.newline]) := by
      simp only [DeviceServiceNotificationCallback, h, if_false, Bool.false_eq_true]
    refine ⟨hcall, ?_, fun hlen => ?_⟩
    · rw [hcall, printedBytes_generic]
      simp
    · rw [hcall, printedBytes_generic, hlen]
      exact range_map_byteAt pdata.DataBlob
  · unfold DeviceServiceNotificationCallback
    split <;> rfl

/-- Witness for C20: a notification of the SAR device service with payload `34 12`, and one
whose identifier differs in its last byte, with a payload of three bytes. -/
theorem notification_classification_witness :
    DeviceServiceNotificationCallback ⟨12, 30, 15, 250⟩ 5 sarNotification =
      (6, [NotificationLine.sarRequest ⟨12, 30, 15, 250⟩
        (byteAt sarNotification.DataBlob 0 + 256 * byteAt sarNotification.DataBlob 1)]) ∧
    byteAt sarNotification.DataBlob 0 + 256 * byteAt sarNotification.DataBlob 1 = 0x1234 ∧
    printedBytes (DeviceServiceNotificationCallback ⟨12, 30, 15, 250⟩ 5 otherNotification).2 =
      [0xAA, 0xBB, 0xCC] :=
  ⟨(notification_classification ⟨12, 30, 15, 250⟩ 5 sarNotification).2.1 (by decide), by decide,
    ((notification_classification ⟨12, 30, 15, 250⟩ 5 otherNotification).2.2.1
      (by decide)).2.2 (by decide)⟩


/-! ## The canonical power table, cell by cell -/

theorem canonical_cell (row col : Nat) (hr : row < MAX_NUM_SAR_WIFI_POWER_TABLE)
    (hc : col < MAX_NUM_SAR_WIFI_POWER_VALUES_PER_TABLE) :
    SetConfig.sarPowerTable.cell row col = 1 + col + 5 * row := by
  have hr2 : row < 12 := hr
  have hc2 : col < 5 := hc
  rw [SAR_POWER_TABLE.cell, dif_pos ⟨hr, hc⟩]
  simp only [SetConfig.sarPowerTable, MAX_NUM_SAR_WIFI_POWER_VALUES_PER_TABLE]
  omega

/-- C26: in the table `SetConfig` builds, the cell at `(row, col)` holds `1 + col + 5*row`,
the value stored is the value computed (at most 60, so the `UINT8` store does not wrap, and
60 is reached at the last cell), distinct cells hold distinct values, and the object
representation is the 60 bytes `1, 2, ..., 60` in row-major order. -/
theorem canonical_power_table_numbering :
    (∀ (row : Fin MAX_NUM_SAR_WIFI_POWER_TABLE)
        (col : Fin MAX_NUM_SAR_WIFI_POWER_VALUES_PER_TABLE),
      SetConfig.sarPowerTable.PowerValues row col = 1 + col.val + 5 * row.val ∧
      SetConfig.sarPowerTable.cell row.val col.val = 1 + col.val + 5 * row.val ∧
      1 + col.val + 5 * row.val ≤ 60) ∧
    SetConfig.sarPowerTable.cell 11 4 = 60 ∧
    Function.Injective (fun cell : Fin MAX_NUM_SAR_WIFI_POWER_TABLE ×
        Fin MAX_NUM_SAR_WIFI_POWER_VALUES_PER_TABLE =>
      SetConfig.sarPowerTable.PowerValues cell.1 cell.2) ∧
    SAR_POWER_TABLE.sizeof = 60 ∧
    SetConfig.sarPowerTable.bytes = (List.range 60).map (fun i => i + 1) := by
  have hcell : ∀ (row : Fin MAX_NUM_SAR_WIFI_POWER_TABLE)
      (col : Fin MAX_NUM_SAR_WIFI_POWER_VALUES_PER_TABLE),
      SetConfig.sarPowerTable.PowerValues row col = 1 + col.val + 5 * row.val := by
    intro row col
    have hr : row.val < 12 := row.isLt
    have hc : col.val < 5 := col.isLt
    simp only [SetConfig.sarPowerTable, MAX_NUM_SAR_WIFI_POWER_VALUES_PER_TABLE]
    omega
  refine ⟨?_, by decide, ?_, sizeof_table_eq, by decide⟩
  · intro row col
    have hr : row.val < 12 := row.isLt
    have hc : col.val < 5 := col.isLt
    exact ⟨hcell row col, canonical_cell row.val col.val row.isLt col.isLt, by omega⟩
  · rintro ⟨row, col⟩ ⟨row2, col2⟩ h
    have h2 : 1 + col.val + 5 * row.val = 1 + col2.val + 5 * row2.val := by
      rw [← hcell row col, ← hcell row2 col2]
      exact h
    have hc : col.val < 5 := col.isLt
    have hc2 : col2.val < 5 := col2.isLt
    have hr : row = row2 := Fin.ext (by omega)
    have hcol : col = col2 := Fin.ext (by omega)
    rw [hr, hcol]

/-! ## Layout of the SET request -/

theorem le32_bytes (v b : Nat) (hb : b ∈ le32 v) : b < 256 := by
  simp only [le32, List.mem_cons, List.mem_singleton, List.not_mem_nil, or_false] at hb
  omega

/-- Reading back seven consecutive little-endian 32-bit words. -/
theorem u32At_words (a b c d e f g : Nat) :
    u32At (le32 a ++ le32 b ++ le32 c ++ le32 d ++ le32 e ++ le32 f ++ le32 g) 0 =
      a % 4294967296 ∧
    u32At (le32 a ++ le32 b ++ le32 c ++ le32 d ++ le32 e ++ le32 f ++ le32 g) 4 =
      b % 4294967296 ∧
    u32At (le32 a ++ le32 b ++ le32 c ++ le32 d ++ le32 e ++ le32 f ++ le32 g) 8 =
      c % 4294967296 ∧
    u32At (le32 a ++ le32 b ++ le32 c ++ le32 d ++ le32 e ++ le32 f ++ le32 g) 12 =
      d % 4294967296 ∧
    u32At (le32 a ++ le32 b ++ le32 c ++ le32 d ++ le32 e ++ le32 f ++ le32 g) 16 =
      e % 4294967296 ∧
    u32At (le32 a ++ le32 b ++ le32 c ++ le32 d ++ le32 e ++ le32 f ++ le32 g) 20 =
      f % 4294967296 ∧
    u32At (le32 a ++ le32 b ++ le32 c ++ le32 d ++ le32 e ++ le32 f ++ le32 g) 24 =
      g % 4294967296 := by
  simp only [u32At, byteAt, le32]
  simp
  omega

theorem toUInt32_mod (x : Int) : toUInt32 x % 4294967296 = toUInt32 x :=
  Nat.mod_eq_of_lt (toUInt32_lt x)

/-- C22: in every SET request `GetSetSARWiFi` hands to the device-service command, the bytes
are 28, the three header fields read little-endian at offsets 0, 4 and 8 are the `SarBackoffStatus`
and `MIMOConfigType` passed in (as 32-bit values) and the pair count `argc / 2`, and the first
entry starts at offset `sizeof(WDI_SAR_STATE) = 12`. With one pair the first entry is the pair
parsed from `argv[0]`, `argv[1]` and the bytes at offsets 20..27 are zero; with two pairs
the entries at offsets 12 and 20 are the pairs from `argv[0]`, `argv[1]` and `argv[2]`,
`argv[3]`, in that order. -/
theorem set_request_layout (crt : CRuntime) (env : WlanEnv) (s m : Nat) (argc : Int)
    (argv : List String) (req : Nat × List Nat)
    (hreq : req ∈ sentRequests (GetSetSARWiFi crt env WDI_SET_SAR_STATE s m argc argv).calls) :
    req.2.length = 28 ∧ (∀ b, b ∈ req.2 → b < 256) ∧
    u32At req.2 0 = s % 4294967296 ∧
    u32At req.2 4 = m % 4294967296 ∧
    u32At req.2 8 = toUInt32 (GetSetSARWiFi.antennaPairs argc) ∧
    WDI_SAR_STATE.sizeof = 12 ∧ WDI_SAR_CONFIG_SET.sizeof = 8 ∧
    (GetSetSARWiFi.antennaPairs argc = 1 →
      u32At req.2 WDI_SAR_STATE.sizeof = crt.strtoul16 (argv.getD 0 "") % 4294967296 ∧
      u32At req.2 (WDI_SAR_STATE.sizeof + 4) = toUInt32 (crt.atoi (argv.getD 1 "")) ∧
      u32At req.2 (WDI_SAR_STATE.sizeof + WDI_SAR_CONFIG_SET.sizeof) = 0 ∧
      u32At req.2 (WDI_SAR_STATE.sizeof + WDI_SAR_CONFIG_SET.sizeof + 4) = 0 ∧
      req.2.drop 20 = [0, 0, 0, 0, 0, 0, 0, 0]) ∧
    (GetSetSARWiFi.antennaPairs argc = 2 →
      u32At req.2 WDI_SAR_STATE.sizeof = crt.strtoul16 (argv.getD 0 "") % 4294967296 ∧
      u32At req.2 (WDI_SAR_STATE.sizeof + 4) = toUInt32 (crt.atoi (argv.getD 1 "")) ∧
      u32At req.2 (WDI_SAR_STATE.sizeof + WDI_SAR_CONFIG_SET.sizeof) =
        crt.strtoul16 (argv.getD 2 "") % 4294967296 ∧
      u32At req.2 (WDI_SAR_STATE.sizeof + WDI_SAR_CONFIG_SET.sizeof + 4) =
        toUInt32 (crt.atoi (argv.getD 3 ""))) := by
  have h12 : WDI_SAR_STATE.sizeof = 12 := by decide
  have h8 : WDI_SAR_CONFIG_SET.sizeof = 8 := by decide
  rw [set_sentRequests_mem crt env s m argc argv req hreq]
  have hw := u32At_words s m (toUInt32 (GetSetSARWiFi.antennaPairs argc))
    (GetSetSARWiFi.antennaIndex1 crt argc argv)
    (toUInt32 (GetSetSARWiFi.sarBackoffIndex1 crt argc argv))
    (GetSetSARWiFi.antennaIndex2 crt argc argv)
    (toUInt32 (GetSetSARWiFi.sarBackoffIndex2 crt argc argv))
  simp only [toUInt32_mod] at hw
  obtain ⟨w0, w4, w8, w12, w16, w20, w24⟩ := hw
  have hbuf : (28, GetSetSARWiFi.setBuffer crt s m argc argv).2 =
      le32 s ++ le32 m ++ le32 (toUInt32 (GetSetSARWiFi.antennaPairs argc)) ++
        le32 (GetSetSARWiFi.antennaIndex1 crt argc argv) ++
        le32 (toUInt32 (GetSetSARWiFi.sarBackoffIndex1 crt argc argv)) ++
        le32 (GetSetSARWiFi.antennaIndex2 crt argc argv) ++
        le32 (toUInt32 (GetSetSARWiFi.sarBackoffIndex2 crt argc argv)) := rfl
  rw [hbuf, h12, h8]
  refine ⟨rfl, ?_, w0, w4, w8, rfl, rfl, ?_, ?_⟩
  · intro b hb
    simp only [List.mem_append] at hb
    rcases hb with (((((hb | hb) | hb) | hb) | hb) | hb) | hb <;> exact le32_bytes _ b hb
  · intro h1
    have i1 : GetSetSARWiFi.antennaIndex1 crt argc argv = crt.strtoul16 (argv.getD 0 "") := by
      simp [GetSetSARWiFi.antennaIndex1, h1]
    have b1 : GetSetSARWiFi.sarBackoffIndex1 crt argc argv = crt.atoi (argv.getD 1 "") := by
      simp [GetSetSARWiFi.sarBackoffIndex1, h1]
    have i2 : GetSetSARWiFi.antennaIndex2 crt argc argv = 0 := by
      simp [GetSetSARWiFi.antennaIndex2, h1]
    have b2 : GetSetSARWiFi.sarBackoffIndex2 crt argc argv = 0 := by
      simp [GetSetSARWiFi.sarBackoffIndex2, h1]
    refine ⟨w12.trans (by rw [i1]), w16.trans (by rw [b1]), w20.trans (by simp [i2]),
      w24.trans (by simp [b2, toUInt32]), ?_⟩
    rw [i2, b2]
    rfl
  · intro h2
    have i1 : GetSetSARWiFi.antennaIndex1 crt argc argv = crt.strtoul16 (argv.getD 0 "") := by
      simp [GetSetSARWiFi.antennaIndex1, h2]
    have b1 : GetSetSARWiFi.sarBackoffIndex1 crt argc argv = crt.atoi (argv.getD 1 "") := by
      simp [GetSetSARWiFi.sarBackoffIndex1, h2]
    have i2 : GetSetSARWiFi.antennaIndex2 crt argc argv = crt.strtoul16 (argv.getD 2 "") := by
      simp [GetSetSARWiFi.antennaIndex2, h2]
    have b2 : GetSetSARWiFi.sarBackoffIndex2 crt argc argv = crt.atoi (argv.getD 3 "") := by
      simp [GetSetSARWiFi.sarBackoffIndex2, h2]
    exact ⟨w12.trans (by rw [i1]), w16.trans (by rw [b1]), w20.trans (by rw [i2]),
      w24.trans (by rw [b2])⟩

/-- The layout at `setsar wifi on 0x3 1 5 2 7`: two pairs, in the order given. -/
theorem set_request_layout_witness :
    (28, [1, 0, 0, 0, 3, 0, 0, 0, 2, 0, 0, 0, 1, 0, 0, 0, 5, 0, 0, 0, 2, 0, 0, 0, 7, 0, 0, 0]) ∈
      sentRequests (GetSetSARWiFi exampleRuntime exampleSetEnv WDI_SET_SAR_STATE
        WDI_SARBACKOFF_ENABLED 3 4 ["1", "5", "2", "7"]).calls ∧
    GetSetSARWiFi.antennaPairs 4 = 2 ∧
    u32At [1, 0, 0, 0, 3, 0, 0, 0, 2, 0, 0, 0, 1, 0, 0, 0, 5, 0, 0, 0, 2, 0, 0, 0, 7, 0, 0, 0]
      12 = 1 ∧
    u32At [1, 0, 0, 0, 3, 0, 0, 0, 2, 0, 0, 0, 1, 0, 0, 0, 5, 0, 0, 0, 2, 0, 0, 0, 7, 0, 0, 0]
      16 = 5 ∧
    u32At [1, 0, 0, 0, 3, 0, 0, 0, 2, 0, 0, 0, 1, 0, 0, 0, 5, 0, 0, 0, 2, 0, 0, 0, 7, 0, 0, 0]
      20 = 2 ∧
    u32At [1, 0, 0, 0, 3, 0, 0, 0, 2, 0, 0, 0, 1, 0, 0, 0, 5, 0, 0, 0, 2, 0, 0, 0, 7, 0, 0, 0]
      24 = 7 :=
  ⟨by decide, by decide,
    (set_request_layout exampleRuntime exampleSetEnv WDI_SARBACKOFF_ENABLED 3 4
      ["1", "5", "2", "7"]
      (28, [1, 0, 0, 0, 3, 0, 0, 0, 2, 0, 0, 0, 1, 0, 0, 0, 5, 0, 0, 0, 2, 0, 0, 0, 7, 0, 0, 0])
      (by decide)).2.2.2.2.2.2.2.2 (by decide)⟩

/-- C23, the code at a failing input: `main` accepts the command line
`SarTool.exe setsar wifi on 0x3 1 5 2 7 3 9` and hands six antenna/backoff arguments to
`GetSetSARWiFi`; the one request sent is 28 bytes long and declares
`NumWdiSarConfigElements = 3`, so that the three entries announced would end at byte
`12 + 8 * 3 = 36`, beyond the 28 bytes carried. -/
theorem set_request_declares_three_elements :
    main.setsarWiFi exampleRuntime
        ["SarTool.exe", "setsar", "wifi", "on", "0x3", "1", "5", "2", "7", "3", "9"] =
      Except.ok ⟨WDI_SARBACKOFF_ENABLED, 3, 6, ["1", "5", "2", "7", "3", "9"]⟩ ∧
    sentRequests (GetSetSARWiFi exampleRuntime exampleSetEnv WDI_SET_SAR_STATE
        WDI_SARBACKOFF_ENABLED 3 6 ["1", "5", "2", "7", "3", "9"]).calls =
      [(28, [1, 0, 0, 0, 3, 0, 0, 0, 3, 0, 0, 0, 1, 0, 0, 0, 5, 0, 0, 0, 0, 0, 0, 0, 0, 0, 0, 0])] ∧
    numWdiSarConfigElements
      [1, 0, 0, 0, 3, 0, 0, 0, 3, 0, 0, 0, 1, 0, 0, 0, 5, 0, 0, 0, 0, 0, 0, 0, 0, 0, 0, 0] = 3 ∧
    [1, 0, 0, 0, 3, 0, 0, 0, 3, 0, 0, 0, 1, 0, 0, 0, 5, 0, 0, 0, 0, 0, 0, 0, 0, 0, 0,
      0].length = 28 ∧
    ¬ (WDI_SAR_STATE.sizeof + WDI_SAR_CONFIG_SET.sizeof * 3 ≤ 28) := by
  decide

/-! ## Lifetime of the WLAN handle -/

theorem exit_calls (env : WlanEnv) (hClient dwResult hr : Nat) (calls : List WlanCall)
    (printed : List Printed) (h : hClient ≠ 0) :
    (GetSetSARWiFi.exit env hClient dwResult hr calls printed).calls =
      calls ++ [WlanCall.WlanCloseHandle hClient] := by
  unfold GetSetSARWiFi.exit
  rw [if_pos h]

theorem afterCommand_calls (env : WlanEnv) (dwOpCode hClient pOutBuffer dwOutBuffer : Nat)
    (out : List Nat) (calls : List WlanCall) (h : hClient ≠ 0) :
    (GetSetSARWiFi.afterCommand env dwOpCode hClient pOutBuffer dwOutBuffer out calls).calls =
      calls ++ [WlanCall.WlanCloseHandle hClient] := by
  unfold GetSetSARWiFi.afterCommand
  simp only []
  split
  · split <;> exact exit_calls _ _ _ _ _ _ h
  · split <;> exact exit_calls _ _ _ _ _ _ h

theorem command_calls (env : WlanEnv) (dwOpCode hClient dwInBufferSize : Nat)
    (pInBuffer : Option (List Nat)) (dwOutBufferSize pOutBuffer : Nat) (isLocal : Bool)
    (calls : List WlanCall) (h : hClient ≠ 0) :
    (GetSetSARWiFi.command env dwOpCode hClient dwInBufferSize pInBuffer dwOutBufferSize
        pOutBuffer isLocal calls).calls =
      calls ++ [WlanCall.WlanDeviceServiceCommand hClient dwOpCode dwInBufferSize pInBuffer
        dwOutBufferSize, WlanCall.WlanCloseHandle hClient] := by
  unfold GetSetSARWiFi.command
  simp only []
  split
  · rw [exit_calls _ _ _ _ _ _ h, List.append_assoc]
    rfl
  · rw [afterCommand_calls _ _ _ _ _ _ _ h, List.append_assoc]
    rfl

/-- The calls of `GetSetSARWiFi` once the handle is open: the enumeration, then the command
unless the enumeration or the allocation failed, then the close. -/
theorem getSetSARWiFi_calls (crt : CRuntime) (env : WlanEnv) (dwOpCode s m : Nat) (argc : Int)
    (argv : List String) (ho : env.openResult = ERROR_SUCCESS) (hh : env.handle ≠ 0) :
    ∃ cmd : List WlanCall,
      (GetSetSARWiFi crt env dwOpCode s m argc argv).calls =
        [WlanCall.WlanOpenHandle 2, WlanCall.WlanEnumInterfaces env.handle] ++ cmd ++
          [WlanCall.WlanCloseHandle env.handle] ∧
      cmd.length ≤ 1 ∧ (∀ c, c ∈ cmd → c.isCommand = true) ∧
      (cmd = [] ↔ env.enumResult ≠ ERROR_SUCCESS ∨ env.mallocResult = 0) := by
  unfold GetSetSARWiFi
  simp only [ho, ne_eq, not_true_eq_false, if_false]
  by_cases he : env.enumResult = ERROR_SUCCESS
  · by_cases hm : env.mallocResult = 0
    · refine ⟨[], ?_, by simp, by simp, by simp [hm]⟩
      simp only [he, hm, not_true_eq_false, if_false, if_true, ite_self]
      rw [exit_calls _ _ _ _ _ _ hh]
      rfl
    · simp only [he, hm, not_true_eq_false, if_false]
      split
      · refine ⟨[WlanCall.WlanDeviceServiceCommand env.handle dwOpCode GetSetSARWiFi.setBufferSize
          (some (GetSetSARWiFi.setBuffer crt s m argc argv)) 4], ?_, by simp, ?_, by simp [he, hm]⟩
        · rw [command_calls _ _ _ _ _ _ _ _ _ hh]
          rfl
        · intro c hc
          rw [List.mem_singleton.mp hc]
          rfl
      · refine ⟨[WlanCall.WlanDeviceServiceCommand env.handle dwOpCode 0 none
          (WDI_SAR_STATE.sizeof + 2 * WDI_SAR_CONFIG_SET.sizeof)], ?_, by simp, ?_, by simp [he, hm]⟩
        · rw [command_calls _ _ _ _ _ _ _ _ _ hh]
          rfl
        · intro c hc
          rw [List.mem_singleton.mp hc]
          rfl
  · refine ⟨[], ?_, by simp, by simp, by simp [he]⟩
    simp only [he, not_false_eq_true, if_true]
    rw [exit_calls _ _ _ _ _ _ hh]
    rfl

/-- C24: when `WlanOpenHandle` succeeded (storing a handle that is not `NULL`), whatever
happens afterwards (failed enumeration, failed allocation, failed command, either outcome of
the GET result handling, or success), the calls of `GetSetSARWiFi` start with the open, hold
exactly one `WlanCloseHandle`, on that handle, as their last element, and at most one
command; when the open failed, the open is the only call: no close and no command. -/
theorem channel_lifetime (crt : CRuntime) (env : WlanEnv) (dwOpCode s m : Nat) (argc : Int)
    (argv : List String) :
    (env.openResult = ERROR_SUCCESS → env.handle ≠ 0 →
      (GetSetSARWiFi crt env dwOpCode s m argc argv).calls.filter WlanCall.isClose =
        [WlanCall.WlanCloseHandle env.handle] ∧
      (GetSetSARWiFi crt env dwOpCode s m argc argv).calls.getLast? =
        some (WlanCall.WlanCloseHandle env.handle) ∧
      (GetSetSARWiFi crt env dwOpCode s m argc argv).calls.head? =
        some (WlanCall.WlanOpenHandle 2) ∧
      ((GetSetSARWiFi crt env dwOpCode s m argc argv).calls.filter
        WlanCall.isCommand).length ≤ 1) ∧
    (env.openResult ≠ ERROR_SUCCESS →
      (GetSetSARWiFi crt env dwOpCode s m argc argv).calls = [WlanCall.WlanOpenHandle 2] ∧
      (GetSetSARWiFi crt env dwOpCode s m argc argv).calls.filter WlanCall.isClose = [] ∧
      (GetSetSARWiFi crt env dwOpCode s m argc argv).calls.filter WlanCall.isCommand = []) := by
  constructor
  · intro ho hh
    obtain ⟨cmd, hc, hl, hcm, _⟩ := getSetSARWiFi_calls crt env dwOpCode s m argc argv ho hh
    rw [hc]
    match cmd, hl, hcm with
    | [], _, _ => exact ⟨rfl, rfl, rfl, by simp [WlanCall.isCommand]⟩
    | [c], _, hcm =>
      have h1 := hcm c (List.mem_singleton.mpr rfl)
      cases c with
      | WlanDeviceServiceCommand a b n buf d => exact ⟨rfl, rfl, rfl, by simp [WlanCall.isCommand]⟩
      | WlanOpenHandle v => simp [WlanCall.isCommand] at h1
      | WlanEnumInterfaces v => simp [WlanCall.isCommand] at h1
      | WlanCloseHandle v => simp [WlanCall.isCommand] at h1
    | _ :: _ :: _, hl, _ => simp at hl
  · intro ho
    have h : (GetSetSARWiFi crt env dwOpCode s m argc argv).calls =
        [WlanCall.WlanOpenHandle 2] := by
      unfold GetSetSARWiFi
      simp only [ne_eq, ho, not_false_eq_true, if_true]
      rfl
    rw [h]
    exact ⟨rfl, rfl, rfl⟩

/-- The handle of a GET whose interface enumeration fails with error 5 is closed once. -/
theorem channel_lifetime_witness :
    (GetSetSARWiFi exampleRuntime { exampleEnv with enumResult := 5 } WDI_GET_SAR_STATE
        0 0 0 []).calls =
      [WlanCall.WlanOpenHandle 2, WlanCall.WlanEnumInterfaces 77,
        WlanCall.WlanCloseHandle 77] ∧
    (GetSetSARWiFi exampleRuntime { exampleEnv with enumResult := 5 } WDI_GET_SAR_STATE
        0 0 0 []).calls.filter WlanCall.isClose = [WlanCall.WlanCloseHandle 77] :=
  ⟨by decide,
    ((channel_lifetime exampleRuntime { exampleEnv with enumResult := 5 } WDI_GET_SAR_STATE
      0 0 0 []).1 (by decide) (by decide)).1⟩

/-! ## Validation of the cellular set mode -/

theorem tdiv_natCast_two (n : Nat) : Int.tdiv (n : Int) 2 = ((n / 2 : Nat) : Int) := rfl

/-- The set mode of `GetSetSARLTE` once the SAR manager is obtained, by the number of
argument pairs. -/
theorem getSetSARLTE_set (crt : CRuntime) (env : ModemEnv) (n : Nat) (argv : List String)
    (ha : env.acquireError = none) (hv : env.sarManagerValid = true) :
    GetSetSARLTE crt env false (n : Int) argv =
      if n / 2 ≠ 1 ∧ n / 2 ≠ 2 then ⟨E_INVALIDARG, [], [], [LtePrinted.invalidPairs]⟩
      else
        match env.setConfigurationError (GetSetSARLTE.antennas crt ((n / 2 : Nat) : Int) argv) with
        | some e =>
          ⟨S_OK, [GetSetSARLTE.antennas crt ((n / 2 : Nat) : Int) argv], [],
            GetSetSARLTE.settingLines ((n / 2 : Nat) : Int) argv ++ [LtePrinted.error e]⟩
        | none =>
          ⟨S_OK, [GetSetSARLTE.antennas crt ((n / 2 : Nat) : Int) argv],
            [GetSetSARLTE.antennas crt ((n / 2 : Nat) : Int) argv],
            GetSetSARLTE.settingLines ((n / 2 : Nat) : Int) argv⟩ := by
  unfold GetSetSARLTE
  simp only [ha, hv, Bool.not_true, Bool.false_eq_true, if_false, tdiv_natCast_two]
  by_cases h : n / 2 ≠ 1 ∧ n / 2 ≠ 2
  · have h2 : ((n / 2 : Nat) : Int) ≠ 1 ∧ ((n / 2 : Nat) : Int) ≠ 2 := by omega
    rw [if_pos h, if_pos h2]
  · have h2 : ¬ (((n / 2 : Nat) : Int) ≠ 1 ∧ ((n / 2 : Nat) : Int) ≠ 2) := by omega
    rw [if_neg h, if_neg h2]

theorem antennas_one (crt : CRuntime) (argv : List String) :
    GetSetSARLTE.antennas crt ((1 : Nat) : Int) argv =
      [(crt.atoi (argv.getD 0 ""), crt.atoi (argv.getD 1 ""))] := by
  simp [GetSetSARLTE.antennas]

theorem antennas_two (crt : CRuntime) (argv : List String) :
    GetSetSARLTE.antennas crt ((2 : Nat) : Int) argv =
      [(crt.atoi (argv.getD 0 ""), crt.atoi (argv.getD 1 "")),
        (crt.atoi (argv.getD 2 ""), crt.atoi (argv.getD 3 ""))] := by
  simp [GetSetSARLTE.antennas]

theorem settingLines_one (argv : List String) :
    GetSetSARLTE.settingLines ((1 : Nat) : Int) argv =
      [LtePrinted.setting (argv.getD 0 "") (argv.getD 1 "")] := by
  simp [GetSetSARLTE.settingLines]

theorem settingLines_two (argv : List String) :
    GetSetSARLTE.settingLines ((2 : Nat) : Int) argv =
      [LtePrinted.setting (argv.getD 0 "") (argv.getD 1 ""),
        LtePrinted.setting (argv.getD 2 "") (argv.getD 3 "")] := by
  simp [GetSetSARLTE.settingLines]

theorem getD_take (argv : List String) (k i : Nat) (h : i < k) :
    (argv.take k).getD i "" = argv.getD i "" := by
  simp [List.getD_eq_getElem?_getD, List.getElem?_take, h]

/-- C25: in set mode, with the SAR manager obtained and `n` arguments, `GetSetSARLTE`
returns `E_INVALIDARG` exactly when `n / 2` is neither 1 nor 2, that is when `n < 2` or
`n > 5`, and then hands no configuration to `SetConfigurationAsync`; otherwise it returns
`S_OK` and hands over one configuration of `n / 2` pairs, `{atoi(argv[0]), atoi(argv[1])}`
then `{atoi(argv[2]), atoi(argv[3])}`, which is applied when the modem raises no error; an
unpaired last argument changes nothing: the outcome is that of the same call without it. -/
theorem lte_set_validation (crt : CRuntime) (env : ModemEnv) (n : Nat) (argv : List String)
    (ha : env.acquireError = none) (hv : env.sarManagerValid = true) :
    ((GetSetSARLTE crt env false (n : Int) argv).hr = E_INVALIDARG ↔
      (n / 2 ≠ 1 ∧ n / 2 ≠ 2)) ∧
    ((n / 2 ≠ 1 ∧ n / 2 ≠ 2) ↔ (n < 2 ∨ 5 < n)) ∧
    (n < 2 ∨ 5 < n →
      (GetSetSARLTE crt env false (n : Int) argv).requested = [] ∧
      (GetSetSARLTE crt env false (n : Int) argv).applied = []) ∧
    (n / 2 = 1 →
      (GetSetSARLTE crt env false (n : Int) argv).hr = S_OK ∧
      (GetSetSARLTE crt env false (n : Int) argv).requested =
        [[(crt.atoi (argv.getD 0 ""), crt.atoi (argv.getD 1 ""))]] ∧
      (env.setConfigurationError [(crt.atoi (argv.getD 0 ""), crt.atoi (argv.getD 1 ""))] =
          none →
        (GetSetSARLTE crt env false (n : Int) argv).applied =
          [[(crt.atoi (argv.getD 0 ""), crt.atoi (argv.getD 1 ""))]])) ∧
    (n / 2 = 2 →
      (GetSetSARLTE crt env false (n : Int) argv).hr = S_OK ∧
      (GetSetSARLTE crt env false (n : Int) argv).requested =
        [[(crt.atoi (argv.getD 0 ""), crt.atoi (argv.getD 1 "")),
          (crt.atoi (argv.getD 2 ""), crt.atoi (argv.getD 3 ""))]] ∧
      (env.setConfigurationError [(crt.atoi (argv.getD 0 ""), crt.atoi (argv.getD 1 "")),
          (crt.atoi (argv.getD 2 ""), crt.atoi (argv.getD 3 ""))] = none →
        (GetSetSARLTE crt env false (n : Int) argv).applied =
          [[(crt.atoi (argv.getD 0 ""), crt.atoi (argv.getD 1 "")),
            (crt.atoi (argv.getD 2 ""), crt.atoi (argv.getD 3 ""))]])) ∧
    (2 ≤ n → n ≤ 5 →
      GetSetSARLTE crt env false (n : Int) argv =
        GetSetSARLTE crt env false ((2 * (n / 2) : Nat) : Int) (argv.take (2 * (n / 2)))) := by
  have hne : E_INVALIDARG ≠ S_OK := by decide
  have hform := getSetSARLTE_set crt env n argv ha hv
  refine ⟨?_, by omega, ?_, ?_, ?_, ?_⟩
  · rw [hform]
    by_cases h : n / 2 ≠ 1 ∧ n / 2 ≠ 2
    · rw [if_pos h]
      exact ⟨fun _ => h, fun _ => rfl⟩
    · rw [if_neg h]
      constructor
      · intro hhr
        exfalso
        revert hhr
        split <;> exact fun hhr => hne hhr.symm
      · intro h2
        exact absurd h2 h
  · intro hn
    have h : n / 2 ≠ 1 ∧ n / 2 ≠ 2 := by omega
    rw [hform, if_pos h]
    exact ⟨rfl, rfl⟩
  · intro h1
    have h : ¬ (n / 2 ≠ 1 ∧ n / 2 ≠ 2) := by omega
    rw [hform, if_neg h, h1, antennas_one]
    cases hs : env.setConfigurationError
        [(crt.atoi (argv.getD 0 ""), crt.atoi (argv.getD 1 ""))] with
    | none => exact ⟨rfl, rfl, fun _ => rfl⟩
    | some e => exact ⟨rfl, rfl, fun hc => by cases hc⟩
  · intro h2
    have h : ¬ (n / 2 ≠ 1 ∧ n / 2 ≠ 2) := by omega
    rw [hform, if_neg h, h2, antennas_two]
    cases hs : env.setConfigurationError
        [(crt.atoi (argv.getD 0 ""), crt.atoi (argv.getD 1 "")),
          (crt.atoi (argv.getD 2 ""), crt.atoi (argv.getD 3 ""))] with
    | none => exact ⟨rfl, rfl, fun _ => rfl⟩
    | some e => exact ⟨rfl, rfl, fun hc => by cases hc⟩
  · intro hlo hhi
    have hcases : n / 2 = 1 ∨ n / 2 = 2 := by omega
    rw [hform, getSetSARLTE_set crt env (2 * (n / 2)) (argv.take (2 * (n / 2))) ha hv]
    rcases hcases with h1 | h2
    · have e1 : 2 * (n / 2) / 2 = 1 := by omega
      rw [e1, h1, antennas_one, antennas_one, settingLines_one, settingLines_one,
        getD_take argv (2 * 1) 0 (by decide), getD_take argv (2 * 1) 1 (by decide)]
    · have e2 : 2 * (n / 2) / 2 = 2 := by omega
      rw [e2, h2, antennas_two, antennas_two, settingLines_two, settingLines_two,
        getD_take argv (2 * 2) 0 (by decide), getD_take argv (2 * 2) 1 (by decide),
        getD_take argv (2 * 2) 2 (by decide), getD_take argv (2 * 2) 3 (by decide)]

/-- Three arguments `7 5 9`: the modem is handed the one pair `{7, 5}`. -/
theorem lte_set_validation_witness :
    exampleModem.acquireError = none ∧ exampleModem.sarManagerValid = true ∧
    (GetSetSARLTE exampleRuntime exampleModem false 3 ["7", "5", "9"]).requested =
      [[(7, 5)]] :=
  ⟨rfl, rfl,
    ((lte_set_validation exampleRuntime exampleModem 3 ["7", "5", "9"] rfl rfl).2.2.2.1
      (by decide)).2.1⟩

/-! ## The wait loop of `unsolMon wifi` -/

/-- The loop ends at the first test that finds the counter at 128 or more, given tests
enough to reach it. -/
theorem waitLoop_some (s : Nat → Int) (k : Nat) :
    ∀ (fuel k0 : Nat), (∀ j, j < k → s (k0 + j) < 128) → 128 ≤ s (k0 + k) → k < fuel →
      main.waitLoop s fuel k0 = some (k0 + k) := by
  induction k with
  | zero =>
    intro fuel k0 _ hk hf
    cases fuel with
    | zero => omega
    | succ n =>
      have hk2 : ¬ s k0 < 128 := by simpa using hk
      simp only [main.waitLoop, hk2, if_false, Nat.add_zero]
  | succ i ih =>
    intro fuel k0 hlt hk hf
    cases fuel with
    | zero => omega
    | succ n =>
      have h0 : s k0 < 128 := by simpa using hlt 0 (by omega)
      simp only [main.waitLoop, h0, if_true]
      rw [ih n (k0 + 1) (fun j hj => by
        have := hlt (j + 1) (by omega)
        rwa [show k0 + (j + 1) = k0 + 1 + j by omega] at this)
        (by rwa [show k0 + (i + 1) = k0 + 1 + i by omega] at hk) (by omega)]
      congr 1
      omega

/-- The `unsolMon wifi` command line reaches `main.unsolMonWiFi`. -/
theorem main_unsolMon_wifi (crt : CRuntime) (ops : Operations) (fuel : Nat)
    (argv : List String) (h3 : ¬ (argv.length : Int) < 3)
    (hc : stricmpEq (argv.getD 1 "") CMD_UNSOLMON = true)
    (hw : stricmpEq (argv.getD 2 "") "wifi" = true) :
    main crt ops fuel argv = main.unsolMonWiFi ops fuel := by
  have h2 : ¬ (argv.length : Int) < 2 := by omega
  have hl := stricmpEq_excl _ _ "lte" hw (by decide)
  rw [main_of_unsolMon crt ops fuel argv h2 hc]
  simp only [main.unsolMon, h3, hl, hw, if_true, if_false, Bool.false_eq_true]

/-- C21, as stated, fails: on a system where registration succeeds and no notification
arrives, the wait loop of `SarTool.exe unsolMon wifi` has not ended after any number of
tests, each but the first preceded by a `Sleep(5000)`: no duration ends it. -/
theorem wifi_wait_has_no_duration :
    UnsolicitedMonitor silentMonitor = ERROR_SUCCESS ∧
    (∀ k, silentMonitor.s_nCallbacks k < 128) ∧
    (∀ fuel, main.waitLoop silentMonitor.s_nCallbacks fuel 0 = none) ∧
    (∀ fuel, main exampleRuntime silentOperations fuel ["SarTool.exe", "unsolMon", "wifi"] =
      none) := by
  have hs : ∀ k, silentMonitor.s_nCallbacks k < 128 := fun _ => show (0 : Int) < 128 by decide
  have hl : ∀ fuel, main.waitLoop silentMonitor.s_nCallbacks fuel 0 = none :=
    fun fuel => (waitLoop_none _ fuel 0).2 (fun j _ => hs (0 + j))
  refine ⟨by decide, hs, hl, fun fuel => ?_⟩
  rw [main_unsolMon_wifi exampleRuntime silentOperations fuel
    ["SarTool.exe", "unsolMon", "wifi"] (by decide) (by decide) (by decide)]
  have hm : silentOperations.monitor = silentMonitor := rfl
  have ho : silentMonitor.openResult = ERROR_SUCCESS := by decide
  have hu : UnsolicitedMonitor silentMonitor = ERROR_SUCCESS := by decide
  simp only [main.unsolMonWiFi, hm, ho, hu, ne_eq, not_true_eq_false, if_false, if_true, hl]

/-- A loop that ended did so at a test that found the counter at 128 or more, every earlier
test having found it below. -/
theorem waitLoop_ended (s : Nat → Int) :
    ∀ (fuel k0 r : Nat), main.waitLoop s fuel k0 = some r →
      k0 ≤ r ∧ r < k0 + fuel ∧ 128 ≤ s r ∧ ∀ j, k0 ≤ j → j < r → s j < 128 := by
  intro fuel
  induction fuel with
  | zero =>
    intro k0 r h
    simp [main.waitLoop] at h
  | succ n ih =>
    intro k0 r h
    unfold main.waitLoop at h
    by_cases hk : s k0 < 128
    · rw [if_pos hk] at h
      obtain ⟨h1, h2, h3, h4⟩ := ih (k0 + 1) r h
      refine ⟨by omega, by omega, h3, fun j hj hr => ?_⟩
      by_cases hj0 : j = k0
      · rw [hj0]
        exact hk
      · exact h4 j (by omega) hr
    · rw [if_neg hk] at h
      have hr : k0 = r := by simpa using h
      subst hr
      exact ⟨le_refl _, by omega, by omega, fun j hj hr => by omega⟩

/-- C21, amended: once the handle is open and the registration has succeeded, the wait loop
of `unsolMon wifi` ends at the first of its tests, made before the first and after every
`Sleep(5000)`, that finds the received-notification count at its limit 128 or above, and
`main` then closes the handle and returns 0; it ends at no other moment: while the count
stays below 128 it has not ended after any number of tests, and whenever it ended a test
found the count at 128 or above. -/
theorem wifi_wait_ends_at_limit (crt : CRuntime) (ops : Operations) (argv : List String)
    (h3 : ¬ (argv.length : Int) < 3)
    (hc : stricmpEq (argv.getD 1 "") CMD_UNSOLMON = true)
    (hw : stricmpEq (argv.getD 2 "") "wifi" = true)
    (ho : ops.monitor.openResult = ERROR_SUCCESS)
    (hm : UnsolicitedMonitor ops.monitor = ERROR_SUCCESS) :
    (∀ k, (∀ j, j < k → ops.monitor.s_nCallbacks j < 128) →
      128 ≤ ops.monitor.s_nCallbacks k → ∀ fuel, k < fuel →
        main crt ops fuel argv = some ⟨0, S_OK, false,
          [Invocation.WlanOpenHandle, Invocation.UnsolicitedMonitor] ++
            List.replicate k (Invocation.Sleep 5000) ++ [Invocation.WlanCloseHandle]⟩) ∧
    ((∀ j, ops.monitor.s_nCallbacks j < 128) → ∀ fuel, main crt ops fuel argv = none) ∧
    (∀ fuel out, main crt ops fuel argv = some out →
      ∃ k, k < fuel ∧ 128 ≤ ops.monitor.s_nCallbacks k ∧
        (∀ j, j < k → ops.monitor.s_nCallbacks j < 128) ∧
        out.invoked = [Invocation.WlanOpenHandle, Invocation.UnsolicitedMonitor] ++
          List.replicate k (Invocation.Sleep 5000) ++ [Invocation.WlanCloseHandle]) := by
  have hmain : ∀ fuel, main crt ops fuel argv =
      match main.waitLoop ops.monitor.s_nCallbacks fuel 0 with
      | none => none
      | some sleeps =>
        some (main.Exit S_OK (UnsolicitedMonitor ops.monitor) false
          ([Invocation.WlanOpenHandle, Invocation.UnsolicitedMonitor] ++
            List.replicate sleeps (Invocation.Sleep 5000) ++ [Invocation.WlanCloseHandle])) := by
    intro fuel
    rw [main_unsolMon_wifi crt ops fuel argv h3 hc hw]
    simp only [main.unsolMonWiFi, ho, hm, ne_eq, not_true_eq_false, if_false, if_true]
  refine ⟨fun k hlt hk fuel hf => ?_, fun hall fuel => ?_, fun fuel out h => ?_⟩
  · have hl := waitLoop_some ops.monitor.s_nCallbacks k fuel 0
      (fun j hj => by simpa using hlt j hj) (by simpa using hk) hf
    rw [hmain fuel, hl]
    simp only [Nat.zero_add]
    rfl
  · have hl := (waitLoop_none ops.monitor.s_nCallbacks fuel 0).2 (fun j _ => hall (0 + j))
    rw [hmain fuel, hl]
  · rw [hmain fuel] at h
    cases hl : main.waitLoop ops.monitor.s_nCallbacks fuel 0 with
    | none =>
      rw [hl] at h
      simp at h
    | some k =>
      rw [hl] at h
      obtain ⟨_, h2, h3, h4⟩ := waitLoop_ended ops.monitor.s_nCallbacks fuel 0 k hl
      refine ⟨k, by omega, h3, fun j hj => h4 j (Nat.zero_le j) hj, ?_⟩
      have ho2 : main.Exit S_OK (UnsolicitedMonitor ops.monitor) false
          ([Invocation.WlanOpenHandle, Invocation.UnsolicitedMonitor] ++
            List.replicate k (Invocation.Sleep 5000) ++ [Invocation.WlanCloseHandle]) = out := by
        simpa using h
      rw [← ho2]
      rfl

/-- With two notifications every five seconds the loop ends at its 65th test, after 64
calls of `Sleep(5000)`. -/
theorem wifi_wait_ends_at_limit_witness :
    main exampleRuntime failingOperations 65 ["SarTool.exe", "unsolMon", "wifi"] =
      some ⟨0, S_OK, false,
        [Invocation.WlanOpenHandle, Invocation.UnsolicitedMonitor] ++
          List.replicate 64 (Invocation.Sleep 5000) ++ [Invocation.WlanCloseHandle]⟩ :=
  (wifi_wait_ends_at_limit exampleRuntime failingOperations
    ["SarTool.exe", "unsolMon", "wifi"] (by decide) (by decide) (by decide) (by decide)
    (by decide)).1 64 (fun j hj => show (2 * (j : Int)) < 128 by omega) (by decide) 65
    (by decide)


/-! ## What `main` returns for each command it dispatches -/

theorem main_getconfig_dispatch (crt : CRuntime) (ops : Operations) (fuel : Nat)
    (argv : List String) (h3 : ¬ (argv.length : Int) < 3)
    (hc : stricmpEq (argv.getD 1 "") CMD_GETCONFIG = true) :
    main crt ops fuel argv =
      (ops.GetConfig (argv.getD 2 "")).map fun hr =>
        ⟨if hr = S_OK then 0 else 1, hr, false, [Invocation.GetConfig (argv.getD 2 "")]⟩ := by
  rw [main_of_getconfig crt ops fuel argv (by omega) hc]
  simp only [main.getconfig, h3, if_false]
  rfl

theorem main_setconfig_dispatch (crt : CRuntime) (ops : Operations) (fuel : Nat)
    (argv : List String) (h3 : ¬ (argv.length : Int) < 3)
    (hc : stricmpEq (argv.getD 1 "") CMD_SETCONFIG = true) :
    main crt ops fuel argv =
      (ops.SetConfig (argv.getD 2 "")).map fun hr =>
        ⟨if hr = S_OK then 0 else 1, hr, false, [Invocation.SetConfig (argv.getD 2 "")]⟩ := by
  rw [main_of_setconfig crt ops fuel argv (by omega) hc]
  simp only [main.setconfig, h3, if_false]
  rfl

theorem main_getsar_lte_dispatch (crt : CRuntime) (ops : Operations) (fuel : Nat)
    (argv : List String) (h3 : ¬ (argv.length : Int) < 3)
    (hc : stricmpEq (argv.getD 1 "") CMD_GETSAR = true)
    (hl : stricmpEq (argv.getD 2 "") "lte" = true) :
    main crt ops fuel argv =
      some ⟨if ops.GetSetSARLTE true ((argv.length : Int) - 3) (argv.drop 3) = S_OK then 0
          else 1,
        ops.GetSetSARLTE true ((argv.length : Int) - 3) (argv.drop 3), false,
        [Invocation.GetSetSARLTE true ((argv.length : Int) - 3) (argv.drop 3)]⟩ := by
  rw [main_of_getsar crt ops fuel argv (by omega) hc]
  simp only [main.getsar, h3, hl, if_true, if_false]
  rfl

theorem main_getsar_wifi_dispatch (crt : CRuntime) (ops : Operations) (fuel : Nat)
    (argv : List String) (h3 : ¬ (argv.length : Int) < 3)
    (hc : stricmpEq (argv.getD 1 "") CMD_GETSAR = true)
    (hw : stricmpEq (argv.getD 2 "") "wifi" = true) :
    main crt ops fuel argv =
      some ⟨if ops.GetSetSARWiFi WDI_GET_SAR_STATE WDI_SARBACKOFF_ENABLED 0
            ((argv.length : Int) - 4) (argv.drop 4) = S_OK then 0 else 1,
        ops.GetSetSARWiFi WDI_GET_SAR_STATE WDI_SARBACKOFF_ENABLED 0
          ((argv.length : Int) - 4) (argv.drop 4), false,
        [Invocation.GetSetSARWiFi WDI_GET_SAR_STATE WDI_SARBACKOFF_ENABLED 0
          ((argv.length : Int) - 4) (argv.drop 4)]⟩ := by
  have hl := stricmpEq_excl _ _ "lte" hw (by decide)
  rw [main_of_getsar crt ops fuel argv (by omega) hc]
  simp only [main.getsar, h3, hl, hw, if_true, if_false, Bool.false_eq_true]
  rfl

theorem main_setsar_lte_dispatch (crt : CRuntime) (ops : Operations) (fuel : Nat)
    (argv : List String) (h4 : ¬ (argv.length : Int) < 4)
    (hc : stricmpEq (argv.getD 1 "") CMD_SETSAR = true)
    (hl : stricmpEq (argv.getD 2 "") "lte" = true) :
    main crt ops fuel argv =
      some ⟨if ops.GetSetSARLTE false ((argv.length : Int) - 3) (argv.drop 3) = S_OK then 0
          else 1,
        ops.GetSetSARLTE false ((argv.length : Int) - 3) (argv.drop 3), false,
        [Invocation.GetSetSARLTE false ((argv.length : Int) - 3) (argv.drop 3)]⟩ := by
  rw [main_of_setsar crt ops fuel argv (by omega) hc]
  simp only [main.setsar, h4, hl, if_true, if_false]
  rfl

theorem main_setsar_wifi_dispatch (crt : CRuntime) (ops : Operations) (fuel : Nat)
    (argv : List String) (h4 : ¬ (argv.length : Int) < 4)
    (hc : stricmpEq (argv.getD 1 "") CMD_SETSAR = true)
    (hw : stricmpEq (argv.getD 2 "") "wifi" = true) :
    main crt ops fuel argv =
      match main.setsarWiFi crt argv with
      | Except.error hr => some ⟨if hr = S_OK then 0 else 1, hr, true, []⟩
      | Except.ok args =>
        some ⟨if ops.GetSetSARWiFi WDI_SET_SAR_STATE args.wdiSARBackoffState
              args.mimoConfigType args.argCount args.argList = S_OK then 0 else 1,
          ops.GetSetSARWiFi WDI_SET_SAR_STATE args.wdiSARBackoffState args.mimoConfigType
            args.argCount args.argList, false,
          [Invocation.GetSetSARWiFi WDI_SET_SAR_STATE args.wdiSARBackoffState
            args.mimoConfigType args.argCount args.argList]⟩ := by
  have hl := stricmpEq_excl _ _ "lte" hw (by decide)
  rw [main_of_setsar crt ops fuel argv (by omega) hc]
  simp only [main.setsar, h4, hl, hw, if_true, if_false, Bool.false_eq_true]
  cases main.setsarWiFi crt argv <;> rfl

theorem setsarWiFi_error (crt : CRuntime) (argv : List String) (e : Nat)
    (h : main.setsarWiFi crt argv = Except.error e) : e = E_INVALIDARG := by
  unfold main.setsarWiFi at h
  simp only at h
  split at h
  · split at h
    · injection h with h
      exact h.symm
    · cases h
  · split at h
    · cases h
    · injection h with h
      exact h.symm

theorem main_unsolMon_lte_dispatch (crt : CRuntime) (ops : Operations) (fuel : Nat)
    (argv : List String) (h3 : ¬ (argv.length : Int) < 3)
    (hc : stricmpEq (argv.getD 1 "") CMD_UNSOLMON = true)
    (hl : stricmpEq (argv.getD 2 "") "lte" = true) :
    main crt ops fuel argv =
      some ⟨if ops.LteTxStatusMonitor = S_OK then 0 else 1, ops.LteTxStatusMonitor, false,
        [Invocation.LteTxStatusMonitor]⟩ := by
  rw [main_of_unsolMon crt ops fuel argv (by omega) hc]
  simp only [main.unsolMon, h3, hl, if_true, if_false]
  rfl

theorem main_unsolMon_wifi_dispatch (crt : CRuntime) (ops : Operations) (fuel : Nat)
    (argv : List String) (h3 : ¬ (argv.length : Int) < 3)
    (hc : stricmpEq (argv.getD 1 "") CMD_UNSOLMON = true)
    (hw : stricmpEq (argv.getD 2 "") "wifi" = true) :
    main crt ops fuel argv =
      if ops.monitor.openResult ≠ ERROR_SUCCESS then
        some ⟨1, HRESULT_FROM_WIN32 ops.monitor.openResult, false, [Invocation.WlanOpenHandle]⟩
      else if UnsolicitedMonitor ops.monitor = ERROR_SUCCESS then
        (main.waitLoop ops.monitor.s_nCallbacks fuel 0).map fun sleeps =>
          ⟨0, S_OK, false,
            [Invocation.WlanOpenHandle, Invocation.UnsolicitedMonitor] ++
              List.replicate sleeps (Invocation.Sleep 5000) ++ [Invocation.WlanCloseHandle]⟩
      else
        some ⟨1, E_FAIL, false,
          [Invocation.WlanOpenHandle, Invocation.UnsolicitedMonitor,
            Invocation.WlanCloseHandle]⟩ := by
  rw [main_unsolMon_wifi crt ops fuel argv h3 hc hw]
  unfold main.unsolMonWiFi
  by_cases ho : ops.monitor.openResult ≠ ERROR_SUCCESS
  · rw [if_pos ho, if_pos ho]
    have hne := HRESULT_FROM_WIN32_ne_S_OK _ ho
    simp only [main.Exit, hne, if_false]
  · rw [if_neg ho, if_neg ho]
    by_cases hm : UnsolicitedMonitor ops.monitor = ERROR_SUCCESS
    · rw [if_pos hm, if_pos hm]
      cases main.waitLoop ops.monitor.s_nCallbacks fuel 0 <;> rfl
    · rw [if_neg hm, if_neg hm]
      have h1 : UnsolicitedMonitor ops.monitor = 1 := by
        rcases unsolicitedMonitor_values ops.monitor with h | h
        · exact absurd h hm
        · exact h
      rw [h1]
      rfl

/-- C16: for every command `main` dispatches, the `hr` it ends with is the `HRESULT` the
operation returned (`GetConfig`, `SetConfig`, `GetSetSARLTE`, `GetSetSARWiFi`,
`LteTxStatusMonitor` with the arguments `main` passes; on `unsolMon wifi` the `HRESULT` of a
failed `WlanOpenHandle`, `E_FAIL` after a failed `UnsolicitedMonitor`, `S_OK` once the wait
loop has ended), and the value returned is 0 exactly when that `hr` is `S_OK` and 1 in every
other case; `main` returns unless the process ends inside `GetConfig` or `SetConfig` or the
`unsolMon wifi` wait loop sees the counter below 128 at every test. A missing command, an
unrecognised command, a missing required argument (the third for `getconfig`, `setconfig`,
`getsar` and `unsolMon`, the fourth for `setsar`, the seventh for `setsar wifi on`), a radio
selector other than `wifi` or `lte` and a `setsar wifi` state other than `on` or `off`, all
compared without regard to case, give exit code 1 with `PrintUsage` and no operation
invoked. -/
theorem main_exit_code (crt : CRuntime) (ops : Operations) (fuel : Nat) (argv : List String) :
    (∀ out, main crt ops fuel argv = some out →
      (out.nReturnVal = 0 ↔ out.hr = S_OK) ∧ (out.hr ≠ S_OK → out.nReturnVal = 1)) ∧
    (main crt ops fuel argv = none →
      ops.GetConfig (argv.getD 2 "") = none ∨ ops.SetConfig (argv.getD 2 "") = none ∨
      (stricmpEq (argv.getD 1 "") CMD_UNSOLMON = true ∧
        stricmpEq (argv.getD 2 "") "wifi" = true ∧
        ∀ k, k < fuel → ops.monitor.s_nCallbacks k < 128)) ∧
    ((argv.length : Int) < 2 → main crt ops fuel argv = some ⟨1, E_INVALIDARG, true, []⟩) ∧
    (stricmpEq (argv.getD 1 "") CMD_GETCONFIG = false →
      stricmpEq (argv.getD 1 "") CMD_SETCONFIG = false →
      stricmpEq (argv.getD 1 "") CMD_GETSAR = false →
      stricmpEq (argv.getD 1 "") CMD_SETSAR = false →
      stricmpEq (argv.getD 1 "") CMD_UNSOLMON = false →
      main crt ops fuel argv = some ⟨1, E_INVALIDARG, true, []⟩) ∧
    ((stricmpEq (argv.getD 1 "") CMD_GETCONFIG = true ∨
        stricmpEq (argv.getD 1 "") CMD_SETCONFIG = true ∨
        stricmpEq (argv.getD 1 "") CMD_GETSAR = true ∨
        stricmpEq (argv.getD 1 "") CMD_UNSOLMON = true) →
      (argv.length : Int) < 3 → main crt ops fuel argv = some ⟨1, E_INVALIDARG, true, []⟩) ∧
    (stricmpEq (argv.getD 1 "") CMD_SETSAR = true → (argv.length : Int) < 4 →
      main crt ops fuel argv = some ⟨1, E_INVALIDARG, true, []⟩) ∧
    (stricmpEq (argv.getD 1 "") CMD_SETSAR = true → stricmpEq (argv.getD 2 "") "wifi" = true →
      stricmpEq (argv.getD 3 "") "on" = true → (argv.length : Int) < 7 →
      main crt ops fuel argv = some ⟨1, E_INVALIDARG, true, []⟩) ∧
    ((stricmpEq (argv.getD 1 "") CMD_GETSAR = true ∨
        stricmpEq (argv.getD 1 "") CMD_SETSAR = true ∨
        stricmpEq (argv.getD 1 "") CMD_UNSOLMON = true) →
      stricmpEq (argv.getD 2 "") "lte" = false → stricmpEq (argv.getD 2 "") "wifi" = false →
      main crt ops fuel argv = some ⟨1, E_INVALIDARG, true, []⟩) ∧
    (¬ (argv.length : Int) < 3 → stricmpEq (argv.getD 1 "") CMD_GETCONFIG = true →
      main crt ops fuel argv =
        (ops.GetConfig (argv.getD 2 "")).map fun hr =>
          ⟨if hr = S_OK then 0 else 1, hr, false, [Invocation.GetConfig (argv.getD 2 "")]⟩) ∧
    (¬ (argv.length : Int) < 3 → stricmpEq (argv.getD 1 "") CMD_SETCONFIG = true →
      main crt ops fuel argv =
        (ops.SetConfig (argv.getD 2 "")).map fun hr =>
          ⟨if hr = S_OK then 0 else 1, hr, false, [Invocation.SetConfig (argv.getD 2 "")]⟩) ∧
    (¬ (argv.length : Int) < 3 → stricmpEq (argv.getD 1 "") CMD_GETSAR = true →
      stricmpEq (argv.getD 2 "") "lte" = true →
      main crt ops fuel argv =
        some ⟨if ops.GetSetSARLTE true ((argv.length : Int) - 3) (argv.drop 3) = S_OK then 0
            else 1,
          ops.GetSetSARLTE true ((argv.length : Int) - 3) (argv.drop 3), false,
          [Invocation.GetSetSARLTE true ((argv.length : Int) - 3) (argv.drop 3)]⟩) ∧
    (¬ (argv.length : Int) < 3 → stricmpEq (argv.getD 1 "") CMD_GETSAR = true →
      stricmpEq (argv.getD 2 "") "wifi" = true →
      main crt ops fuel argv =
        some ⟨if ops.GetSetSARWiFi WDI_GET_SAR_STATE WDI_SARBACKOFF_ENABLED 0
              ((argv.length : Int) - 4) (argv.drop 4) = S_OK then 0 else 1,
          ops.GetSetSARWiFi WDI_GET_SAR_STATE WDI_SARBACKOFF_ENABLED 0
            ((argv.length : Int) - 4) (argv.drop 4), false,
          [Invocation.GetSetSARWiFi WDI_GET_SAR_STATE WDI_SARBACKOFF_ENABLED 0
            ((argv.length : Int) - 4) (argv.drop 4)]⟩) ∧
    (¬ (argv.length : Int) < 4 → stricmpEq (argv.getD 1 "") CMD_SETSAR = true →
      stricmpEq (argv.getD 2 "") "lte" = true →
      main crt ops fuel argv =
        some ⟨if ops.GetSetSARLTE false ((argv.length : Int) - 3) (argv.drop 3) = S_OK then 0
            else 1,
          ops.GetSetSARLTE false ((argv.length : Int) - 3) (argv.drop 3), false,
          [Invocation.GetSetSARLTE false ((argv.length : Int) - 3) (argv.drop 3)]⟩) ∧
    (¬ (argv.length : Int) < 4 → stricmpEq (argv.getD 1 "") CMD_SETSAR = true →
      stricmpEq (argv.getD 2 "") "wifi" = true →
      (∀ args, main.setsarWiFi crt argv = Except.ok args →
        main crt ops fuel argv =
          some ⟨if ops.GetSetSARWiFi WDI_SET_SAR_STATE args.wdiSARBackoffState
                args.mimoConfigType args.argCount args.argList = S_OK then 0 else 1,
            ops.GetSetSARWiFi WDI_SET_SAR_STATE args.wdiSARBackoffState args.mimoConfigType
              args.argCount args.argList, false,
            [Invocation.GetSetSARWiFi WDI_SET_SAR_STATE args.wdiSARBackoffState
              args.mimoConfigType args.argCount args.argList]⟩) ∧
      (∀ e, main.setsarWiFi crt argv = Except.error e →
        main crt ops fuel argv = some ⟨1, E_INVALIDARG, true, []⟩)) ∧
    (¬ (argv.length : Int) < 3 → stricmpEq (argv.getD 1 "") CMD_UNSOLMON = true →
      stricmpEq (argv.getD 2 "") "lte" = true →
      main crt ops fuel argv =
        some ⟨if ops.LteTxStatusMonitor = S_OK then 0 else 1, ops.LteTxStatusMonitor, false,
          [Invocation.LteTxStatusMonitor]⟩) ∧
    (¬ (argv.length : Int) < 3 → stricmpEq (argv.getD 1 "") CMD_UNSOLMON = true →
      stricmpEq (argv.getD 2 "") "wifi" = true →
      main crt ops fuel argv =
        if ops.monitor.openResult ≠ ERROR_SUCCESS then
          some ⟨1, HRESULT_FROM_WIN32 ops.monitor.openResult, false,
            [Invocation.WlanOpenHandle]⟩
        else if UnsolicitedMonitor ops.monitor = ERROR_SUCCESS then
          (main.waitLoop ops.monitor.s_nCallbacks fuel 0).map fun sleeps =>
            ⟨0, S_OK, false,
              [Invocation.WlanOpenHandle, Invocation.UnsolicitedMonitor] ++
                List.replicate sleeps (Invocation.Sleep 5000) ++ [Invocation.WlanCloseHandle]⟩
        else
          some ⟨1, E_FAIL, false,
            [Invocation.WlanOpenHandle, Invocation.UnsolicitedMonitor,
              Invocation.WlanCloseHandle]⟩) ∧
    E_INVALIDARG ≠ S_OK ∧ E_FAIL ≠ S_OK ∧
    (ops.monitor.openResult ≠ ERROR_SUCCESS →
      HRESULT_FROM_WIN32 ops.monitor.openResult ≠ S_OK) := by
  refine ⟨fun out h => ?_, main_none crt ops fuel argv, fun h => ?_, fun h1 h2 h3 h4 h5 => ?_,
    fun hc h3 => ?_, fun hc h4 => ?_, fun hc hw hon h7 => ?_, fun hc hl hw => ?_,
    main_getconfig_dispatch crt ops fuel argv, main_setconfig_dispatch crt ops fuel argv,
    main_getsar_lte_dispatch crt ops fuel argv, main_getsar_wifi_dispatch crt ops fuel argv,
    main_setsar_lte_dispatch crt ops fuel argv, fun h4 hc hw => ⟨fun args ha => ?_,
      fun e he => ?_⟩,
    main_unsolMon_lte_dispatch crt ops fuel argv, main_unsolMon_wifi_dispatch crt ops fuel argv,
    by decide, by decide, HRESULT_FROM_WIN32_ne_S_OK _⟩
  · obtain ⟨hr, n, usage, invoked, rfl, hn⟩ := main_outcome_shape crt ops fuel argv out h
    exact exit_code hr n usage invoked hn
  · rw [main_short crt ops fuel argv h, usage_eq]
  · rw [main_unrecognised crt ops fuel argv h1 h2 h3 h4 h5, usage_eq]
  · rw [main_missing_third crt ops fuel argv h3 hc, usage_eq]
  · rw [main_setsar_short crt ops fuel argv h4 hc, usage_eq]
  · rw [main_setsar_on_short crt ops fuel argv h7 hc hw hon, usage_eq]
  · rw [main_bad_selector crt ops fuel argv hc hl hw, usage_eq]
  · rw [main_setsar_wifi_dispatch crt ops fuel argv h4 hc hw, ha]
  · rw [main_setsar_wifi_dispatch crt ops fuel argv h4 hc hw, he,
      setsarWiFi_error crt argv e he]
    rfl

/-- Witness for C16: `SarTool.exe getsar bluetooth` is rejected with exit code 1;
`SarTool.exe getconfig uefi` without the firmware-access privilege ends with the `HRESULT`
`GetConfig` returned, `0x80070005`, and exit code 1; `SarTool.exe setconfig uefi` ends with
the `S_OK` that `SetConfig` returned and exit code 0. -/
theorem main_exit_code_witness :
    main exampleRuntime failingOperations 100 ["SarTool.exe", "getsar", "bluetooth"] =
      some ⟨1, E_INVALIDARG, true, []⟩ ∧
    unprivilegedOperations.GetConfig "uefi" = some 0x80070005 ∧
    main exampleRuntime unprivilegedOperations 0 ["SarTool.exe", "getconfig", "uefi"] =
      some ⟨1, 0x80070005, false, [Invocation.GetConfig "uefi"]⟩ ∧
    failingOperations.SetConfig "uefi" = some S_OK ∧
    main exampleRuntime failingOperations 0 ["SarTool.exe", "setconfig", "uefi"] =
      some ⟨0, S_OK, false, [Invocation.SetConfig "uefi"]⟩ :=
  ⟨(main_exit_code exampleRuntime failingOperations 100
      ["SarTool.exe", "getsar", "bluetooth"]).2.2.2.2.2.2.2.1 (by decide) (by decide)
      (by decide),
    by decide,
    (main_exit_code exampleRuntime unprivilegedOperations 0
      ["SarTool.exe", "getconfig", "uefi"]).2.2.2.2.2.2.2.2.1 (by decide) (by decide),
    by decide,
    (main_exit_code exampleRuntime failingOperations 0
      ["SarTool.exe", "setconfig", "uefi"]).2.2.2.2.2.2.2.2.2.1 (by decide) (by decide)⟩

end SarTool
